import Mathlib

/-
  Verification development for gdalpamrasterband.cpp (GDAL core, PAM raster
  band overlay).  The C++ translation unit is shallowly embedded: the
  per-band PAM record and the band wrapper become Lean structures, the XML
  document tree (cpl_minixml collaborator, treated as an abstract DOM by the
  spec) becomes an inductive tree, and each method of GDALPamRasterBand
  becomes a pure state-passing function.  C doubles are modelled as exact
  rationals; the locale-independent printf/parse text codec for numbers
  (CPL collaborator, not part of src/) is modelled value-exact, with the
  printed numeric kind recorded on each text leaf.
-/

set_option maxHeartbeats 2000000

namespace GdalPam

/-- CPLErr result codes (cpl_error.h collaborator): the two values this
translation unit produces. -/
inductive CPLErr where
  | CE_None
  | CE_Failure
deriving DecidableEq, Repr

/-- Error classes this translation unit passes to CPLError. -/
inductive CPLErrClass where
  | CPLE_AppDefined
  | CPLE_OutOfMemory
deriving DecidableEq, Repr

/-- GDALDataType: the source only branches on GDT_Int64 / GDT_UInt64;
representatives of the remaining pixel types are kept. -/
inductive GDALDataType where
  | GDT_Byte
  | GDT_Float64
  | GDT_Int64
  | GDT_UInt64
deriving DecidableEq, Repr

/-- GDALColorInterp: the values the claims touch plus a few others. -/
inductive GDALColorInterp where
  | GCI_Undefined
  | GCI_GrayIndex
  | GCI_PaletteIndex
  | GCI_RedBand
  | GCI_GreenBand
  | GCI_BlueBand
  | GCI_AlphaBand
deriving DecidableEq, Repr

/-- GDALGetColorInterpretationName (gdal collaborator): canonical name of a
color interpretation, an injective map. -/
def colorInterpName : GDALColorInterp → String
  | .GCI_Undefined => "Undefined"
  | .GCI_GrayIndex => "Gray"
  | .GCI_PaletteIndex => "Palette"
  | .GCI_RedBand => "Red"
  | .GCI_GreenBand => "Green"
  | .GCI_BlueBand => "Blue"
  | .GCI_AlphaBand => "Alpha"

/-- ASCII lower-casing of one character (CPL EQUAL is a case-insensitive
ASCII compare). -/
def lcChar (c : Char) : Char :=
  if 'A' ≤ c ∧ c ≤ 'Z' then Char.ofNat (c.toNat + 32) else c

/-- EQUAL (cpl collaborator): case-insensitive string equality. -/
def cplEQUAL (a b : String) : Bool :=
  a.data.map lcChar == b.data.map lcChar

/-- GDALGetColorInterpretationByName (gdal collaborator): inverse of
colorInterpName up to case, defaulting to GCI_Undefined. -/
def colorInterpByName (s : String) : GDALColorInterp :=
  if cplEQUAL s "Gray" then .GCI_GrayIndex
  else if cplEQUAL s "Palette" then .GCI_PaletteIndex
  else if cplEQUAL s "Red" then .GCI_RedBand
  else if cplEQUAL s "Green" then .GCI_GreenBand
  else if cplEQUAL s "Blue" then .GCI_BlueBand
  else if cplEQUAL s "Alpha" then .GCI_AlphaBand
  else .GCI_Undefined

/-- Decimal value of a digit list (most significant first). -/
def digitsVal (l : List Char) : Nat :=
  l.foldl (fun a c => a * 10 + (c.toNat - 48)) 0

/-- atoi / atoll / CPLAtoGIntBig (C library collaborators): an optional
leading minus sign followed by leading decimal digits; the parse stops at the
first non-digit, and junk parses as 0. -/
def atoiStr (s : String) : Int :=
  match s.data with
  | '-' :: r => - ((digitsVal (r.takeWhile Char.isDigit) : Nat) : Int)
  | l => ((digitsVal (l.takeWhile Char.isDigit) : Nat) : Int)

/-- Fractional part value of a digit list placed after the decimal point. -/
def fracVal (l : List Char) : ℚ :=
  l.foldr (fun c a => (a + (((c.toNat - 48 : Nat) : ℚ))) / 10) 0

/-- Value of an unsigned decimal literal with optional fraction. -/
def cplAtofPos (l : List Char) : ℚ :=
  let ip := l.takeWhile Char.isDigit
  match l.drop ip.length with
  | '.' :: fr => ((digitsVal ip : Nat) : ℚ) + fracVal (fr.takeWhile Char.isDigit)
  | _ => ((digitsVal ip : Nat) : ℚ)

/-- CPLAtof / CPLAtofM on raw character data (only reachable for documents
built by hand with plain-string leaves; values printed by this translation
unit carry their numeric kind, see XV). -/
def cplAtofStr (s : String) : ℚ :=
  match s.data with
  | '-' :: r => - cplAtofPos r
  | l => cplAtofPos l

/-- The text content of one document leaf.  CPLXMLNode stores every value as
a string; the numbers this translation unit writes go through
locale-independent printf formats (%.14E, %.16g, %d, CPL_FRMT_GIB/GUIB) and
are read back with CPLAtof/CPLAtofM/atoi/strtoll/strtoull.  The embedding
keeps the printed value itself, tagged by numeric kind, and models the
format/parse codec as value-exact. -/
inductive XV where
  | s (v : String)
  | f (v : ℚ)
  | i (v : Int)
  | u (v : Nat)
deriving DecidableEq, Repr

/-- CPLAtof / CPLAtofM applied to a stored text value.  Parsing the printed
form of a double recovers the value (the text codec is modelled exact);
parsing printed 64-bit integers recovers their value. -/
def cplAtofXV : XV → ℚ
  | .s v => cplAtofStr v
  | .f v => v
  | .i v => (v : ℚ)
  | .u v => ((v : Nat) : ℚ)

/-- atoi applied to a stored text value.  On the printed form of a double the
C parse would stop at the decimal point or exponent; no modeled code path
reads a double-valued text with atoi, so that case is left at 0. -/
def atoiXV : XV → Int
  | .s v => atoiStr v
  | .f _ => 0
  | .i v => v
  | .u v => (v : Int)

/-- strtoll applied to a stored text value (the f case, like atoi, is never
reached by the modeled flows). -/
def strtollXV : XV → Int
  | .s v => atoiStr v
  | .f _ => 0
  | .i v => v
  | .u v => (v : Int)

/-- strtoull applied to a stored text value; negative input wraps modulo
2^64. -/
def strtoullXV : XV → Nat
  | .s v => (atoiStr v % ((2 : Int) ^ 64)).toNat
  | .f _ => 0
  | .i v => (v % ((2 : Int) ^ 64)).toNat
  | .u v => v

/-- The raw character content of a stored text value, for reads that treat
the text as a plain string.  Printed 64-bit integers read back as their
decimal digits; printed doubles never flow into a raw-string read in this
translation unit. -/
def xvStr : XV → String
  | .s v => v
  | .f _ => ""
  | .i v => toString v
  | .u v => toString v

/-- CPLXMLNode (cpl_minixml collaborator, an abstract DOM per the spec):
element and attribute nodes carry a name and children; text nodes carry a
value.  The psNext sibling chain becomes the child list. -/
inductive XmlNode where
  | elem (tag : String) (children : List XmlNode)
  | attr (tag : String) (children : List XmlNode)
  | text (v : XV)

mutual

/-- Structural boolean equality on document nodes. -/
def XmlNode.beq : XmlNode → XmlNode → Bool
  | .elem t c, .elem u d => t == u && XmlNode.beqL c d
  | .attr t c, .attr u d => t == u && XmlNode.beqL c d
  | .text v, .text w => v == w
  | _, _ => false

/-- Structural boolean equality on child lists. -/
def XmlNode.beqL : List XmlNode → List XmlNode → Bool
  | [], [] => true
  | a :: as, b :: bs => XmlNode.beq a b && XmlNode.beqL as bs
  | _, _ => false

end

mutual

theorem XmlNode.beq_iff : ∀ (a b : XmlNode), (XmlNode.beq a b = true) ↔ a = b
  | .elem t c, .elem u d => by
      simp [XmlNode.beq, XmlNode.beqL_iff c d]
  | .attr t c, .attr u d => by
      simp [XmlNode.beq, XmlNode.beqL_iff c d]
  | .text v, .text w => by simp [XmlNode.beq]
  | .elem _ _, .attr _ _ => by simp [XmlNode.beq]
  | .elem _ _, .text _ => by simp [XmlNode.beq]
  | .attr _ _, .elem _ _ => by simp [XmlNode.beq]
  | .attr _ _, .text _ => by simp [XmlNode.beq]
  | .text _, .elem _ _ => by simp [XmlNode.beq]
  | .text _, .attr _ _ => by simp [XmlNode.beq]

theorem XmlNode.beqL_iff : ∀ (as bs : List XmlNode), (XmlNode.beqL as bs = true) ↔ as = bs
  | [], [] => by simp [XmlNode.beqL]
  | a :: as, b :: bs => by
      simp [XmlNode.beqL, XmlNode.beq_iff a b, XmlNode.beqL_iff as bs]
  | [], _ :: _ => by simp [XmlNode.beqL]
  | _ :: _, [] => by simp [XmlNode.beqL]

end

instance : DecidableEq XmlNode :=
  fun a b => decidable_of_iff _ (XmlNode.beq_iff a b)

/-- Does the node match a name the way CPLGetXMLNode does (element or
attribute whose value EQUALs the name)? -/
def isNamed (nm : String) : XmlNode → Bool
  | .elem t _ => cplEQUAL t nm
  | .attr t _ => cplEQUAL t nm
  | .text _ => false

/-- Children of a node (text nodes have none). -/
def XmlNode.children : XmlNode → List XmlNode
  | .elem _ c => c
  | .attr _ c => c
  | .text _ => []

/-- CPLGetXMLNode on one path component: first element/attribute child with
a matching name. -/
def findChildNamed (nm : String) (l : List XmlNode) : Option XmlNode :=
  l.find? (isNamed nm)

/-- First text child of a node, if any (CPLGetXMLValue returns the text
content of the found node). -/
def textOf (n : XmlNode) : Option XV :=
  (n.children.find? (fun c => match c with | .text _ => true | _ => false)).bind
    (fun c => match c with | .text v => some v | _ => none)

/-- CPLGetXMLValue with a one-component path and a null default: some text
value when a named element/attribute child with text content exists. -/
def getXMLValue (n : XmlNode) (nm : String) : Option XV :=
  (findChildNamed nm n.children).bind textOf

/-- CPLGetXMLValue with a two-component dotted path (used only for
NoDataValue.le_hex_equiv). -/
def getXMLValue2 (n : XmlNode) (nm1 nm2 : String) : Option XV :=
  (findChildNamed nm1 n.children).bind (fun m => getXMLValue m nm2)

/-- GDALColorEntry (gdal collaborator): four short channel values. -/
structure GDALColorEntry where
  c1 : Int
  c2 : Int
  c3 : Int
  c4 : Int
deriving DecidableEq, Repr

/-- static_cast<short> of an int value (two's-complement wraparound). -/
def toShort (v : Int) : Int :=
  ((v + 2 ^ 15) % 2 ^ 16) - 2 ^ 15

/-- Modelled from the spec: the default nodata sentinels come from
gdal_pam.h, which is not part of src/; only their identity matters to the
claims (they are what the record holds before any nodata value is set and
what the mismatched 64-bit getters return). -/
def GDAL_PAM_DEFAULT_NODATA_VALUE : ℚ := 0

/-- Modelled from the spec: default signed 64-bit nodata sentinel
(gdal_pam.h, not in src/). -/
def GDAL_PAM_DEFAULT_NODATA_VALUE_INT64 : Int := 0

/-- Modelled from the spec: default unsigned 64-bit nodata sentinel
(gdal_pam.h, not in src/). -/
def GDAL_PAM_DEFAULT_NODATA_VALUE_UINT64 : Nat := 0

/-- GDALRasterBandPamInfo.  Modelled from the spec: the struct lives in
gdal_pam.h, which is not part of src/; its field list and defaults are
fixed by this translation unit's uses and the spec's data model (spec
section 3).  poParentDS, a weak back-reference to the dataset-level store,
is kept as a has-parent flag (MarkPamDirty only tests it for null); the
color table is its entry list (deep copies become values), the default RAT
and the saved histograms are their document subtrees (the RAT's own
serialize/deserialize is an external contract per the spec). -/
structure GDALRasterBandPamInfo where
  poParentDS : Bool := true
  bNoDataValueSet : Bool := false
  bNoDataValueSetAsInt64 : Bool := false
  bNoDataValueSetAsUInt64 : Bool := false
  dfNoDataValue : ℚ := GDAL_PAM_DEFAULT_NODATA_VALUE
  nNoDataValueInt64 : Int := GDAL_PAM_DEFAULT_NODATA_VALUE_INT64
  nNoDataValueUInt64 : Nat := GDAL_PAM_DEFAULT_NODATA_VALUE_UINT64
  pszUnitType : Option String := none
  dfOffset : ℚ := 0
  bOffsetSet : Bool := false
  dfScale : ℚ := 1
  bScaleSet : Bool := false
  eColorInterp : GDALColorInterp := .GCI_Undefined
  papszCategoryNames : Option (List String) := none
  poColorTable : Option (List GDALColorEntry) := none
  poDefaultRAT : Option XmlNode := none
  bHaveMinMax : Bool := false
  dfMin : ℚ := 0
  dfMax : ℚ := 0
  bHaveStats : Bool := false
  dfMean : ℚ := 0
  dfStdDev : ℚ := 0
  psSavedHistograms : Option XmlNode := none
deriving DecidableEq

/-- The GDALPamRasterBand together with the band-level state this
translation unit touches: the optional PAM record, the pixel type, the
1-based band number, the GDALMajorObject description, the multi-domain
metadata store (collaborator, kept as its serialized subtree), and the
parent dataset's PAM dirty flag (the target of MarkPamDirty). -/
structure Band where
  psPam : Option GDALRasterBandPamInfo := none
  eDataType : GDALDataType := .GDT_Byte
  nBand : Int := 1
  description : String := ""
  oMDMD : Option XmlNode := none
  parentDirty : Bool := false
deriving DecidableEq

/-- GDALRasterBand base-class fallback (gdalrasterband.cpp is not part of
src/): every claim stays on the overlay path, so the delegate is modelled
as state-preserving with a failure code. -/
def nativeFallback (b : Band) : Band × CPLErr :=
  (b, .CE_Failure)

/-- GDALPamRasterBand::MarkPamDirty: raise the parent dataset's dirty flag
when a parent-linked record exists. -/
def markPamDirty (b : Band) : Band :=
  match b.psPam with
  | some p => if p.poParentDS then { b with parentDirty := true } else b
  | none => b

/-- GDALPamRasterBand::PamInitialize.  For a band whose record already
exists and is linked to a parent store this is a no-op (source lines
276-277); the lazy creation path needs the owning dataset, which is outside
the modeled state, and every claim supplies a band that already has a
record. -/
def pamInitialize (b : Band) : Band := b

/-- GDALPamRasterBand::ResetNoDataValues: clear the three nodata variants. -/
def resetNoDataValues (p : GDALRasterBandPamInfo) : GDALRasterBandPamInfo :=
  { p with
    bNoDataValueSet := false
    bNoDataValueSetAsInt64 := false
    bNoDataValueSetAsUInt64 := false
    dfNoDataValue := GDAL_PAM_DEFAULT_NODATA_VALUE
    nNoDataValueInt64 := GDAL_PAM_DEFAULT_NODATA_VALUE_INT64
    nNoDataValueUInt64 := GDAL_PAM_DEFAULT_NODATA_VALUE_UINT64 }

/-- GDALPamRasterBand::SetNoDataValue (double variant). -/
def setNoDataValue (b : Band) (dfNewValue : ℚ) : Band × CPLErr :=
  let b := pamInitialize b
  match b.psPam with
  | none => nativeFallback b
  | some p =>
    let p := { resetNoDataValues p with bNoDataValueSet := true, dfNoDataValue := dfNewValue }
    (markPamDirty { b with psPam := some p }, .CE_None)

/-- GDALPamRasterBand::SetNoDataValueAsInt64. -/
def setNoDataValueAsInt64 (b : Band) (nNewValue : Int) : Band × CPLErr :=
  let b := pamInitialize b
  match b.psPam with
  | none => nativeFallback b
  | some p =>
    let p := { resetNoDataValues p with bNoDataValueSetAsInt64 := true, nNoDataValueInt64 := nNewValue }
    (markPamDirty { b with psPam := some p }, .CE_None)

/-- GDALPamRasterBand::SetNoDataValueAsUInt64. -/
def setNoDataValueAsUInt64 (b : Band) (nNewValue : Nat) : Band × CPLErr :=
  let b := pamInitialize b
  match b.psPam with
  | none => nativeFallback b
  | some p =>
    let p := { resetNoDataValues p with bNoDataValueSetAsUInt64 := true, nNoDataValueUInt64 := nNewValue }
    (markPamDirty { b with psPam := some p }, .CE_None)

/-- GDALPamRasterBand::DeleteNoDataValue. -/
def deleteNoDataValue (b : Band) : Band × CPLErr :=
  let b := pamInitialize b
  match b.psPam with
  | none => nativeFallback b
  | some p =>
    (markPamDirty { b with psPam := some (resetNoDataValues p) }, .CE_None)

/-- GDALGetNoDataValueCastToDouble on an int64 (gdal collaborator): the
conversion is modelled exact over the rational double model. -/
def castI64ToDouble (v : Int) : ℚ := (v : ℚ)

/-- GDALGetNoDataValueCastToDouble on a uint64 (gdal collaborator). -/
def castU64ToDouble (v : Nat) : ℚ := ((v : Nat) : ℚ)

/-- GDALPamRasterBand::GetNoDataValue: returns the nodata as double with a
success flag (pbSuccess modelled as always requested).  The band state is
returned unchanged (the source performs no writes here). -/
def getNoDataValue (b : Band) : Band × ℚ × Bool :=
  match b.psPam with
  | none => (b, 0, false)
  | some p =>
    if p.bNoDataValueSetAsInt64 then
      (b, castI64ToDouble p.nNoDataValueInt64, true)
    else if p.bNoDataValueSetAsUInt64 then
      (b, castU64ToDouble p.nNoDataValueUInt64, true)
    else
      (b, p.dfNoDataValue, p.bNoDataValueSet)

/-- GDALPamRasterBand::GetNoDataValueAsInt64: value, success flag and the
error class reported through CPLError, if any. -/
def getNoDataValueAsInt64 (b : Band) : Band × Int × Bool × Option CPLErrClass :=
  match b.psPam with
  | none => (b, 0, false, none)
  | some p =>
    if b.eDataType = .GDT_UInt64 then
      (b, GDAL_PAM_DEFAULT_NODATA_VALUE_INT64, false, some .CPLE_AppDefined)
    else if b.eDataType ≠ .GDT_Int64 then
      (b, GDAL_PAM_DEFAULT_NODATA_VALUE_INT64, false, some .CPLE_AppDefined)
    else
      (b, p.nNoDataValueInt64, p.bNoDataValueSetAsInt64, none)

/-- GDALPamRasterBand::GetNoDataValueAsUInt64. -/
def getNoDataValueAsUInt64 (b : Band) : Band × Nat × Bool × Option CPLErrClass :=
  match b.psPam with
  | none => (b, 0, false, none)
  | some p =>
    if b.eDataType = .GDT_Int64 then
      (b, GDAL_PAM_DEFAULT_NODATA_VALUE_UINT64, false, some .CPLE_AppDefined)
    else if b.eDataType ≠ .GDT_UInt64 then
      (b, GDAL_PAM_DEFAULT_NODATA_VALUE_UINT64, false, some .CPLE_AppDefined)
    else
      (b, p.nNoDataValueUInt64, p.bNoDataValueSetAsUInt64, none)

/-- GDALPamRasterBand::GetOffset. -/
def getOffset (b : Band) : ℚ × Bool :=
  match b.psPam with
  | none => (0, false)
  | some p => (p.dfOffset, p.bOffsetSet)

/-- GDALPamRasterBand::SetOffset: store and mark dirty only when the value
changes or was unset. -/
def setOffset (b : Band) (dfNewOffset : ℚ) : Band × CPLErr :=
  let b := pamInitialize b
  match b.psPam with
  | none => nativeFallback b
  | some p =>
    if ¬ p.bOffsetSet ∨ p.dfOffset ≠ dfNewOffset then
      let p := { p with dfOffset := dfNewOffset, bOffsetSet := true }
      (markPamDirty { b with psPam := some p }, .CE_None)
    else
      (b, .CE_None)

/-- GDALPamRasterBand::GetScale. -/
def getScale (b : Band) : ℚ × Bool :=
  match b.psPam with
  | none => (1, false)
  | some p => (p.dfScale, p.bScaleSet)

/-- GDALPamRasterBand::SetScale. -/
def setScale (b : Band) (dfNewScale : ℚ) : Band × CPLErr :=
  let b := pamInitialize b
  match b.psPam with
  | none => nativeFallback b
  | some p =>
    if ¬ p.bScaleSet ∨ dfNewScale ≠ p.dfScale then
      let p := { p with dfScale := dfNewScale, bScaleSet := true }
      (markPamDirty { b with psPam := some p }, .CE_None)
    else
      (b, .CE_None)

/-- GDALPamRasterBand::SetUnitType: the new value arrives as a C string;
null and empty both clear the stored unit (modelled as Option String with
none for null, so the argument is an Option and the empty string behaves
like none, exactly as in the source). -/
def setUnitType (b : Band) (pszNewValue : Option String) : Band × CPLErr :=
  let b := pamInitialize b
  match b.psPam with
  | none => nativeFallback b
  | some p =>
    match pszNewValue with
    | none =>
      let b := if p.pszUnitType ≠ none then markPamDirty b else b
      ({ b with psPam := some { p with pszUnitType := none } }, .CE_None)
    | some v =>
      if v = "" then
        let b := if p.pszUnitType ≠ none then markPamDirty b else b
        ({ b with psPam := some { p with pszUnitType := none } }, .CE_None)
      else
        let b := if p.pszUnitType = none ∨ p.pszUnitType ≠ some v then markPamDirty b else b
        ({ b with psPam := some { p with pszUnitType := some v } }, .CE_None)

/-- GDALPamRasterBand::SetCategoryNames: the list is replaced wholesale and
the store is marked dirty unconditionally (CSLDuplicate of a null list is
null, so a null argument clears the field). -/
def setCategoryNames (b : Band) (papszNewNames : Option (List String)) : Band × CPLErr :=
  let b := pamInitialize b
  match b.psPam with
  | none => nativeFallback b
  | some p =>
    let b := { b with psPam := some { p with papszCategoryNames := papszNewNames } }
    (markPamDirty b, .CE_None)

/-- GDALPamRasterBand::SetColorTable: replace the owned table with a clone;
a non-null table also forces the color interpretation to palette index;
dirty is marked unconditionally. -/
def setColorTable (b : Band) (poTableIn : Option (List GDALColorEntry)) : Band × CPLErr :=
  let b := pamInitialize b
  match b.psPam with
  | none => nativeFallback b
  | some p =>
    let p := { p with poColorTable := none }
    let p :=
      match poTableIn with
      | some t => { p with poColorTable := some t, eColorInterp := .GCI_PaletteIndex }
      | none => p
    (markPamDirty { b with psPam := some p }, .CE_None)

/-- GDALPamRasterBand::SetColorInterpretation: store and mark dirty
unconditionally. -/
def setColorInterpretation (b : Band) (eInterpIn : GDALColorInterp) : Band × CPLErr :=
  let b := pamInitialize b
  match b.psPam with
  | none => nativeFallback b
  | some p =>
    (markPamDirty { b with psPam := some { p with eColorInterp := eInterpIn } }, .CE_None)

/-- GDALPamRasterBand::SetDefaultRAT: replace the owned attribute table
(kept as its serialized subtree; the RAT value type is an external
collaborator); dirty is marked unconditionally. -/
def setDefaultRAT (b : Band) (poRAT : Option XmlNode) : Band × CPLErr :=
  let b := pamInitialize b
  match b.psPam with
  | none => nativeFallback b
  | some p =>
    let b := markPamDirty b
    ({ b with psPam := some { p with poDefaultRAT := poRAT } }, .CE_None)

/-- GDALPamRasterBand::SetDescription: dirty when the description changes,
then store it at the GDALMajorObject level. -/
def setDescription (b : Band) (pszDescription : String) : Band :=
  let b := pamInitialize b
  let b := if b.psPam.isSome ∧ pszDescription ≠ b.description then markPamDirty b else b
  { b with description := pszDescription }

/-- INT_MAX for a 32-bit int. -/
def INT_MAX : Int := 2 ^ 31 - 1

/-- The pipe-separated HistCounts text written by PamHistogramToXMLTree:
bucket i prints panHistogram[i] with CPL_FRMT_GUIB; the C loop indexes the
caller's buffer, modelled with a default of 0 past the end of the list. -/
def histCountsString (nBuckets : Int) (panHistogram : List Nat) : String :=
  String.intercalate "|"
    ((List.range nBuckets.toNat).map (fun i => toString (panHistogram.getD i 0)))

/-- The HistItem element PamHistogramToXMLTree assembles (each
CPLSetXMLValue call creates one named element with a text child, in call
order; the two flags are ints printed with %d). -/
def histItemNode (dfMin dfMax : ℚ) (nBuckets : Int) (panHistogram : List Nat)
    (bIncludeOutOfRange bApprox : Bool) : XmlNode :=
  XmlNode.elem "HistItem"
    [ XmlNode.elem "HistMin" [XmlNode.text (XV.f dfMin)]
    , XmlNode.elem "HistMax" [XmlNode.text (XV.f dfMax)]
    , XmlNode.elem "BucketCount" [XmlNode.text (XV.i nBuckets)]
    , XmlNode.elem "IncludeOutOfRange" [XmlNode.text (XV.i (if bIncludeOutOfRange then 1 else 0))]
    , XmlNode.elem "Approximate" [XmlNode.text (XV.i (if bApprox then 1 else 0))]
    , XmlNode.elem "HistCounts" [XmlNode.text (XV.s (histCountsString nBuckets panHistogram))] ]

/-- PamHistogramToXMLTree: refuse a bucket count that would overflow the
count-string buffer size computation, otherwise build the HistItem element
(the VSIMalloc of the scratch string is modelled as succeeding; claim C7's
allocation parameter concerns PamParseHistogram's VSICalloc). -/
def pamHistogramToXMLTree (dfMin dfMax : ℚ) (nBuckets : Int)
    (panHistogram : List Nat) (bIncludeOutOfRange bApprox : Bool) : Option XmlNode :=
  if nBuckets > (INT_MAX - 10) / 12 then none
  else some (histItemNode dfMin dfMax nBuckets panHistogram bIncludeOutOfRange bApprox)

/-- Is the node an element named HistItem (the loop in
PamFindMatchingHistogram skips everything else)? -/
def isHistItemElem : XmlNode → Bool
  | XmlNode.elem tg _ => cplEQUAL tg "HistItem"
  | _ => false

/-- The acceptance test of one candidate in PamFindMatchingHistogram,
written as the negation of the source's skip condition.  req models
ARE_REAL_EQUAL: the library's standard real-number equality tolerance
(gdal_priv.h, not part of src/; the spec names it only as "the library's
standard real-number equality tolerance", so it is a parameter of the
embedding).  The two flags are read with atoi and normalized with !, so
they compare as booleans. -/
def histItemFilter (req : ℚ → ℚ → Bool) (dfMin dfMax : ℚ) (nBuckets : Int)
    (bIncludeOutOfRange bApproxOK : Bool) (n : XmlNode) : Bool :=
  isHistItemElem n &&
  (let dfHistMin := cplAtofXV ((getXMLValue n "HistMin").getD (XV.s "0"))
   let dfHistMax := cplAtofXV ((getXMLValue n "HistMax").getD (XV.s "0"))
   let nCand := atoiXV ((getXMLValue n "BucketCount").getD (XV.s "0"))
   let ioorCand := atoiXV ((getXMLValue n "IncludeOutOfRange").getD (XV.s "0"))
   let approxCand := atoiXV ((getXMLValue n "Approximate").getD (XV.s "0"))
   req dfHistMin dfMin && req dfHistMax dfMax && (nCand == nBuckets) &&
     ((ioorCand == 0) == !bIncludeOutOfRange) && (bApproxOK || approxCand == 0))

/-- PamFindMatchingHistogram: first HistItem child of the saved Histograms
element that passes the acceptance test, in document order. -/
def pamFindMatchingHistogram (req : ℚ → ℚ → Bool) (psSavedHistograms : Option XmlNode)
    (dfMin dfMax : ℚ) (nBuckets : Int) (bIncludeOutOfRange bApproxOK : Bool) :
    Option XmlNode :=
  match psSavedHistograms with
  | none => none
  | some h =>
    h.children.find? (histItemFilter req dfMin dfMax nBuckets bIncludeOutOfRange bApproxOK)

/-- The bucket-count decode loop of PamParseHistogram: bucket i parses the
i-th pipe-separated field with CPLAtoGIntBig (fields past the end of the
string parse from the empty suffix, giving 0); the signed parse is stored
into an unsigned 64-bit bucket. -/
def parseHistCounts (s : String) (n : Nat) : List Nat :=
  (List.range n).map (fun i => (atoiStr ((s.splitOn "|").getD i "") % ((2 : Int) ^ 64)).toNat)

/-- The out-parameter block of PamParseHistogram: the return flag, the
written-through min/max/bucket-count/histogram outputs and the error class
reported through CPLError, if any. -/
structure ParseHistOut where
  ok : Bool
  dfMin : ℚ
  dfMax : ℚ
  nBuckets : Int
  panHistogram : Option (List Nat)
  err : Option CPLErrClass
deriving DecidableEq

/-- PamParseHistogram.  dfMinIn/dfMaxIn/nBucketsIn back the out-parameters
(returned unchanged when the source does not write them, e.g. for a null
item).  wantHistogram models ppanHistogram != nullptr.  alloc models
VSICalloc success for a given bucket count: resource exhaustion is an
environment event, kept as a parameter of the embedding. -/
def pamParseHistogram (alloc : Nat → Bool) (psHistItem : Option XmlNode)
    (dfMinIn dfMaxIn : ℚ) (nBucketsIn : Int) (wantHistogram : Bool) : ParseHistOut :=
  match psHistItem with
  | none => ⟨false, dfMinIn, dfMaxIn, nBucketsIn, none, none⟩
  | some h =>
    let dfMin := cplAtofXV ((getXMLValue h "HistMin").getD (XV.s "0"))
    let dfMax := cplAtofXV ((getXMLValue h "HistMax").getD (XV.s "1"))
    let nBuckets := atoiXV ((getXMLValue h "BucketCount").getD (XV.s "2"))
    if nBuckets ≤ 0 ∨ nBuckets > INT_MAX / 2 then
      ⟨false, dfMin, dfMax, nBuckets, none, none⟩
    else if ¬ wantHistogram then
      ⟨true, dfMin, dfMax, nBuckets, none, none⟩
    else
      let pszHistCounts := xvStr ((getXMLValue h "HistCounts").getD (XV.s ""))
      if pszHistCounts.length < 2 * nBuckets.toNat - 1 then
        ⟨false, dfMin, dfMax, nBuckets, none, some .CPLE_AppDefined⟩
      else if ¬ alloc nBuckets.toNat then
        ⟨false, dfMin, dfMax, nBuckets, none, some .CPLE_OutOfMemory⟩
      else
        ⟨true, dfMin, dfMax, nBuckets, some (parseHistCounts pszHistCounts nBuckets.toNat), none⟩

/-- CPLAddXMLChild (cpl_minixml collaborator) for an element child: append
at the end of the child list. -/
def addXMLChild (parent : XmlNode) (child : XmlNode) : XmlNode :=
  match parent with
  | XmlNode.elem t ch => XmlNode.elem t (ch ++ [child])
  | XmlNode.attr t ch => XmlNode.attr t (ch ++ [child])
  | XmlNode.text v => XmlNode.text v

/-- GDALPamRasterBand::GetHistogram.  req models ARE_REAL_EQUAL (see
histItemFilter), alloc models VSICalloc, and native models the base-class
histogram computation over the raster (raster I/O, outside this core): none
is a native failure, some l a successfully computed histogram for the given
(possibly parse-updated) min/max/bucket arguments.  Returns the band, the
CPLErr and the histogram delivered into the caller's buffer. -/
def getHistogram (req : ℚ → ℚ → Bool) (alloc : Nat → Bool)
    (native : ℚ → ℚ → Int → Option (List Nat)) (b : Band)
    (dfMin dfMax : ℚ) (nBuckets : Int) (bIncludeOutOfRange bApproxOK : Bool) :
    Band × CPLErr × Option (List Nat) :=
  let b := pamInitialize b
  match b.psPam with
  | none =>
    match native dfMin dfMax nBuckets with
    | some l => (b, .CE_None, some l)
    | none => (b, .CE_Failure, none)
  | some p =>
    let psHistItem :=
      pamFindMatchingHistogram req p.psSavedHistograms dfMin dfMax nBuckets
        bIncludeOutOfRange bApproxOK
    let pr := pamParseHistogram alloc psHistItem dfMin dfMax nBuckets true
    if pr.ok then
      (b, .CE_None, pr.panHistogram)
    else
      let dfMin := pr.dfMin
      let dfMax := pr.dfMax
      let nBuckets := pr.nBuckets
      match native dfMin dfMax nBuckets with
      | none => (b, .CE_Failure, none)
      | some panHistogram =>
        match pamHistogramToXMLTree dfMin dfMax nBuckets panHistogram
            bIncludeOutOfRange bApproxOK with
        | none => (b, .CE_None, some panHistogram)
        | some psXMLHist =>
          let b := markPamDirty b
          let saved :=
            match p.psSavedHistograms with
            | none => addXMLChild (XmlNode.elem "Histograms" []) psXMLHist
            | some h => addXMLChild h psXMLHist
          ({ b with psPam := some { p with psSavedHistograms := some saved } },
            .CE_None, some panHistogram)

/-- GDALPamRasterBand::SetDefaultHistogram.  req models ARE_REAL_EQUAL.
The matching descriptor, when found, is unlinked with CPLRemoveXMLChild:
the found node is the first child passing the filter, and erasing the first
structurally equal child removes exactly that node. -/
def setDefaultHistogram (req : ℚ → ℚ → Bool) (b : Band)
    (dfMin dfMax : ℚ) (nBuckets : Int) (panHistogram : List Nat) : Band × CPLErr :=
  let b := pamInitialize b
  match b.psPam with
  | none => nativeFallback b
  | some p =>
    let saved :=
      match pamFindMatchingHistogram req p.psSavedHistograms dfMin dfMax nBuckets
          true true with
      | some psNode =>
        (match p.psSavedHistograms with
         | some (XmlNode.elem t ch) => some (XmlNode.elem t (ch.erase psNode))
         | other => other)
      | none => p.psSavedHistograms
    let p := { p with psSavedHistograms := saved }
    match pamHistogramToXMLTree dfMin dfMax nBuckets panHistogram true false with
    | none => ({ b with psPam := some p }, .CE_Failure)
    | some psHistItem =>
      let b := markPamDirty { b with psPam := some p }
      let saved2 :=
        match p.psSavedHistograms with
        | none => XmlNode.elem "Histograms" [psHistItem]
        | some (XmlNode.elem t ch) => XmlNode.elem t (psHistItem :: ch)
        | some o => o
      ({ b with psPam := some { p with psSavedHistograms := some saved2 } }, .CE_None)

/-- GDALMultiDomainMetadata::XMLInit (collaborator): the Metadata subtree
of the document, when present, replaces the stored one. -/
def mdXMLInit (old : Option XmlNode) (t : XmlNode) : Option XmlNode :=
  match findChildNamed "Metadata" t.children with
  | some m => some m
  | none => old

/-- The SerializeToXML children written only under a condition. -/
def optNodesP (c : Prop) [Decidable c] (ns : List XmlNode) : List XmlNode :=
  if c then ns else []

/-- The SerializeToXML children contributed by an optional stored node. -/
def optionNodes (o : Option XmlNode) : List XmlNode :=
  match o with
  | some n => [n]
  | none => []

/-- The NoDataValue element written by SerializeToXML.  With the
value-exact text codec the printf round-trip test (dfNoDataValue !=
CPLAtof(oFmt)) never fails, so the le_hex_equiv attribute (an 8-byte
little-endian bit pattern, here carrying the exact double) is attached
exactly when the double is non-integral; a rational double model has no
NaN, so the "nan" literal branch is not reached. -/
def noDataFrag (p : GDALRasterBandPamInfo) : List XmlNode :=
  if p.bNoDataValueSet then
    [ XmlNode.elem "NoDataValue"
        ([XmlNode.text (XV.f p.dfNoDataValue)] ++
         optNodesP (p.dfNoDataValue.den ≠ 1)
           [XmlNode.attr "le_hex_equiv" [XmlNode.text (XV.f p.dfNoDataValue)]]) ]
  else if p.bNoDataValueSetAsInt64 then
    [XmlNode.elem "NoDataValue" [XmlNode.text (XV.i p.nNoDataValueInt64)]]
  else if p.bNoDataValueSetAsUInt64 then
    [XmlNode.elem "NoDataValue" [XmlNode.text (XV.u p.nNoDataValueUInt64)]]
  else []

/-- One Category child of the serialized CategoryNames element
(CPLCreateXMLElementAndValue keeps empty strings as empty text children). -/
def categoryNode (nm : String) : XmlNode :=
  XmlNode.elem "Category" [XmlNode.text (XV.s nm)]

/-- The serialized CategoryNames element, when category names are stored. -/
def catNamesFrag (p : GDALRasterBandPamInfo) : List XmlNode :=
  optionNodes (p.papszCategoryNames.map
    (fun l => XmlNode.elem "CategoryNames" (l.map categoryNode)))

/-- One Entry child of the serialized ColorTable element: the four channel
values are written as attributes c1..c4. -/
def colorEntryNode (e : GDALColorEntry) : XmlNode :=
  XmlNode.elem "Entry"
    [ XmlNode.attr "c1" [XmlNode.text (XV.i e.c1)]
    , XmlNode.attr "c2" [XmlNode.text (XV.i e.c2)]
    , XmlNode.attr "c3" [XmlNode.text (XV.i e.c3)]
    , XmlNode.attr "c4" [XmlNode.text (XV.i e.c4)] ]

/-- The serialized ColorTable element, when a color table is stored. -/
def colorTableFrag (p : GDALRasterBandPamInfo) : List XmlNode :=
  optionNodes (p.poColorTable.map
    (fun t => XmlNode.elem "ColorTable" (t.map colorEntryNode)))

/-- The child list SerializeToXML attaches to the PAMRasterBand root, in
source order.  The saved histogram subtree and the default RAT subtree are
cloned/serialized wholesale; the multi-domain metadata store contributes
its own serialization when non-empty. -/
def serChildren (b : Band) (p : GDALRasterBandPamInfo) : List XmlNode :=
  optNodesP (b.nBand > 0) [XmlNode.attr "band" [XmlNode.text (XV.i b.nBand)]] ++
  optNodesP (b.description ≠ "") [XmlNode.elem "Description" [XmlNode.text (XV.s b.description)]] ++
  noDataFrag p ++
  optionNodes (p.pszUnitType.map
    (fun u => XmlNode.elem "UnitType" [XmlNode.text (XV.s u)])) ++
  optNodesP (p.dfOffset ≠ 0) [XmlNode.elem "Offset" [XmlNode.text (XV.f p.dfOffset)]] ++
  optNodesP (p.dfScale ≠ 1) [XmlNode.elem "Scale" [XmlNode.text (XV.f p.dfScale)]] ++
  optNodesP (p.eColorInterp ≠ .GCI_Undefined)
    [XmlNode.elem "ColorInterp" [XmlNode.text (XV.s (colorInterpName p.eColorInterp))]] ++
  catNamesFrag p ++
  colorTableFrag p ++
  optNodesP (p.bHaveMinMax = true)
    [ XmlNode.elem "Minimum" [XmlNode.text (XV.f p.dfMin)]
    , XmlNode.elem "Maximum" [XmlNode.text (XV.f p.dfMax)] ] ++
  optNodesP (p.bHaveStats = true)
    [ XmlNode.elem "Mean" [XmlNode.text (XV.f p.dfMean)]
    , XmlNode.elem "StandardDeviation" [XmlNode.text (XV.f p.dfStdDev)] ] ++
  optionNodes p.psSavedHistograms ++
  optionNodes p.poDefaultRAT ++
  optionNodes b.oMDMD

/-- GDALPamRasterBand::SerializeToXML: none for a band without a record,
and (source lines 260-264) when fewer than two children were attached (a
band attribute counts as a child). -/
def serializeToXML (b : Band) : Option XmlNode :=
  match b.psPam with
  | none => none
  | some p =>
    let ch := serChildren b p
    if ch.length ≤ 1 then none else some (XmlNode.elem "PAMRasterBand" ch)

/-- XMLInit, description step: GDALMajorObject::SetDescription of the
Description value, defaulting to the empty string. -/
def xiDescription (b : Band) (t : XmlNode) : Band :=
  { b with description := match getXMLValue t "Description" with
                          | some v => xvStr v
                          | none => "" }

/-- XMLInit, nodata step: an 8-byte le_hex_equiv blob decodes to the exact
double (any other payload stands for a blob of the wrong length, which
falls back to the plain text); otherwise the pixel type selects the signed
or unsigned 64-bit parse or the double parse. -/
def xiNoData (b : Band) (t : XmlNode) : Band :=
  match getXMLValue t "NoDataValue" with
  | none => b
  | some v =>
    match getXMLValue2 t "NoDataValue" "le_hex_equiv" with
    | some hv =>
      (match hv with
       | XV.f q => (setNoDataValue b q).1
       | _ => (setNoDataValue b (cplAtofXV v)).1)
    | none =>
      if b.eDataType = .GDT_Int64 then (setNoDataValueAsInt64 b (strtollXV v)).1
      else if b.eDataType = .GDT_UInt64 then (setNoDataValueAsUInt64 b (strtoullXV v)).1
      else (setNoDataValue b (cplAtofXV v)).1

/-- XMLInit, offset/scale step: when either element is present both fields
are set, the absent one defaulting to 0.0 and 1.0 respectively. -/
def xiOffsetScale (b : Band) (t : XmlNode) : Band :=
  let pszOffset := getXMLValue t "Offset"
  let pszScale := getXMLValue t "Scale"
  if pszOffset.isSome || pszScale.isSome then
    let b := (setOffset b (match pszOffset with | some v => cplAtofXV v | none => 0)).1
    (setScale b (match pszScale with | some v => cplAtofXV v | none => 1)).1
  else b

/-- XMLInit, unit type step. -/
def xiUnitType (b : Band) (t : XmlNode) : Band :=
  match getXMLValue t "UnitType" with
  | some v => (setUnitType b (some (xvStr v))).1
  | none => b

/-- XMLInit, color interpretation step. -/
def xiColorInterp (b : Band) (t : XmlNode) : Band :=
  match getXMLValue t "ColorInterp" with
  | some v => (setColorInterpretation b (colorInterpByName (xvStr v))).1
  | none => b

/-- One iteration of the CategoryNames collection loop: accept element
children named Category whose first child, if any, is a text node; keep
empty content. -/
def collectCategory (acc : List String) (n : XmlNode) : List String :=
  match n with
  | XmlNode.elem tg ch =>
    if cplEQUAL tg "Category" then
      match ch with
      | [] => acc ++ [""]
      | c :: _ =>
        match c with
        | XmlNode.text v => acc ++ [xvStr v]
        | _ => acc
    else acc
  | _ => acc

/-- XMLInit, category names step (CPLStringList::List() is null for an
empty list, so an empty collection stores none). -/
def xiCategoryNames (b : Band) (t : XmlNode) : Band :=
  match findChildNamed "CategoryNames" t.children with
  | none => b
  | some cn =>
    let l := cn.children.foldl collectCategory []
    (setCategoryNames b (if l.isEmpty then none else some l)).1

/-- One color table Entry parsed back: atoi of the c1..c4 values (defaults
0,0,0,255), cast to short. -/
def parseColorEntry (n : XmlNode) : GDALColorEntry :=
  { c1 := toShort (atoiXV ((getXMLValue n "c1").getD (XV.s "0")))
  , c2 := toShort (atoiXV ((getXMLValue n "c2").getD (XV.s "0")))
  , c3 := toShort (atoiXV ((getXMLValue n "c3").getD (XV.s "0")))
  , c4 := toShort (atoiXV ((getXMLValue n "c4").getD (XV.s "255"))) }

/-- Is the node an element named Entry (the color table loop skips
everything else)? -/
def isEntryElem : XmlNode → Bool
  | XmlNode.elem tg _ => cplEQUAL tg "Entry"
  | _ => false

/-- XMLInit, color table step: entries indexed sequentially from zero in
document order, then installed with SetColorTable. -/
def xiColorTable (b : Band) (t : XmlNode) : Band :=
  match findChildNamed "ColorTable" t.children with
  | none => b
  | some ct =>
    let entries := (ct.children.filter isEntryElem).map parseColorEntry
    (setColorTable b (some entries)).1

/-- XMLInit, min/max step: applied only when both members are present
(direct record writes, no dirty marking). -/
def xiMinMax (b : Band) (t : XmlNode) : Band :=
  match getXMLValue t "Minimum" with
  | none => b
  | some mn =>
    match getXMLValue t "Maximum" with
    | none => b
    | some mx =>
      { b with psPam := b.psPam.map (fun p =>
          { p with bHaveMinMax := true, dfMin := cplAtofXV mn, dfMax := cplAtofXV mx }) }

/-- XMLInit, statistics step: applied only when both members are present. -/
def xiStats (b : Band) (t : XmlNode) : Band :=
  match getXMLValue t "Mean" with
  | none => b
  | some mean =>
    match getXMLValue t "StandardDeviation" with
    | none => b
    | some sd =>
      { b with psPam := b.psPam.map (fun p =>
          { p with bHaveStats := true, dfMean := cplAtofXV mean, dfStdDev := cplAtofXV sd }) }

/-- XMLInit, histograms step: the Histograms subtree is cloned wholesale
into the record, replacing any existing one. -/
def xiHistograms (b : Band) (t : XmlNode) : Band :=
  match findChildNamed "Histograms" t.children with
  | none => b
  | some h =>
    { b with psPam := b.psPam.map (fun p => { p with psSavedHistograms := some h }) }

/-- XMLInit, raster attribute table step: the subtree replaces any existing
default RAT via the RAT's own deserialization (collaborator). -/
def xiRAT (b : Band) (t : XmlNode) : Band :=
  match findChildNamed "GDALRasterAttributeTable" t.children with
  | none => b
  | some r =>
    { b with psPam := b.psPam.map (fun p => { p with poDefaultRAT := some r }) }

/-- XMLInit, metadata step: oMDMD.XMLInit applied to the document
(collaborator, see mdXMLInit). -/
def xiMetadata (b : Band) (t : XmlNode) : Band :=
  { b with oMDMD := mdXMLInit b.oMDMD t }

/-- GDALPamRasterBand::XMLInit: deserialize a PAMRasterBand document into
the band, in source order; always returns CE_None. -/
def xmlInitBand (b : Band) (t : XmlNode) : Band × CPLErr :=
  let b := pamInitialize b
  let b := xiMetadata b t
  let b := xiDescription b t
  let b := xiNoData b t
  let b := xiOffsetScale b t
  let b := xiUnitType b t
  let b := xiColorInterp b t
  let b := xiCategoryNames b t
  let b := xiColorTable b t
  let b := xiMinMax b t
  let b := xiStats b t
  let b := xiHistograms b t
  let b := xiRAT b t
  (b, CPLErr.CE_None)

/-- A band freshly constructed to receive a deserialized document: same
pixel type and band number as the saved band, default record linked to a
parent store. -/
def freshBand (dt : GDALDataType) (n : Int) : Band :=
  { psPam := some { poParentDS := true }, eDataType := dt, nBand := n }

/-- Deserializing a document into a fresh band of the given pixel type and
band number. -/
def pamRoundTrip (b : Band) (t : XmlNode) : Band :=
  (xmlInitBand (freshBand b.eDataType b.nBand) t).1

section BasicLemmas

theorem markPamDirty_psPam (b : Band) : (markPamDirty b).psPam = b.psPam := by
  unfold markPamDirty
  cases hb : b.psPam with
  | none => simp [hb]
  | some p => by_cases hp : p.poParentDS = true <;> simp [hb, hp]

theorem markPamDirty_description (b : Band) :
    (markPamDirty b).description = b.description := by
  unfold markPamDirty
  cases hb : b.psPam with
  | none => simp [hb]
  | some p => by_cases hp : p.poParentDS = true <;> simp [hb, hp]

theorem markPamDirty_eDataType (b : Band) :
    (markPamDirty b).eDataType = b.eDataType := by
  unfold markPamDirty
  cases hb : b.psPam with
  | none => simp [hb]
  | some p => by_cases hp : p.poParentDS = true <;> simp [hb, hp]

theorem markPamDirty_dirty_of (b : Band) (p : GDALRasterBandPamInfo)
    (h : b.psPam = some p) (hpar : p.poParentDS = true) :
    (markPamDirty b).parentDirty = true := by
  unfold markPamDirty
  rw [h]
  simp [hpar]

/-- Exactly one of the three nodata set flags is raised. -/
def exactlyOneNoData (p : GDALRasterBandPamInfo) : Prop :=
  p.bNoDataValueSet.toNat + p.bNoDataValueSetAsInt64.toNat +
    p.bNoDataValueSetAsUInt64.toNat = 1

instance (p : GDALRasterBandPamInfo) : Decidable (exactlyOneNoData p) := by
  unfold exactlyOneNoData; infer_instance

theorem setNoDataValue_psPam (b : Band) (p : GDALRasterBandPamInfo) (x : ℚ)
    (h : b.psPam = some p) :
    (setNoDataValue b x).1.psPam =
      some { resetNoDataValues p with bNoDataValueSet := true, dfNoDataValue := x } := by
  simp [setNoDataValue, pamInitialize, h, markPamDirty_psPam]

theorem setNoDataValueAsInt64_psPam (b : Band) (p : GDALRasterBandPamInfo) (y : Int)
    (h : b.psPam = some p) :
    (setNoDataValueAsInt64 b y).1.psPam =
      some { resetNoDataValues p with bNoDataValueSetAsInt64 := true, nNoDataValueInt64 := y } := by
  simp [setNoDataValueAsInt64, pamInitialize, h, markPamDirty_psPam]

theorem setNoDataValueAsUInt64_psPam (b : Band) (p : GDALRasterBandPamInfo) (z : Nat)
    (h : b.psPam = some p) :
    (setNoDataValueAsUInt64 b z).1.psPam =
      some { resetNoDataValues p with bNoDataValueSetAsUInt64 := true, nNoDataValueUInt64 := z } := by
  simp [setNoDataValueAsUInt64, pamInitialize, h, markPamDirty_psPam]

end BasicLemmas

/-- C2: on a band with an overlay record, each nodata setter (double,
int64, uint64) leaves exactly one of the three nodata set flags true — so
at most one is ever true after any such call — and calling the double form
then the int64 form leaves only the int64 flag true. -/
theorem claim_C2_nodata_exclusive (b : Band) (p : GDALRasterBandPamInfo)
    (h : b.psPam = some p) (x : ℚ) (y : Int) (z : Nat) :
    (∃ q, (setNoDataValue b x).1.psPam = some q ∧ exactlyOneNoData q ∧
      q.bNoDataValueSet = true) ∧
    (∃ q, (setNoDataValueAsInt64 b y).1.psPam = some q ∧ exactlyOneNoData q ∧
      q.bNoDataValueSetAsInt64 = true) ∧
    (∃ q, (setNoDataValueAsUInt64 b z).1.psPam = some q ∧ exactlyOneNoData q ∧
      q.bNoDataValueSetAsUInt64 = true) ∧
    (∃ q, (setNoDataValueAsInt64 (setNoDataValue b x).1 y).1.psPam = some q ∧
      q.bNoDataValueSet = false ∧ q.bNoDataValueSetAsInt64 = true ∧
      q.bNoDataValueSetAsUInt64 = false) := by
  have h2 := setNoDataValue_psPam b p x h
  refine ⟨⟨_, setNoDataValue_psPam b p x h, ?_, ?_⟩,
          ⟨_, setNoDataValueAsInt64_psPam b p y h, ?_, ?_⟩,
          ⟨_, setNoDataValueAsUInt64_psPam b p z h, ?_, ?_⟩,
          ⟨_, setNoDataValueAsInt64_psPam _ _ y h2, ?_, ?_, ?_⟩⟩ <;>
    simp [resetNoDataValues, exactlyOneNoData]

/-- C2 witness: the exclusivity at a concrete band and concrete values. -/
theorem claim_C2_nodata_exclusive_witness :
    ∃ q, (setNoDataValueAsInt64
        (setNoDataValue { psPam := some { poParentDS := true } } 3).1 4).1.psPam
      = some q ∧
      q.bNoDataValueSet = false ∧ q.bNoDataValueSetAsInt64 = true ∧
      q.bNoDataValueSetAsUInt64 = false :=
  (claim_C2_nodata_exclusive { psPam := some { poParentDS := true } } _ rfl 3 4 5).2.2.2

/-- C6: with an overlay record, calling the 64-bit nodata getter of the
wrong signedness for the band's pixel type reports a CPLE_AppDefined error,
yields a false success flag and the default sentinel, and returns the band
state unchanged. -/
theorem claim_C6_type_mismatch (b : Band) (p : GDALRasterBandPamInfo)
    (h : b.psPam = some p) :
    (b.eDataType ≠ .GDT_Int64 →
      getNoDataValueAsInt64 b =
        (b, GDAL_PAM_DEFAULT_NODATA_VALUE_INT64, false, some .CPLE_AppDefined)) ∧
    (b.eDataType ≠ .GDT_UInt64 →
      getNoDataValueAsUInt64 b =
        (b, GDAL_PAM_DEFAULT_NODATA_VALUE_UINT64, false, some .CPLE_AppDefined)) := by
  constructor <;> intro hdt <;>
    cases hd : b.eDataType <;>
      simp_all [getNoDataValueAsInt64, getNoDataValueAsUInt64, h]

/-- C6 witness: the type-mismatch error path at a concrete band. -/
theorem claim_C6_type_mismatch_witness :
    getNoDataValueAsInt64 { psPam := some { poParentDS := true }, eDataType := .GDT_Byte } =
      ({ psPam := some { poParentDS := true }, eDataType := .GDT_Byte },
        GDAL_PAM_DEFAULT_NODATA_VALUE_INT64, false, some .CPLE_AppDefined) :=
  (claim_C6_type_mismatch
      { psPam := some { poParentDS := true }, eDataType := .GDT_Byte } _ rfl).1
    (by decide)

/-- C10: with an overlay record whose nodata was stored through the int64
(resp. uint64) variant, GetNoDataValue reports success and returns the
stored 64-bit value cast to double, not the double-variant field. -/
theorem claim_C10_get_nodata_cast (b : Band) (p : GDALRasterBandPamInfo)
    (h : b.psPam = some p) :
    (p.bNoDataValueSetAsInt64 = true →
      getNoDataValue b = (b, castI64ToDouble p.nNoDataValueInt64, true)) ∧
    (p.bNoDataValueSetAsInt64 = false → p.bNoDataValueSetAsUInt64 = true →
      getNoDataValue b = (b, castU64ToDouble p.nNoDataValueUInt64, true)) := by
  constructor
  · intro h64
    simp [getNoDataValue, h, h64]
  · intro h64 hu64
    simp [getNoDataValue, h, h64, hu64]

/-- C5 counterexample: with a clean overlay record already storing
GCI_GrayIndex, SetColorInterpretation(GCI_GrayIndex) — a new value equal to
the stored one — still marks the parent store dirty, contradicting the
claimed "dirty iff the new value differs or was unset" for this mutator. -/
theorem claim_C5_counterexample :
    (setColorInterpretation
      { psPam := some { poParentDS := true, eColorInterp := .GCI_GrayIndex },
        parentDirty := false } .GCI_GrayIndex).1.parentDirty = true := by
  rfl

/-- C5 (amended): with an overlay record linked to a parent store, the
offset, scale and unit-type mutators mark the parent store dirty if and
only if the new value differs from the stored one or the stored one was
unset (otherwise the dirty flag is left unchanged); the color
interpretation, category names, color table and default RAT mutators mark
it dirty unconditionally. -/
theorem claim_C5_amended (b : Band) (p : GDALRasterBandPamInfo)
    (h : b.psPam = some p) (hpar : p.poParentDS = true)
    (v w : ℚ) (u : String) (hu : u ≠ "") (ci : GDALColorInterp)
    (cn : List String) (ct : List GDALColorEntry) (rat : XmlNode) :
    ((setOffset b v).1.parentDirty =
      (if ¬ p.bOffsetSet ∨ p.dfOffset ≠ v then true else b.parentDirty)) ∧
    ((setScale b w).1.parentDirty =
      (if ¬ p.bScaleSet ∨ w ≠ p.dfScale then true else b.parentDirty)) ∧
    ((setUnitType b (some u)).1.parentDirty =
      (if p.pszUnitType = none ∨ p.pszUnitType ≠ some u then true else b.parentDirty)) ∧
    ((setUnitType b none).1.parentDirty =
      (if p.pszUnitType ≠ none then true else b.parentDirty)) ∧
    ((setColorInterpretation b ci).1.parentDirty = true) ∧
    ((setCategoryNames b (some cn)).1.parentDirty = true) ∧
    ((setColorTable b (some ct)).1.parentDirty = true) ∧
    ((setDefaultRAT b (some rat)).1.parentDirty = true) := by
  refine ⟨?_, ?_, ?_, ?_, ?_, ?_, ?_, ?_⟩
  · simp only [setOffset, pamInitialize, h]
    split_ifs with hc
    · exact markPamDirty_dirty_of _ _ rfl (by simp [hpar])
    · rfl
  · simp only [setScale, pamInitialize, h]
    split_ifs with hc
    · exact markPamDirty_dirty_of _ _ rfl (by simp [hpar])
    · rfl
  · simp only [setUnitType, pamInitialize, h, hu, if_false]
    split_ifs with hc
    · simp [markPamDirty_dirty_of b p h hpar]
    · rfl
  · simp only [setUnitType, pamInitialize, h]
    split_ifs with hc
    · simp [markPamDirty_dirty_of b p h hpar]
    · rfl
  · simp only [setColorInterpretation, pamInitialize, h]
    exact markPamDirty_dirty_of _ _ rfl (by simp [hpar])
  · simp only [setCategoryNames, pamInitialize, h]
    exact markPamDirty_dirty_of _ _ rfl (by simp [hpar])
  · simp only [setColorTable, pamInitialize, h]
    exact markPamDirty_dirty_of _ _ rfl (by simp [hpar])
  · simp only [setDefaultRAT, pamInitialize, h]
    simp [markPamDirty_dirty_of b p h hpar]

/-- C5 witness: the unconditional dirty marking at a concrete band. -/
theorem claim_C5_amended_witness :
    (setColorInterpretation { psPam := some { poParentDS := true } }
        .GCI_GrayIndex).1.parentDirty = true :=
  (claim_C5_amended { psPam := some { poParentDS := true } } _ rfl rfl 2 3 "m"
    (by decide) .GCI_GrayIndex [] [] (XmlNode.text (XV.s ""))).2.2.2.2.1

/-- C10 witness: the int64-variant cast at a concrete band. -/
theorem claim_C10_get_nodata_cast_witness :
    getNoDataValue
        { psPam := some { poParentDS := true, bNoDataValueSetAsInt64 := true,
                          nNoDataValueInt64 := 42 } } =
      ({ psPam := some { poParentDS := true, bNoDataValueSetAsInt64 := true,
                         nNoDataValueInt64 := 42 } }, castI64ToDouble 42, true) :=
  (claim_C10_get_nodata_cast
      { psPam := some { poParentDS := true, bNoDataValueSetAsInt64 := true,
                        nNoDataValueInt64 := 42 } } _ rfl).1 rfl

/-- A stored HistItem with explicit min/max/bucket-count/counts content,
over which claim C7 quantifies. -/
def storedHistItem (hmin hmax : ℚ) (nb : Int) (counts : String) : XmlNode :=
  XmlNode.elem "HistItem"
    [ XmlNode.elem "HistMin" [XmlNode.text (XV.f hmin)]
    , XmlNode.elem "HistMax" [XmlNode.text (XV.f hmax)]
    , XmlNode.elem "BucketCount" [XmlNode.text (XV.i nb)]
    , XmlNode.elem "HistCounts" [XmlNode.text (XV.s counts)] ]

theorem parseHistCounts_length (s : String) (n : Nat) :
    (parseHistCounts s n).length = n := by
  simp [parseHistCounts]

theorem pamParseHistogram_stored (alloc : Nat → Bool) (hmin hmax : ℚ) (nb : Int)
    (counts : String) (mi ma : ℚ) (bi : Int) :
    pamParseHistogram alloc (some (storedHistItem hmin hmax nb counts)) mi ma bi true =
      (if nb ≤ 0 ∨ nb > INT_MAX / 2 then ⟨false, hmin, hmax, nb, none, none⟩
       else if counts.length < 2 * nb.toNat - 1 then
         ⟨false, hmin, hmax, nb, none, some .CPLE_AppDefined⟩
       else if ¬ alloc nb.toNat then
         ⟨false, hmin, hmax, nb, none, some .CPLE_OutOfMemory⟩
       else ⟨true, hmin, hmax, nb, some (parseHistCounts counts nb.toNat), none⟩) := rfl

/-- C7: PamParseHistogram rejects non-positive bucket counts and counts
above INT_MAX/2; with a valid bucket count it fails with a reported
CPLE_AppDefined error whenever the stored count string is shorter than
2*bucketCount-1 characters; past that check it fails reporting
CPLE_OutOfMemory when the bucket allocation fails; and when decoding
succeeds it allocates exactly bucketCount buckets. -/
theorem claim_C7_parse_histogram (alloc : Nat → Bool) (hmin hmax : ℚ) (nb : Int)
    (counts : String) :
    ((nb ≤ 0 ∨ nb > INT_MAX / 2) →
      (pamParseHistogram alloc (some (storedHistItem hmin hmax nb counts)) 0 0 0 true).ok
        = false) ∧
    (0 < nb → nb ≤ INT_MAX / 2 → counts.length < 2 * nb.toNat - 1 →
      pamParseHistogram alloc (some (storedHistItem hmin hmax nb counts)) 0 0 0 true =
        ⟨false, hmin, hmax, nb, none, some .CPLE_AppDefined⟩) ∧
    (0 < nb → nb ≤ INT_MAX / 2 → ¬ (counts.length < 2 * nb.toNat - 1) →
      alloc nb.toNat = false →
      pamParseHistogram alloc (some (storedHistItem hmin hmax nb counts)) 0 0 0 true =
        ⟨false, hmin, hmax, nb, none, some .CPLE_OutOfMemory⟩) ∧
    ((pamParseHistogram alloc (some (storedHistItem hmin hmax nb counts)) 0 0 0 true).ok
        = true →
      ∃ l, (pamParseHistogram alloc
              (some (storedHistItem hmin hmax nb counts)) 0 0 0 true).panHistogram
          = some l ∧ l.length = nb.toNat) := by
  simp only [pamParseHistogram_stored]
  refine ⟨fun hbad => ?_, fun h1 h2 h3 => ?_, fun h1 h2 h3 h4 => ?_, fun hok => ?_⟩
  · rw [if_pos hbad]
  · rw [if_neg (by omega), if_pos h3]
  · rw [if_neg (by omega), if_neg h3, if_pos (by simp [h4])]
  · by_cases c1 : nb ≤ 0 ∨ nb > INT_MAX / 2
    · rw [if_pos c1] at hok
      simp at hok
    · by_cases c2 : counts.length < 2 * nb.toNat - 1
      · rw [if_neg c1, if_pos c2] at hok
        simp at hok
      · by_cases c3 : alloc nb.toNat = true
        · rw [if_neg c1, if_neg c2, if_neg (by simp [c3])] at hok ⊢
          exact ⟨_, rfl, parseHistCounts_length _ _⟩
        · rw [if_neg c1, if_neg c2, if_pos (by simp [c3])] at hok
          simp at hok

/-- C7 witness: the short-count-string failure at concrete inputs. -/
theorem claim_C7_parse_histogram_witness :
    pamParseHistogram (fun _ => true) (some (storedHistItem 0 1 3 "1|2")) 0 0 0 true =
      ⟨false, 0, 1, 3, none, some .CPLE_AppDefined⟩ :=
  (claim_C7_parse_histogram (fun _ => true) 0 1 3 "1|2").2.1 (by decide) (by decide)
    (by decide)

/-- HistogramDescriptor of the spec's data model (section 3): range, bucket
count, the two flags and the bucket counts. -/
structure HistDescriptor where
  dfMin : ℚ
  dfMax : ℚ
  nBuckets : Int
  bIncludeOutOfRange : Bool
  bApprox : Bool
  counts : List Nat
deriving DecidableEq

/-- A descriptor embedded as the HistItem element the cache stores (the
shape PamHistogramToXMLTree writes). -/
def embedHist (d : HistDescriptor) : XmlNode :=
  histItemNode d.dfMin d.dfMax d.nBuckets d.counts d.bIncludeOutOfRange d.bApprox

/-- The match key exactly as the spec states it: min and max equal the
query under the tolerance predicate, bucket count and includeOutOfRange
match exactly, and a candidate flagged approximate is accepted only when
the caller accepts approximate results. -/
def histMatchesSpec (req : ℚ → ℚ → Bool) (qmin qmax : ℚ) (qn : Int)
    (qioor qaok : Bool) (d : HistDescriptor) : Bool :=
  req d.dfMin qmin && req d.dfMax qmax && (d.nBuckets == qn) &&
    (d.bIncludeOutOfRange == qioor) && (qaok || !d.bApprox)

theorem histItemFilter_embedHist (req : ℚ → ℚ → Bool) (qmin qmax : ℚ) (qn : Int)
    (qioor qaok : Bool) (d : HistDescriptor) :
    histItemFilter req qmin qmax qn qioor qaok (embedHist d) =
      histMatchesSpec req qmin qmax qn qioor qaok d := by
  obtain ⟨mn, mx, nbk, io, ap, cts⟩ := d
  cases io <;> cases ap <;> cases qioor <;> cases qaok <;> rfl

/-- C4: over any list of cached descriptors, a candidate passes the match
test of PamFindMatchingHistogram iff its min and max equal the query under
the tolerance predicate, its bucket count and includeOutOfRange flag match
exactly, and — asymmetrically — an approximate candidate is rejected
exactly when approxOK is false; the lookup returns the first such
descriptor in document order and is absent when none matches. -/
theorem claim_C4_match_policy (req : ℚ → ℚ → Bool) (ds : List HistDescriptor)
    (qmin qmax : ℚ) (qn : Int) (qioor qaok : Bool) :
    (∀ d, histItemFilter req qmin qmax qn qioor qaok (embedHist d) =
        histMatchesSpec req qmin qmax qn qioor qaok d) ∧
    pamFindMatchingHistogram req (some (XmlNode.elem "Histograms" (ds.map embedHist)))
        qmin qmax qn qioor qaok =
      (ds.find? (histMatchesSpec req qmin qmax qn qioor qaok)).map embedHist := by
  refine ⟨histItemFilter_embedHist req qmin qmax qn qioor qaok, ?_⟩
  have hfun : histItemFilter req qmin qmax qn qioor qaok ∘ embedHist =
      histMatchesSpec req qmin qmax qn qioor qaok :=
    funext (histItemFilter_embedHist req qmin qmax qn qioor qaok)
  simp only [pamFindMatchingHistogram, XmlNode.children]
  rw [List.find?_map, hfun]

theorem markPamDirty_eq (b : Band) (p : GDALRasterBandPamInfo)
    (h : b.psPam = some p) (hpar : p.poParentDS = true) :
    markPamDirty b = { b with parentDirty := true } := by
  unfold markPamDirty
  rw [h]
  simp [hpar]

/-- The saved-histogram list after SetDefaultHistogram's removal pass: the
first child passing the forced-flags filter, if any, is removed. -/
def eraseMatchingHist (req : ℚ → ℚ → Bool) (mn mx : ℚ) (nb : Int)
    (l : List XmlNode) : List XmlNode :=
  match l.find? (histItemFilter req mn mx nb true true) with
  | some ψ => l.erase ψ
  | none => l

theorem setDefaultHistogram_eq (req : ℚ → ℚ → Bool) (b : Band)
    (p : GDALRasterBandPamInfo) (h : b.psPam = some p) (hpar : p.poParentDS = true)
    (l : List XmlNode) (hs : p.psSavedHistograms = some (XmlNode.elem "Histograms" l))
    (mn mx : ℚ) (nb : Int) (cts : List Nat) (hnb : ¬ nb > (INT_MAX - 10) / 12) :
    setDefaultHistogram req b mn mx nb cts =
      ({ b with
          psPam := some { p with psSavedHistograms := some (XmlNode.elem "Histograms"
            (histItemNode mn mx nb cts true false :: eraseMatchingHist req mn mx nb l)) },
          parentDirty := true }, CPLErr.CE_None) := by
  simp only [setDefaultHistogram, pamInitialize, h, hs, pamFindMatchingHistogram,
    XmlNode.children, eraseMatchingHist, pamHistogramToXMLTree, hnb, if_false]
  cases hf : l.find? (histItemFilter req mn mx nb true true) with
  | none =>
    simp only [hf]
    rw [markPamDirty_eq _ _ rfl (by simp [hpar])]
  | some ψ =>
    simp only [hf]
    rw [markPamDirty_eq _ _ rfl (by simp [hpar])]

/-- C3 counterexample: a cached descriptor with the same (min, max,
bucketCount) but includeOutOfRange = false is NOT removed by
SetDefaultHistogram — the forced TRUE query matches only candidates whose
includeOutOfRange flag is true — so the call duplicates instead of
replacing: the list ends up with two HistItem children. -/
theorem claim_C3_counterexample :
    ((setDefaultHistogram (fun a b => a == b)
        { psPam := some { poParentDS := true,
                          psSavedHistograms := some (XmlNode.elem "Histograms"
                            [histItemNode 0 1 2 [3, 4] false false]) } }
        0 1 2 [9, 9]).1.psPam.map
      (fun p => p.psSavedHistograms.map (fun h => h.children.length))) =
      some (some 2) := by
  rfl

/-- C3 (amended): SetDefaultHistogram on a band with an overlay record
first removes the first cached descriptor matching (min, max, bucketCount)
whose includeOutOfRange flag is true — the approximate flag is ignored,
but candidates with includeOutOfRange false are NOT matched — then
prepends a fresh descriptor built with includeOutOfRange forced true and
approximate forced false, marking the store dirty and returning success;
consequently a second call with the same (min, max, bucketCount) but
different counts removes the descriptor the first call prepended and
replaces it rather than duplicating the entry. -/
theorem claim_C3_amended (req : ℚ → ℚ → Bool) (b : Band)
    (p : GDALRasterBandPamInfo) (h : b.psPam = some p) (hpar : p.poParentDS = true)
    (l : List XmlNode) (hs : p.psSavedHistograms = some (XmlNode.elem "Histograms" l))
    (mn mx : ℚ) (nb : Int) (cts cts2 : List Nat)
    (hnb : ¬ nb > (INT_MAX - 10) / 12)
    (hmn : req mn mn = true) (hmx : req mx mx = true) :
    (∃ q, (setDefaultHistogram req b mn mx nb cts).1.psPam = some q ∧
       (setDefaultHistogram req b mn mx nb cts).2 = CPLErr.CE_None ∧
       (setDefaultHistogram req b mn mx nb cts).1.parentDirty = true ∧
       q.psSavedHistograms = some (XmlNode.elem "Histograms"
         (histItemNode mn mx nb cts true false :: eraseMatchingHist req mn mx nb l))) ∧
    (∃ q2, (setDefaultHistogram req (setDefaultHistogram req b mn mx nb cts).1
          mn mx nb cts2).1.psPam = some q2 ∧
       q2.psSavedHistograms = some (XmlNode.elem "Histograms"
         (histItemNode mn mx nb cts2 true false :: eraseMatchingHist req mn mx nb l))) := by
  have hfirst := setDefaultHistogram_eq req b p h hpar l hs mn mx nb cts hnb
  have hfilt : histItemFilter req mn mx nb true true
      (histItemNode mn mx nb cts true false) = true := by
    have := histItemFilter_embedHist req mn mx nb true true ⟨mn, mx, nb, true, false, cts⟩
    rw [show embedHist ⟨mn, mx, nb, true, false, cts⟩ =
        histItemNode mn mx nb cts true false from rfl] at this
    rw [this]
    simp [histMatchesSpec, hmn, hmx]
  have herase : eraseMatchingHist req mn mx nb
      (histItemNode mn mx nb cts true false :: eraseMatchingHist req mn mx nb l) =
      eraseMatchingHist req mn mx nb l := by
    unfold eraseMatchingHist
    rw [List.find?_cons_of_pos _ hfilt]
    exact List.erase_cons_head _ _
  have hsecond := setDefaultHistogram_eq req (setDefaultHistogram req b mn mx nb cts).1
    { p with psSavedHistograms := some (XmlNode.elem "Histograms"
        (histItemNode mn mx nb cts true false :: eraseMatchingHist req mn mx nb l)) }
    (by rw [hfirst]) (by simp [hpar])
    (histItemNode mn mx nb cts true false :: eraseMatchingHist req mn mx nb l)
    (by simp) mn mx nb cts2 hnb
  refine ⟨⟨_, by rw [hfirst], by rw [hfirst], by rw [hfirst], rfl⟩, ⟨_, by rw [hsecond], ?_⟩⟩
  simp only [herase]

/-- C3 witness: the replacement behavior at a concrete band (empty initial
histogram list). -/
theorem claim_C3_amended_witness :
    ∃ q, (setDefaultHistogram (fun a b => a == b)
        { psPam := some { poParentDS := true,
                          psSavedHistograms := some (XmlNode.elem "Histograms" []) } }
        0 255 2 [1, 2]).1.psPam = some q ∧
      (setDefaultHistogram (fun a b => a == b)
        { psPam := some { poParentDS := true,
                          psSavedHistograms := some (XmlNode.elem "Histograms" []) } }
        0 255 2 [1, 2]).2 = CPLErr.CE_None ∧
      (setDefaultHistogram (fun a b => a == b)
        { psPam := some { poParentDS := true,
                          psSavedHistograms := some (XmlNode.elem "Histograms" []) } }
        0 255 2 [1, 2]).1.parentDirty = true ∧
      q.psSavedHistograms = some (XmlNode.elem "Histograms"
        (histItemNode 0 255 2 [1, 2] true false ::
          eraseMatchingHist (fun a b => a == b) 0 255 2 [])) :=
  (claim_C3_amended (fun a b => a == b)
      _ _ rfl rfl [] rfl 0 255 2 [1, 2] [7, 7] (by decide) (by decide) (by decide)).1

/-- C9: when a cached descriptor matches the GetHistogram query but its
stored counts fail to decode, the decode failure is not returned: the call
falls through to native computation (with the parse-updated min, max and
bucket count), and on native success the freshly computed histogram is
appended to the cache as a new descriptor, the store is marked dirty, and
the call returns success together with the computed counts. -/
theorem claim_C9_decode_fallback (req : ℚ → ℚ → Bool) (alloc : Nat → Bool)
    (native : ℚ → ℚ → Int → Option (List Nat)) (b : Band)
    (p : GDALRasterBandPamInfo) (h : b.psPam = some p) (hpar : p.poParentDS = true)
    (mn mx : ℚ) (nb : Int) (ioor aok : Bool) (item : XmlNode) (l : List XmlNode)
    (hs : p.psSavedHistograms = some (XmlNode.elem "Histograms" l))
    (hfind : pamFindMatchingHistogram req p.psSavedHistograms mn mx nb ioor aok
      = some item)
    (hok : (pamParseHistogram alloc (some item) mn mx nb true).ok = false)
    (cts : List Nat)
    (hnat : native (pamParseHistogram alloc (some item) mn mx nb true).dfMin
        (pamParseHistogram alloc (some item) mn mx nb true).dfMax
        (pamParseHistogram alloc (some item) mn mx nb true).nBuckets = some cts)
    (hnb : ¬ (pamParseHistogram alloc (some item) mn mx nb true).nBuckets >
        (INT_MAX - 10) / 12) :
    getHistogram req alloc native b mn mx nb ioor aok =
      ({ b with
          psPam := some { p with psSavedHistograms := some (XmlNode.elem "Histograms"
            (l ++ [histItemNode (pamParseHistogram alloc (some item) mn mx nb true).dfMin
              (pamParseHistogram alloc (some item) mn mx nb true).dfMax
              (pamParseHistogram alloc (some item) mn mx nb true).nBuckets
              cts ioor aok])) },
          parentDirty := true }, CPLErr.CE_None, some cts) := by
  simp only [getHistogram, pamInitialize, h, hfind, hok, Bool.false_eq_true, if_false,
    hnat, pamHistogramToXMLTree]
  rw [if_neg hnb]
  simp only [markPamDirty_eq b p h hpar, hs, addXMLChild]

/-- C9 witness: the fallback at a concrete band whose cached descriptor
has a truncated count string. -/
theorem claim_C9_decode_fallback_witness :
    (getHistogram (fun a b => a == b) (fun _ => true) (fun _ _ _ => some [5, 6])
        { psPam := some { poParentDS := true,
                          psSavedHistograms := some (XmlNode.elem "Histograms"
                            [storedHistItem 0 1 2 "7"]) } }
        0 1 2 false false).2.1 = CPLErr.CE_None := by
  rw [claim_C9_decode_fallback (fun a b => a == b) (fun _ => true)
    (fun _ _ _ => some [5, 6])
    { psPam := some { poParentDS := true,
                      psSavedHistograms := some (XmlNode.elem "Histograms"
                        [storedHistItem 0 1 2 "7"]) } }
    _ rfl rfl 0 1 2 false false (storedHistItem 0 1 2 "7")
    [storedHistItem 0 1 2 "7"] rfl (by rfl) (by rfl) [5, 6] (by rfl)
    (by decide)]

/-- Projection of the nodata fields, for framing lemmas. -/
def ndView (p : GDALRasterBandPamInfo) : Bool × Bool × Bool × ℚ × Int × Nat :=
  (p.bNoDataValueSet, p.bNoDataValueSetAsInt64, p.bNoDataValueSetAsUInt64,
   p.dfNoDataValue, p.nNoDataValueInt64, p.nNoDataValueUInt64)

/-- Projection of the offset/scale fields. -/
def osView (p : GDALRasterBandPamInfo) : Bool × ℚ × Bool × ℚ :=
  (p.bOffsetSet, p.dfOffset, p.bScaleSet, p.dfScale)

/-- Projection of the unit type. -/
def utView (p : GDALRasterBandPamInfo) : Option String := p.pszUnitType

/-- Projection of the color interpretation. -/
def ciView (p : GDALRasterBandPamInfo) : GDALColorInterp := p.eColorInterp

/-- Projection of the category names. -/
def cnView (p : GDALRasterBandPamInfo) : Option (List String) := p.papszCategoryNames

/-- Projection of the color table. -/
def ctView (p : GDALRasterBandPamInfo) : Option (List GDALColorEntry) := p.poColorTable

/-- Projection of the min/max triple. -/
def mmView (p : GDALRasterBandPamInfo) : Bool × ℚ × ℚ := (p.bHaveMinMax, p.dfMin, p.dfMax)

/-- Projection of the statistics triple. -/
def stView (p : GDALRasterBandPamInfo) : Bool × ℚ × ℚ := (p.bHaveStats, p.dfMean, p.dfStdDev)

/-- Projection of the saved histogram subtree. -/
def shView (p : GDALRasterBandPamInfo) : Option XmlNode := p.psSavedHistograms

/-- Projection of the default RAT subtree. -/
def ratView (p : GDALRasterBandPamInfo) : Option XmlNode := p.poDefaultRAT

section SetterLemmas

theorem setOffset_psPam (b : Band) (p : GDALRasterBandPamInfo) (v : ℚ)
    (h : b.psPam = some p) :
    (setOffset b v).1.psPam = some { p with dfOffset := v, bOffsetSet := true } := by
  simp only [setOffset, pamInitialize, h]
  split_ifs with hc
  · simp [markPamDirty_psPam]
  · push_neg at hc
    obtain ⟨h1, h2⟩ := hc
    rw [h]
    cases p
    simp_all

theorem setScale_psPam (b : Band) (p : GDALRasterBandPamInfo) (v : ℚ)
    (h : b.psPam = some p) :
    (setScale b v).1.psPam = some { p with dfScale := v, bScaleSet := true } := by
  simp only [setScale, pamInitialize, h]
  split_ifs with hc
  · simp [markPamDirty_psPam]
  · push_neg at hc
    obtain ⟨h1, h2⟩ := hc
    rw [h]
    cases p
    simp_all

theorem setUnitType_psPam_val (b : Band) (p : GDALRasterBandPamInfo) (u : String)
    (h : b.psPam = some p) (hu : u ≠ "") :
    (setUnitType b (some u)).1.psPam = some { p with pszUnitType := some u } := by
  simp only [setUnitType, pamInitialize, h, hu, if_false]

theorem setUnitType_psPam_empty (b : Band) (p : GDALRasterBandPamInfo)
    (h : b.psPam = some p) :
    (setUnitType b (some "")).1.psPam = some { p with pszUnitType := none } := by
  simp only [setUnitType, pamInitialize, h, if_true]

theorem setColorInterpretation_psPam (b : Band) (p : GDALRasterBandPamInfo)
    (e : GDALColorInterp) (h : b.psPam = some p) :
    (setColorInterpretation b e).1.psPam = some { p with eColorInterp := e } := by
  simp only [setColorInterpretation, pamInitialize, h, markPamDirty_psPam]

theorem setCategoryNames_psPam (b : Band) (p : GDALRasterBandPamInfo)
    (ns : Option (List String)) (h : b.psPam = some p) :
    (setCategoryNames b ns).1.psPam = some { p with papszCategoryNames := ns } := by
  simp only [setCategoryNames, pamInitialize, h, markPamDirty_psPam]

theorem setColorTable_psPam (b : Band) (p : GDALRasterBandPamInfo)
    (tb : List GDALColorEntry) (h : b.psPam = some p) :
    (setColorTable b (some tb)).1.psPam =
      some { p with poColorTable := some tb, eColorInterp := .GCI_PaletteIndex } := by
  simp only [setColorTable, pamInitialize, h, markPamDirty_psPam]

theorem setDefaultRAT_psPam (b : Band) (p : GDALRasterBandPamInfo)
    (r : Option XmlNode) (h : b.psPam = some p) :
    (setDefaultRAT b r).1.psPam = some { p with poDefaultRAT := r } := by
  simp only [setDefaultRAT, pamInitialize, h, markPamDirty_psPam]

theorem setNoDataValue_description (b : Band) (v : ℚ) :
    (setNoDataValue b v).1.description = b.description := by
  unfold setNoDataValue pamInitialize nativeFallback
  cases hb : b.psPam <;> simp [hb, markPamDirty_description]

theorem setNoDataValueAsInt64_description (b : Band) (v : Int) :
    (setNoDataValueAsInt64 b v).1.description = b.description := by
  unfold setNoDataValueAsInt64 pamInitialize nativeFallback
  cases hb : b.psPam <;> simp [hb, markPamDirty_description]

theorem setNoDataValueAsUInt64_description (b : Band) (v : Nat) :
    (setNoDataValueAsUInt64 b v).1.description = b.description := by
  unfold setNoDataValueAsUInt64 pamInitialize nativeFallback
  cases hb : b.psPam <;> simp [hb, markPamDirty_description]

theorem setOffset_description (b : Band) (v : ℚ) :
    (setOffset b v).1.description = b.description := by
  unfold setOffset pamInitialize nativeFallback
  cases hb : b.psPam <;> simp [hb, markPamDirty_description]
  split_ifs <;> simp [markPamDirty_description]

theorem setScale_description (b : Band) (v : ℚ) :
    (setScale b v).1.description = b.description := by
  unfold setScale pamInitialize nativeFallback
  cases hb : b.psPam <;> simp [hb, markPamDirty_description]
  split_ifs <;> simp [markPamDirty_description]

theorem setUnitType_description (b : Band) (u : Option String) :
    (setUnitType b u).1.description = b.description := by
  unfold setUnitType pamInitialize nativeFallback
  cases hb : b.psPam with
  | none => cases u <;> simp [hb]
  | some p =>
    cases u with
    | none => simp [hb]; split_ifs <;> simp [markPamDirty_description]
    | some v =>
      simp only [hb]
      split_ifs <;> simp [markPamDirty_description]

theorem setColorInterpretation_description (b : Band) (e : GDALColorInterp) :
    (setColorInterpretation b e).1.description = b.description := by
  unfold setColorInterpretation pamInitialize nativeFallback
  cases hb : b.psPam <;> simp [hb, markPamDirty_description]

theorem setCategoryNames_description (b : Band) (ns : Option (List String)) :
    (setCategoryNames b ns).1.description = b.description := by
  unfold setCategoryNames pamInitialize nativeFallback
  cases hb : b.psPam <;> simp [hb, markPamDirty_description]

theorem setColorTable_description (b : Band) (tb : Option (List GDALColorEntry)) :
    (setColorTable b tb).1.description = b.description := by
  unfold setColorTable pamInitialize nativeFallback
  cases hb : b.psPam <;> cases tb <;> simp [hb, markPamDirty_description]

theorem setDefaultRAT_description (b : Band) (r : Option XmlNode) :
    (setDefaultRAT b r).1.description = b.description := by
  unfold setDefaultRAT pamInitialize nativeFallback
  cases hb : b.psPam <;> simp [hb, markPamDirty_description]

end SetterLemmas

section StepFraming

theorem xiMetadata_pres (b : Band) (t : XmlNode) :
    (xiMetadata b t).description = b.description ∧
    (xiMetadata b t).psPam = b.psPam ∧
    (xiMetadata b t).eDataType = b.eDataType := by
  simp [xiMetadata]

theorem xiDescription_pres (b : Band) (t : XmlNode) :
    (xiDescription b t).psPam = b.psPam ∧
    (xiDescription b t).eDataType = b.eDataType := by
  simp [xiDescription]

theorem xiNoData_pres (b : Band) (t : XmlNode) :
    (xiNoData b t).description = b.description ∧
    (xiNoData b t).psPam.map osView = b.psPam.map osView ∧
    (xiNoData b t).psPam.map utView = b.psPam.map utView ∧
    (xiNoData b t).psPam.map ciView = b.psPam.map ciView ∧
    (xiNoData b t).psPam.map cnView = b.psPam.map cnView ∧
    (xiNoData b t).psPam.map ctView = b.psPam.map ctView ∧
    (xiNoData b t).psPam.map mmView = b.psPam.map mmView ∧
    (xiNoData b t).psPam.map stView = b.psPam.map stView ∧
    (xiNoData b t).psPam.map shView = b.psPam.map shView ∧
    (xiNoData b t).psPam.map ratView = b.psPam.map ratView ∧
    (xiNoData b t).psPam.isSome = b.psPam.isSome := by
  have hone : ∀ (b' : Band) (v : ℚ),
      (setNoDataValue b' v).1.description = b'.description ∧
      (setNoDataValue b' v).1.psPam.map osView = b'.psPam.map osView ∧
      (setNoDataValue b' v).1.psPam.map utView = b'.psPam.map utView ∧
      (setNoDataValue b' v).1.psPam.map ciView = b'.psPam.map ciView ∧
      (setNoDataValue b' v).1.psPam.map cnView = b'.psPam.map cnView ∧
      (setNoDataValue b' v).1.psPam.map ctView = b'.psPam.map ctView ∧
      (setNoDataValue b' v).1.psPam.map mmView = b'.psPam.map mmView ∧
      (setNoDataValue b' v).1.psPam.map stView = b'.psPam.map stView ∧
      (setNoDataValue b' v).1.psPam.map shView = b'.psPam.map shView ∧
      (setNoDataValue b' v).1.psPam.map ratView = b'.psPam.map ratView ∧
      (setNoDataValue b' v).1.psPam.isSome = b'.psPam.isSome := by
    intro b' v
    cases hb : b'.psPam with
    | none => simp [setNoDataValue, pamInitialize, nativeFallback, hb]
    | some p =>
      simp only [setNoDataValue_description, setNoDataValue_psPam b' p v hb, hb]
      simp [resetNoDataValues, osView, utView, ciView, cnView, ctView, mmView,
        stView, shView, ratView]
  have htwo : ∀ (b' : Band) (v : Int),
      (setNoDataValueAsInt64 b' v).1.description = b'.description ∧
      (setNoDataValueAsInt64 b' v).1.psPam.map osView = b'.psPam.map osView ∧
      (setNoDataValueAsInt64 b' v).1.psPam.map utView = b'.psPam.map utView ∧
      (setNoDataValueAsInt64 b' v).1.psPam.map ciView = b'.psPam.map ciView ∧
      (setNoDataValueAsInt64 b' v).1.psPam.map cnView = b'.psPam.map cnView ∧
      (setNoDataValueAsInt64 b' v).1.psPam.map ctView = b'.psPam.map ctView ∧
      (setNoDataValueAsInt64 b' v).1.psPam.map mmView = b'.psPam.map mmView ∧
      (setNoDataValueAsInt64 b' v).1.psPam.map stView = b'.psPam.map stView ∧
      (setNoDataValueAsInt64 b' v).1.psPam.map shView = b'.psPam.map shView ∧
      (setNoDataValueAsInt64 b' v).1.psPam.map ratView = b'.psPam.map ratView ∧
      (setNoDataValueAsInt64 b' v).1.psPam.isSome = b'.psPam.isSome := by
    intro b' v
    cases hb : b'.psPam with
    | none => simp [setNoDataValueAsInt64, pamInitialize, nativeFallback, hb]
    | some p =>
      simp only [setNoDataValueAsInt64_description, setNoDataValueAsInt64_psPam b' p v hb, hb]
      simp [resetNoDataValues, osView, utView, ciView, cnView, ctView, mmView,
        stView, shView, ratView]
  have hthree : ∀ (b' : Band) (v : Nat),
      (setNoDataValueAsUInt64 b' v).1.description = b'.description ∧
      (setNoDataValueAsUInt64 b' v).1.psPam.map osView = b'.psPam.map osView ∧
      (setNoDataValueAsUInt64 b' v).1.psPam.map utView = b'.psPam.map utView ∧
      (setNoDataValueAsUInt64 b' v).1.psPam.map ciView = b'.psPam.map ciView ∧
      (setNoDataValueAsUInt64 b' v).1.psPam.map cnView = b'.psPam.map cnView ∧
      (setNoDataValueAsUInt64 b' v).1.psPam.map ctView = b'.psPam.map ctView ∧
      (setNoDataValueAsUInt64 b' v).1.psPam.map mmView = b'.psPam.map mmView ∧
      (setNoDataValueAsUInt64 b' v).1.psPam.map stView = b'.psPam.map stView ∧
      (setNoDataValueAsUInt64 b' v).1.psPam.map shView = b'.psPam.map shView ∧
      (setNoDataValueAsUInt64 b' v).1.psPam.map ratView = b'.psPam.map ratView ∧
      (setNoDataValueAsUInt64 b' v).1.psPam.isSome = b'.psPam.isSome := by
    intro b' v
    cases hb : b'.psPam with
    | none => simp [setNoDataValueAsUInt64, pamInitialize, nativeFallback, hb]
    | some p =>
      simp only [setNoDataValueAsUInt64_description, setNoDataValueAsUInt64_psPam b' p v hb, hb]
      simp [resetNoDataValues, osView, utView, ciView, cnView, ctView, mmView,
        stView, shView, ratView]
  unfold xiNoData
  cases hl : getXMLValue t "NoDataValue" with
  | none => simp
  | some v =>
    cases hhex : getXMLValue2 t "NoDataValue" "le_hex_equiv" with
    | some hv => cases hv <;> exact hone _ _
    | none =>
      by_cases h1 : b.eDataType = .GDT_Int64
      · simp only [h1, if_true]
        exact htwo _ _
      · simp only [h1, if_false]
        by_cases h2 : b.eDataType = .GDT_UInt64
        · simp only [h2, if_true]
          exact hthree _ _
        · simp only [h2, if_false]
          exact hone _ _

theorem xiOffsetScale_pres (b : Band) (t : XmlNode) :
    (xiOffsetScale b t).description = b.description ∧
    (xiOffsetScale b t).psPam.map ndView = b.psPam.map ndView ∧
    (xiOffsetScale b t).psPam.map utView = b.psPam.map utView ∧
    (xiOffsetScale b t).psPam.map ciView = b.psPam.map ciView ∧
    (xiOffsetScale b t).psPam.map cnView = b.psPam.map cnView ∧
    (xiOffsetScale b t).psPam.map ctView = b.psPam.map ctView ∧
    (xiOffsetScale b t).psPam.map mmView = b.psPam.map mmView ∧
    (xiOffsetScale b t).psPam.map stView = b.psPam.map stView ∧
    (xiOffsetScale b t).psPam.map shView = b.psPam.map shView ∧
    (xiOffsetScale b t).psPam.map ratView = b.psPam.map ratView ∧
    (xiOffsetScale b t).psPam.isSome = b.psPam.isSome := by
  simp only [xiOffsetScale]
  by_cases hc : ((getXMLValue t "Offset").isSome || (getXMLValue t "Scale").isSome) = true
  · rw [if_pos hc]
    cases hb : b.psPam with
    | none =>
      have h1 : (setOffset b
          (match getXMLValue t "Offset" with | some v => cplAtofXV v | none => 0)).1 = b := by
        simp [setOffset, pamInitialize, nativeFallback, hb]
      have h2 : (setScale b
          (match getXMLValue t "Scale" with | some v => cplAtofXV v | none => 1)).1 = b := by
        simp [setScale, pamInitialize, nativeFallback, hb]
      rw [h1, h2]
      simp [hb]
    | some p =>
      have h1 := setOffset_psPam b p
        (match getXMLValue t "Offset" with | some v => cplAtofXV v | none => 0) hb
      have h2 := setScale_psPam _ _
        (match getXMLValue t "Scale" with | some v => cplAtofXV v | none => 1) h1
      simp only [setScale_description, setOffset_description, h2, hb]
      simp [ndView, utView, ciView, cnView, ctView, mmView, stView, shView, ratView]
  · rw [if_neg hc]
    simp

theorem xiUnitType_pres (b : Band) (t : XmlNode) :
    (xiUnitType b t).description = b.description ∧
    (xiUnitType b t).psPam.map ndView = b.psPam.map ndView ∧
    (xiUnitType b t).psPam.map osView = b.psPam.map osView ∧
    (xiUnitType b t).psPam.map ciView = b.psPam.map ciView ∧
    (xiUnitType b t).psPam.map cnView = b.psPam.map cnView ∧
    (xiUnitType b t).psPam.map ctView = b.psPam.map ctView ∧
    (xiUnitType b t).psPam.map mmView = b.psPam.map mmView ∧
    (xiUnitType b t).psPam.map stView = b.psPam.map stView ∧
    (xiUnitType b t).psPam.map shView = b.psPam.map shView ∧
    (xiUnitType b t).psPam.map ratView = b.psPam.map ratView ∧
    (xiUnitType b t).psPam.isSome = b.psPam.isSome := by
  unfold xiUnitType
  cases hl : getXMLValue t "UnitType" with
  | none => simp
  | some v =>
    cases hb : b.psPam with
    | none => simp [setUnitType, pamInitialize, nativeFallback, hb]
    | some p =>
      by_cases hv : xvStr v = ""
      · simp only [setUnitType_description, hv, setUnitType_psPam_empty b p hb, hb]
        simp [ndView, osView, ciView, cnView, ctView, mmView, stView, shView, ratView]
      · simp only [setUnitType_description, setUnitType_psPam_val b p (xvStr v) hb hv, hb]
        simp [ndView, osView, ciView, cnView, ctView, mmView, stView, shView, ratView]

theorem xiColorInterp_pres (b : Band) (t : XmlNode) :
    (xiColorInterp b t).description = b.description ∧
    (xiColorInterp b t).psPam.map ndView = b.psPam.map ndView ∧
    (xiColorInterp b t).psPam.map osView = b.psPam.map osView ∧
    (xiColorInterp b t).psPam.map utView = b.psPam.map utView ∧
    (xiColorInterp b t).psPam.map cnView = b.psPam.map cnView ∧
    (xiColorInterp b t).psPam.map ctView = b.psPam.map ctView ∧
    (xiColorInterp b t).psPam.map mmView = b.psPam.map mmView ∧
    (xiColorInterp b t).psPam.map stView = b.psPam.map stView ∧
    (xiColorInterp b t).psPam.map shView = b.psPam.map shView ∧
    (xiColorInterp b t).psPam.map ratView = b.psPam.map ratView ∧
    (xiColorInterp b t).psPam.isSome = b.psPam.isSome := by
  unfold xiColorInterp
  cases hl : getXMLValue t "ColorInterp" with
  | none => simp
  | some v =>
    cases hb : b.psPam with
    | none => simp [setColorInterpretation, pamInitialize, nativeFallback, hb]
    | some p =>
      simp only [setColorInterpretation_description, setColorInterpretation_psPam b p _ hb, hb]
      simp [ndView, osView, utView, cnView, ctView, mmView, stView, shView, ratView]

theorem xiCategoryNames_pres (b : Band) (t : XmlNode) :
    (xiCategoryNames b t).description = b.description ∧
    (xiCategoryNames b t).psPam.map ndView = b.psPam.map ndView ∧
    (xiCategoryNames b t).psPam.map osView = b.psPam.map osView ∧
    (xiCategoryNames b t).psPam.map utView = b.psPam.map utView ∧
    (xiCategoryNames b t).psPam.map ciView = b.psPam.map ciView ∧
    (xiCategoryNames b t).psPam.map ctView = b.psPam.map ctView ∧
    (xiCategoryNames b t).psPam.map mmView = b.psPam.map mmView ∧
    (xiCategoryNames b t).psPam.map stView = b.psPam.map stView ∧
    (xiCategoryNames b t).psPam.map shView = b.psPam.map shView ∧
    (xiCategoryNames b t).psPam.map ratView = b.psPam.map ratView ∧
    (xiCategoryNames b t).psPam.isSome = b.psPam.isSome := by
  unfold xiCategoryNames
  cases hl : findChildNamed "CategoryNames" t.children with
  | none => simp
  | some cn =>
    cases hb : b.psPam with
    | none => simp [setCategoryNames, pamInitialize, nativeFallback, hb]
    | some p =>
      simp only [setCategoryNames_description, setCategoryNames_psPam b p _ hb, hb]
      simp [ndView, osView, utView, ciView, ctView, mmView, stView, shView, ratView]

theorem xiColorTable_pres (b : Band) (t : XmlNode) :
    (xiColorTable b t).description = b.description ∧
    (xiColorTable b t).psPam.map ndView = b.psPam.map ndView ∧
    (xiColorTable b t).psPam.map osView = b.psPam.map osView ∧
    (xiColorTable b t).psPam.map utView = b.psPam.map utView ∧
    (xiColorTable b t).psPam.map cnView = b.psPam.map cnView ∧
    (xiColorTable b t).psPam.map mmView = b.psPam.map mmView ∧
    (xiColorTable b t).psPam.map stView = b.psPam.map stView ∧
    (xiColorTable b t).psPam.map shView = b.psPam.map shView ∧
    (xiColorTable b t).psPam.map ratView = b.psPam.map ratView ∧
    (xiColorTable b t).psPam.isSome = b.psPam.isSome := by
  unfold xiColorTable
  cases hl : findChildNamed "ColorTable" t.children with
  | none => simp
  | some ct =>
    cases hb : b.psPam with
    | none => simp [setColorTable, pamInitialize, nativeFallback, hb]
    | some p =>
      simp only [setColorTable_description, setColorTable_psPam b p _ hb, hb]
      simp [ndView, osView, utView, cnView, mmView, stView, shView, ratView]

theorem xiMinMax_pres (b : Band) (t : XmlNode) :
    (xiMinMax b t).description = b.description ∧
    (xiMinMax b t).psPam.map ndView = b.psPam.map ndView ∧
    (xiMinMax b t).psPam.map osView = b.psPam.map osView ∧
    (xiMinMax b t).psPam.map utView = b.psPam.map utView ∧
    (xiMinMax b t).psPam.map ciView = b.psPam.map ciView ∧
    (xiMinMax b t).psPam.map cnView = b.psPam.map cnView ∧
    (xiMinMax b t).psPam.map ctView = b.psPam.map ctView ∧
    (xiMinMax b t).psPam.map stView = b.psPam.map stView ∧
    (xiMinMax b t).psPam.map shView = b.psPam.map shView ∧
    (xiMinMax b t).psPam.map ratView = b.psPam.map ratView ∧
    (xiMinMax b t).psPam.isSome = b.psPam.isSome := by
  unfold xiMinMax
  cases getXMLValue t "Minimum" with
  | none => simp
  | some mn =>
    cases getXMLValue t "Maximum" with
    | none => simp
    | some mx =>
      cases hb : b.psPam <;>
        simp [hb, ndView, osView, utView, ciView, cnView, ctView, stView, shView,
          ratView]

theorem xiStats_pres (b : Band) (t : XmlNode) :
    (xiStats b t).description = b.description ∧
    (xiStats b t).psPam.map ndView = b.psPam.map ndView ∧
    (xiStats b t).psPam.map osView = b.psPam.map osView ∧
    (xiStats b t).psPam.map utView = b.psPam.map utView ∧
    (xiStats b t).psPam.map ciView = b.psPam.map ciView ∧
    (xiStats b t).psPam.map cnView = b.psPam.map cnView ∧
    (xiStats b t).psPam.map ctView = b.psPam.map ctView ∧
    (xiStats b t).psPam.map mmView = b.psPam.map mmView ∧
    (xiStats b t).psPam.map shView = b.psPam.map shView ∧
    (xiStats b t).psPam.map ratView = b.psPam.map ratView ∧
    (xiStats b t).psPam.isSome = b.psPam.isSome := by
  unfold xiStats
  cases getXMLValue t "Mean" with
  | none => simp
  | some mean =>
    cases getXMLValue t "StandardDeviation" with
    | none => simp
    | some sd =>
      cases hb : b.psPam <;>
        simp [hb, ndView, osView, utView, ciView, cnView, ctView, mmView, shView,
          ratView]

theorem xiHistograms_pres (b : Band) (t : XmlNode) :
    (xiHistograms b t).description = b.description ∧
    (xiHistograms b t).psPam.map ndView = b.psPam.map ndView ∧
    (xiHistograms b t).psPam.map osView = b.psPam.map osView ∧
    (xiHistograms b t).psPam.map utView = b.psPam.map utView ∧
    (xiHistograms b t).psPam.map ciView = b.psPam.map ciView ∧
    (xiHistograms b t).psPam.map cnView = b.psPam.map cnView ∧
    (xiHistograms b t).psPam.map ctView = b.psPam.map ctView ∧
    (xiHistograms b t).psPam.map mmView = b.psPam.map mmView ∧
    (xiHistograms b t).psPam.map stView = b.psPam.map stView ∧
    (xiHistograms b t).psPam.map ratView = b.psPam.map ratView ∧
    (xiHistograms b t).psPam.isSome = b.psPam.isSome := by
  unfold xiHistograms
  cases findChildNamed "Histograms" t.children with
  | none => simp
  | some hnode =>
    cases hb : b.psPam <;>
      simp [hb, ndView, osView, utView, ciView, cnView, ctView, mmView, stView,
        ratView]

theorem xiRAT_pres (b : Band) (t : XmlNode) :
    (xiRAT b t).description = b.description ∧
    (xiRAT b t).psPam.map ndView = b.psPam.map ndView ∧
    (xiRAT b t).psPam.map osView = b.psPam.map osView ∧
    (xiRAT b t).psPam.map utView = b.psPam.map utView ∧
    (xiRAT b t).psPam.map ciView = b.psPam.map ciView ∧
    (xiRAT b t).psPam.map cnView = b.psPam.map cnView ∧
    (xiRAT b t).psPam.map ctView = b.psPam.map ctView ∧
    (xiRAT b t).psPam.map mmView = b.psPam.map mmView ∧
    (xiRAT b t).psPam.map stView = b.psPam.map stView ∧
    (xiRAT b t).psPam.map shView = b.psPam.map shView ∧
    (xiRAT b t).psPam.isSome = b.psPam.isSome := by
  unfold xiRAT
  cases findChildNamed "GDALRasterAttributeTable" t.children with
  | none => simp
  | some rnode =>
    cases hb : b.psPam <;>
      simp [hb, ndView, osView, utView, ciView, cnView, ctView, mmView, stView,
        shView]

end StepFraming

theorem xiOffsetScale_eff (b : Band) (p : GDALRasterBandPamInfo) (t : XmlNode)
    (h : b.psPam = some p)
    (hOS : ((getXMLValue t "Offset").isSome || (getXMLValue t "Scale").isSome) = true) :
    (xiOffsetScale b t).psPam.map osView =
      some (true, (match getXMLValue t "Offset" with | some v => cplAtofXV v | none => 0),
            true, (match getXMLValue t "Scale" with | some v => cplAtofXV v | none => 1)) := by
  simp only [xiOffsetScale]
  rw [if_pos hOS]
  have h1 := setOffset_psPam b p
    (match getXMLValue t "Offset" with | some v => cplAtofXV v | none => 0) h
  have h2 := setScale_psPam _ _
    (match getXMLValue t "Scale" with | some v => cplAtofXV v | none => 1) h1
  rw [h2]
  simp [osView]

theorem xmlInitBand_offset_scale (b : Band) (p : GDALRasterBandPamInfo)
    (h : b.psPam = some p) (t : XmlNode)
    (hOS : ((getXMLValue t "Offset").isSome || (getXMLValue t "Scale").isSome) = true) :
    (xmlInitBand b t).1.psPam.map osView =
      some (true, (match getXMLValue t "Offset" with | some v => cplAtofXV v | none => 0),
            true, (match getXMLValue t "Scale" with | some v => cplAtofXV v | none => 1)) := by
  have heq : (xmlInitBand b t).1 =
      xiRAT (xiHistograms (xiStats (xiMinMax (xiColorTable (xiCategoryNames (xiColorInterp (xiUnitType (xiOffsetScale (xiNoData (xiDescription (xiMetadata b t) t) t) t) t) t) t) t) t) t) t) t := rfl
  have hsome : ∃ p3, (xiNoData (xiDescription (xiMetadata b t) t) t).psPam = some p3 := by
    have h1 : (xiMetadata b t).psPam = b.psPam := (xiMetadata_pres b t).2.1
    have h2 : (xiDescription (xiMetadata b t) t).psPam = (xiMetadata b t).psPam :=
      (xiDescription_pres _ t).1
    have h3 := (xiNoData_pres (xiDescription (xiMetadata b t) t) t).2.2.2.2.2.2.2.2.2.2
    rw [h2, h1, h] at h3
    exact Option.isSome_iff_exists.mp (by rw [h3]; rfl)
  obtain ⟨p3, hp3⟩ := hsome
  rw [heq, (xiRAT_pres _ t).2.2.1, (xiHistograms_pres _ t).2.2.1,
    (xiStats_pres _ t).2.2.1, (xiMinMax_pres _ t).2.2.1, (xiColorTable_pres _ t).2.2.1,
    (xiCategoryNames_pres _ t).2.2.1, (xiColorInterp_pres _ t).2.2.1,
    (xiUnitType_pres _ t).2.2.1, xiOffsetScale_eff _ p3 t hp3 hOS]

/-- C8: during deserialization, whenever an Offset or a Scale element is
present in the document, both offset and scale are stored together with
both set flags raised, the absent one defaulting to 0.0 and 1.0
respectively. -/
theorem claim_C8_offset_scale_coupling (b : Band) (p : GDALRasterBandPamInfo)
    (h : b.psPam = some p) (t : XmlNode)
    (hOS : ((getXMLValue t "Offset").isSome || (getXMLValue t "Scale").isSome) = true) :
    (xmlInitBand b t).1.psPam.map osView =
      some (true, (match getXMLValue t "Offset" with | some v => cplAtofXV v | none => 0),
            true, (match getXMLValue t "Scale" with | some v => cplAtofXV v | none => 1)) :=
  xmlInitBand_offset_scale b p h t hOS

/-- C8 witness: a document holding only Scale=2.5 deserializes to
offset 0.0 and scale 2.5 with both set flags true. -/
theorem claim_C8_offset_scale_coupling_witness :
    (xmlInitBand { psPam := some { poParentDS := true } }
        (XmlNode.elem "PAMRasterBand"
          [XmlNode.elem "Scale" [XmlNode.text (XV.f ((5 : ℚ) / 2))]])).1.psPam.map osView =
      some (true, 0, true, (5 : ℚ) / 2) := by
  rw [claim_C8_offset_scale_coupling { psPam := some { poParentDS := true } } _ rfl
    (XmlNode.elem "PAMRasterBand"
      [XmlNode.elem "Scale" [XmlNode.text (XV.f ((5 : ℚ) / 2))]]) (by rfl)]
  rfl

section LookupLemmas

theorem isNamed_elem (nm tg : String) (ch : List XmlNode) :
    isNamed nm (XmlNode.elem tg ch) = cplEQUAL tg nm := rfl

theorem isNamed_attr (nm tg : String) (ch : List XmlNode) :
    isNamed nm (XmlNode.attr tg ch) = cplEQUAL tg nm := rfl

theorem findChildNamed_append (nm : String) (l1 l2 : List XmlNode) :
    findChildNamed nm (l1 ++ l2) =
      (findChildNamed nm l1).or (findChildNamed nm l2) :=
  List.find?_append

theorem findChildNamed_eq_none (nm : String) (l : List XmlNode)
    (h : ∀ n ∈ l, isNamed nm n = false) : findChildNamed nm l = none := by
  unfold findChildNamed
  rw [List.find?_eq_none]
  intro x hx
  simp [h x hx]

theorem find_optNodesP_single_ne (nm : String) (c : Prop) [Decidable c] (n : XmlNode)
    (h : isNamed nm n = false) : findChildNamed nm (optNodesP c [n]) = none := by
  apply findChildNamed_eq_none
  intro m hm
  unfold optNodesP at hm
  by_cases hc : c
  · rw [if_pos hc] at hm
    simp at hm
    subst hm
    exact h
  · rw [if_neg hc] at hm
    cases hm

theorem find_optNodesP_pair_ne (nm : String) (c : Prop) [Decidable c]
    (n1 n2 : XmlNode) (h1 : isNamed nm n1 = false) (h2 : isNamed nm n2 = false) :
    findChildNamed nm (optNodesP c [n1, n2]) = none := by
  apply findChildNamed_eq_none
  intro m hm
  unfold optNodesP at hm
  by_cases hc : c
  · rw [if_pos hc] at hm
    simp at hm
    cases hm with
    | inl h => subst h; exact h1
    | inr h => subst h; exact h2
  · rw [if_neg hc] at hm
    cases hm

theorem find_optNodesP_single_self (nm : String) (c : Prop) [Decidable c]
    (n : XmlNode) (h : isNamed nm n = true) :
    findChildNamed nm (optNodesP c [n]) = if c then some n else none := by
  unfold optNodesP findChildNamed
  by_cases hc : c
  · rw [if_pos hc, if_pos hc]
    simp [List.find?, h]
  · rw [if_neg hc, if_neg hc]
    rfl

theorem find_optNodesP_pair_fst (nm : String) (c : Prop) [Decidable c]
    (n1 n2 : XmlNode) (h : isNamed nm n1 = true) :
    findChildNamed nm (optNodesP c [n1, n2]) = if c then some n1 else none := by
  unfold optNodesP findChildNamed
  by_cases hc : c
  · rw [if_pos hc, if_pos hc]
    simp [List.find?, h]
  · rw [if_neg hc, if_neg hc]
    rfl

theorem find_optNodesP_pair_snd (nm : String) (c : Prop) [Decidable c]
    (n1 n2 : XmlNode) (h1 : isNamed nm n1 = false) (h2 : isNamed nm n2 = true) :
    findChildNamed nm (optNodesP c [n1, n2]) = if c then some n2 else none := by
  unfold optNodesP findChildNamed
  by_cases hc : c
  · rw [if_pos hc, if_pos hc]
    simp [List.find?, h1, h2]
  · rw [if_neg hc, if_neg hc]
    rfl

theorem find_optionNodes_none (nm : String) (o : Option XmlNode)
    (h : ∀ n, o = some n → isNamed nm n = false) :
    findChildNamed nm (optionNodes o) = none := by
  cases ho : o with
  | none => rfl
  | some n =>
    unfold optionNodes findChildNamed
    simp [List.find?, h n ho]

theorem find_optionNodes_self (nm : String) (o : Option XmlNode)
    (h : ∀ n, o = some n → isNamed nm n = true) :
    findChildNamed nm (optionNodes o) = o := by
  cases ho : o with
  | none => rfl
  | some n =>
    unfold optionNodes findChildNamed
    simp [List.find?, h n ho]

theorem find_optionNodes_mapped_ne {α : Type} (nm : String) (o : Option α)
    (g : α → XmlNode) (h : ∀ x, isNamed nm (g x) = false) :
    findChildNamed nm (optionNodes (o.map g)) = none := by
  apply find_optionNodes_none
  intro n hn
  cases o with
  | none => cases hn
  | some x =>
    simp at hn
    rw [← hn]
    exact h x

theorem find_optionNodes_mapped_self {α : Type} (nm : String) (o : Option α)
    (g : α → XmlNode) (h : ∀ x, isNamed nm (g x) = true) :
    findChildNamed nm (optionNodes (o.map g)) = o.map g := by
  apply find_optionNodes_self
  intro n hn
  cases o with
  | none => cases hn
  | some x =>
    simp at hn
    rw [← hn]
    exact h x

theorem find_noDataFrag_ne (nm : String) (p : GDALRasterBandPamInfo)
    (h : cplEQUAL "NoDataValue" nm = false) :
    findChildNamed nm (noDataFrag p) = none := by
  unfold noDataFrag
  split_ifs <;>
    first
      | rfl
      | (apply findChildNamed_eq_none
         intro n hn
         simp at hn
         subst hn
         rw [isNamed_elem, h])

theorem find_noDataFrag_self (p : GDALRasterBandPamInfo) :
    findChildNamed "NoDataValue" (noDataFrag p) =
      (if p.bNoDataValueSet = true then
        some (XmlNode.elem "NoDataValue"
          ([XmlNode.text (XV.f p.dfNoDataValue)] ++
           optNodesP (p.dfNoDataValue.den ≠ 1)
             [XmlNode.attr "le_hex_equiv" [XmlNode.text (XV.f p.dfNoDataValue)]]))
       else if p.bNoDataValueSetAsInt64 = true then
         some (XmlNode.elem "NoDataValue" [XmlNode.text (XV.i p.nNoDataValueInt64)])
       else if p.bNoDataValueSetAsUInt64 = true then
         some (XmlNode.elem "NoDataValue" [XmlNode.text (XV.u p.nNoDataValueUInt64)])
       else none) := by
  unfold noDataFrag
  split_ifs <;> simp +decide [findChildNamed, List.find?, isNamed_elem] <;> rfl

theorem find_optNodesP_single (nm : String) (c : Prop) [Decidable c] (n : XmlNode) :
    findChildNamed nm (optNodesP c [n]) =
      (if isNamed nm n = true then (if c then some n else none) else none) := by
  unfold optNodesP findChildNamed
  by_cases hc : c <;> cases hn : isNamed nm n <;>
    simp [hc, hn, List.find?]

theorem find_optNodesP_pair (nm : String) (c : Prop) [Decidable c]
    (n1 n2 : XmlNode) :
    findChildNamed nm (optNodesP c [n1, n2]) =
      (if isNamed nm n1 = true then (if c then some n1 else none)
       else if isNamed nm n2 = true then (if c then some n2 else none)
       else none) := by
  unfold optNodesP findChildNamed
  by_cases hc : c <;> cases hn1 : isNamed nm n1 <;> cases hn2 : isNamed nm n2 <;>
    simp [hc, hn1, hn2, List.find?]

theorem find_optionNodes_mapped {α : Type} (nm : String) (o : Option α)
    (g : α → XmlNode) :
    findChildNamed nm (optionNodes (o.map g)) =
      o.bind (fun x => if isNamed nm (g x) = true then some (g x) else none) := by
  cases o with
  | none => rfl
  | some x =>
    unfold optionNodes findChildNamed
    cases hn : isNamed nm (g x) <;> simp [List.find?, hn]

theorem optionBind_none {α β : Type} (o : Option α) :
    (o.bind (fun _ => (none : Option β))) = none := by
  cases o <;> rfl

theorem optionBind_some {α β : Type} (o : Option α) (g : α → β) :
    (o.bind (fun x => some (g x))) = o.map g := by
  cases o <;> rfl

end LookupLemmas

/-- The stored opaque subtrees carry their canonical element tags (they are
created that way by this translation unit: the histogram list under a
Histograms element, the RAT serialization under GDALRasterAttributeTable,
the metadata store serialization under Metadata). -/
def TagsOK (b : Band) (p : GDALRasterBandPamInfo) : Prop :=
  (∀ n, p.psSavedHistograms = some n → ∃ ch, n = XmlNode.elem "Histograms" ch) ∧
  (∀ n, p.poDefaultRAT = some n → ∃ ch, n = XmlNode.elem "GDALRasterAttributeTable" ch) ∧
  (∀ n, b.oMDMD = some n → ∃ ch, n = XmlNode.elem "Metadata" ch)

section MasterLookup

theorem ser_find_Offset (b : Band) (p : GDALRasterBandPamInfo) (htags : TagsOK b p) :
    findChildNamed "Offset" (serChildren b p) =
      (if p.dfOffset ≠ 0 then
        some (XmlNode.elem "Offset" [XmlNode.text (XV.f p.dfOffset)]) else none) := by
  obtain ⟨hsh, hrat, hmd⟩ := htags
  unfold serChildren catNamesFrag colorTableFrag
  rw [findChildNamed_append, findChildNamed_append, findChildNamed_append,
      findChildNamed_append, findChildNamed_append, findChildNamed_append,
      findChildNamed_append, findChildNamed_append, findChildNamed_append,
      findChildNamed_append, findChildNamed_append, findChildNamed_append,
      findChildNamed_append]
  rw [find_optionNodes_none "Offset" p.psSavedHistograms
    (fun n hn => by obtain ⟨ch, h2⟩ := hsh n hn; rw [h2]; rfl)]
  rw [find_optionNodes_none "Offset" p.poDefaultRAT
    (fun n hn => by obtain ⟨ch, h2⟩ := hrat n hn; rw [h2]; rfl)]
  rw [find_optionNodes_none "Offset" b.oMDMD
    (fun n hn => by obtain ⟨ch, h2⟩ := hmd n hn; rw [h2]; rfl)]
  rw [find_noDataFrag_ne "Offset" p (by decide)]
  simp +decide [find_optNodesP_single, find_optNodesP_pair, find_optionNodes_mapped,
    isNamed_elem, isNamed_attr, optionBind_none, optionBind_some]

theorem ser_find_Description (b : Band) (p : GDALRasterBandPamInfo) (htags : TagsOK b p) :
    findChildNamed "Description" (serChildren b p) =
      (if b.description ≠ "" then
        some (XmlNode.elem "Description" [XmlNode.text (XV.s b.description)]) else none) := by
  obtain ⟨hsh, hrat, hmd⟩ := htags
  unfold serChildren catNamesFrag colorTableFrag
  rw [findChildNamed_append, findChildNamed_append, findChildNamed_append,
      findChildNamed_append, findChildNamed_append, findChildNamed_append,
      findChildNamed_append, findChildNamed_append, findChildNamed_append,
      findChildNamed_append, findChildNamed_append, findChildNamed_append,
      findChildNamed_append]
  rw [find_optionNodes_none "Description" p.psSavedHistograms
    (fun n hn => by obtain ⟨ch, h2⟩ := hsh n hn; rw [h2]; rfl)]
  rw [find_optionNodes_none "Description" p.poDefaultRAT
    (fun n hn => by obtain ⟨ch, h2⟩ := hrat n hn; rw [h2]; rfl)]
  rw [find_optionNodes_none "Description" b.oMDMD
    (fun n hn => by obtain ⟨ch, h2⟩ := hmd n hn; rw [h2]; rfl)]
  rw [find_noDataFrag_ne "Description" p (by decide)]
  simp +decide [find_optNodesP_single, find_optNodesP_pair, find_optionNodes_mapped,
    isNamed_elem, isNamed_attr, optionBind_none, optionBind_some]

theorem ser_find_NoDataValue (b : Band) (p : GDALRasterBandPamInfo) (htags : TagsOK b p) :
    findChildNamed "NoDataValue" (serChildren b p) =
      (if p.bNoDataValueSet = true then
        some (XmlNode.elem "NoDataValue"
          ([XmlNode.text (XV.f p.dfNoDataValue)] ++
           optNodesP (p.dfNoDataValue.den ≠ 1)
             [XmlNode.attr "le_hex_equiv" [XmlNode.text (XV.f p.dfNoDataValue)]]))
       else if p.bNoDataValueSetAsInt64 = true then
         some (XmlNode.elem "NoDataValue" [XmlNode.text (XV.i p.nNoDataValueInt64)])
       else if p.bNoDataValueSetAsUInt64 = true then
         some (XmlNode.elem "NoDataValue" [XmlNode.text (XV.u p.nNoDataValueUInt64)])
       else none) := by
  obtain ⟨hsh, hrat, hmd⟩ := htags
  unfold serChildren catNamesFrag colorTableFrag
  rw [findChildNamed_append, findChildNamed_append, findChildNamed_append,
      findChildNamed_append, findChildNamed_append, findChildNamed_append,
      findChildNamed_append, findChildNamed_append, findChildNamed_append,
      findChildNamed_append, findChildNamed_append, findChildNamed_append,
      findChildNamed_append]
  rw [find_optionNodes_none "NoDataValue" p.psSavedHistograms
    (fun n hn => by obtain ⟨ch, h2⟩ := hsh n hn; rw [h2]; rfl)]
  rw [find_optionNodes_none "NoDataValue" p.poDefaultRAT
    (fun n hn => by obtain ⟨ch, h2⟩ := hrat n hn; rw [h2]; rfl)]
  rw [find_optionNodes_none "NoDataValue" b.oMDMD
    (fun n hn => by obtain ⟨ch, h2⟩ := hmd n hn; rw [h2]; rfl)]
  rw [find_noDataFrag_self p]
  simp +decide [find_optNodesP_single, find_optNodesP_pair, find_optionNodes_mapped,
    isNamed_elem, isNamed_attr, optionBind_none, optionBind_some]

theorem ser_find_UnitType (b : Band) (p : GDALRasterBandPamInfo) (htags : TagsOK b p) :
    findChildNamed "UnitType" (serChildren b p) =
      (p.pszUnitType.map (fun u => XmlNode.elem "UnitType" [XmlNode.text (XV.s u)])) := by
  obtain ⟨hsh, hrat, hmd⟩ := htags
  unfold serChildren catNamesFrag colorTableFrag
  rw [findChildNamed_append, findChildNamed_append, findChildNamed_append,
      findChildNamed_append, findChildNamed_append, findChildNamed_append,
      findChildNamed_append, findChildNamed_append, findChildNamed_append,
      findChildNamed_append, findChildNamed_append, findChildNamed_append,
      findChildNamed_append]
  rw [find_optionNodes_none "UnitType" p.psSavedHistograms
    (fun n hn => by obtain ⟨ch, h2⟩ := hsh n hn; rw [h2]; rfl)]
  rw [find_optionNodes_none "UnitType" p.poDefaultRAT
    (fun n hn => by obtain ⟨ch, h2⟩ := hrat n hn; rw [h2]; rfl)]
  rw [find_optionNodes_none "UnitType" b.oMDMD
    (fun n hn => by obtain ⟨ch, h2⟩ := hmd n hn; rw [h2]; rfl)]
  rw [find_noDataFrag_ne "UnitType" p (by decide)]
  simp +decide [find_optNodesP_single, find_optNodesP_pair, find_optionNodes_mapped,
    isNamed_elem, isNamed_attr, optionBind_none, optionBind_some]

theorem ser_find_Scale (b : Band) (p : GDALRasterBandPamInfo) (htags : TagsOK b p) :
    findChildNamed "Scale" (serChildren b p) =
      (if p.dfScale ≠ 1 then
        some (XmlNode.elem "Scale" [XmlNode.text (XV.f p.dfScale)]) else none) := by
  obtain ⟨hsh, hrat, hmd⟩ := htags
  unfold serChildren catNamesFrag colorTableFrag
  rw [findChildNamed_append, findChildNamed_append, findChildNamed_append,
      findChildNamed_append, findChildNamed_append, findChildNamed_append,
      findChildNamed_append, findChildNamed_append, findChildNamed_append,
      findChildNamed_append, findChildNamed_append, findChildNamed_append,
      findChildNamed_append]
  rw [find_optionNodes_none "Scale" p.psSavedHistograms
    (fun n hn => by obtain ⟨ch, h2⟩ := hsh n hn; rw [h2]; rfl)]
  rw [find_optionNodes_none "Scale" p.poDefaultRAT
    (fun n hn => by obtain ⟨ch, h2⟩ := hrat n hn; rw [h2]; rfl)]
  rw [find_optionNodes_none "Scale" b.oMDMD
    (fun n hn => by obtain ⟨ch, h2⟩ := hmd n hn; rw [h2]; rfl)]
  rw [find_noDataFrag_ne "Scale" p (by decide)]
  simp +decide [find_optNodesP_single, find_optNodesP_pair, find_optionNodes_mapped,
    isNamed_elem, isNamed_attr, optionBind_none, optionBind_some]

theorem ser_find_ColorInterp (b : Band) (p : GDALRasterBandPamInfo) (htags : TagsOK b p) :
    findChildNamed "ColorInterp" (serChildren b p) =
      (if p.eColorInterp ≠ .GCI_Undefined then
        some (XmlNode.elem "ColorInterp"
          [XmlNode.text (XV.s (colorInterpName p.eColorInterp))]) else none) := by
  obtain ⟨hsh, hrat, hmd⟩ := htags
  unfold serChildren catNamesFrag colorTableFrag
  rw [findChildNamed_append, findChildNamed_append, findChildNamed_append,
      findChildNamed_append, findChildNamed_append, findChildNamed_append,
      findChildNamed_append, findChildNamed_append, findChildNamed_append,
      findChildNamed_append, findChildNamed_append, findChildNamed_append,
      findChildNamed_append]
  rw [find_optionNodes_none "ColorInterp" p.psSavedHistograms
    (fun n hn => by obtain ⟨ch, h2⟩ := hsh n hn; rw [h2]; rfl)]
  rw [find_optionNodes_none "ColorInterp" p.poDefaultRAT
    (fun n hn => by obtain ⟨ch, h2⟩ := hrat n hn; rw [h2]; rfl)]
  rw [find_optionNodes_none "ColorInterp" b.oMDMD
    (fun n hn => by obtain ⟨ch, h2⟩ := hmd n hn; rw [h2]; rfl)]
  rw [find_noDataFrag_ne "ColorInterp" p (by decide)]
  simp +decide [find_optNodesP_single, find_optNodesP_pair, find_optionNodes_mapped,
    isNamed_elem, isNamed_attr, optionBind_none, optionBind_some]

theorem ser_find_CategoryNames (b : Band) (p : GDALRasterBandPamInfo) (htags : TagsOK b p) :
    findChildNamed "CategoryNames" (serChildren b p) =
      (p.papszCategoryNames.map
        (fun l => XmlNode.elem "CategoryNames" (l.map categoryNode))) := by
  obtain ⟨hsh, hrat, hmd⟩ := htags
  unfold serChildren catNamesFrag colorTableFrag
  rw [findChildNamed_append, findChildNamed_append, findChildNamed_append,
      findChildNamed_append, findChildNamed_append, findChildNamed_append,
      findChildNamed_append, findChildNamed_append, findChildNamed_append,
      findChildNamed_append, findChildNamed_append, findChildNamed_append,
      findChildNamed_append]
  rw [find_optionNodes_none "CategoryNames" p.psSavedHistograms
    (fun n hn => by obtain ⟨ch, h2⟩ := hsh n hn; rw [h2]; rfl)]
  rw [find_optionNodes_none "CategoryNames" p.poDefaultRAT
    (fun n hn => by obtain ⟨ch, h2⟩ := hrat n hn; rw [h2]; rfl)]
  rw [find_optionNodes_none "CategoryNames" b.oMDMD
    (fun n hn => by obtain ⟨ch, h2⟩ := hmd n hn; rw [h2]; rfl)]
  rw [find_noDataFrag_ne "CategoryNames" p (by decide)]
  simp +decide [find_optNodesP_single, find_optNodesP_pair, find_optionNodes_mapped,
    isNamed_elem, isNamed_attr, optionBind_none, optionBind_some]

theorem ser_find_ColorTable (b : Band) (p : GDALRasterBandPamInfo) (htags : TagsOK b p) :
    findChildNamed "ColorTable" (serChildren b p) =
      (p.poColorTable.map
        (fun tb => XmlNode.elem "ColorTable" (tb.map colorEntryNode))) := by
  obtain ⟨hsh, hrat, hmd⟩ := htags
  unfold serChildren catNamesFrag colorTableFrag
  rw [findChildNamed_append, findChildNamed_append, findChildNamed_append,
      findChildNamed_append, findChildNamed_append, findChildNamed_append,
      findChildNamed_append, findChildNamed_append, findChildNamed_append,
      findChildNamed_append, findChildNamed_append, findChildNamed_append,
      findChildNamed_append]
  rw [find_optionNodes_none "ColorTable" p.psSavedHistograms
    (fun n hn => by obtain ⟨ch, h2⟩ := hsh n hn; rw [h2]; rfl)]
  rw [find_optionNodes_none "ColorTable" p.poDefaultRAT
    (fun n hn => by obtain ⟨ch, h2⟩ := hrat n hn; rw [h2]; rfl)]
  rw [find_optionNodes_none "ColorTable" b.oMDMD
    (fun n hn => by obtain ⟨ch, h2⟩ := hmd n hn; rw [h2]; rfl)]
  rw [find_noDataFrag_ne "ColorTable" p (by decide)]
  simp +decide [find_optNodesP_single, find_optNodesP_pair, find_optionNodes_mapped,
    isNamed_elem, isNamed_attr, optionBind_none, optionBind_some]

theorem ser_find_Minimum (b : Band) (p : GDALRasterBandPamInfo) (htags : TagsOK b p) :
    findChildNamed "Minimum" (serChildren b p) =
      (if p.bHaveMinMax = true then
        some (XmlNode.elem "Minimum" [XmlNode.text (XV.f p.dfMin)]) else none) := by
  obtain ⟨hsh, hrat, hmd⟩ := htags
  unfold serChildren catNamesFrag colorTableFrag
  rw [findChildNamed_append, findChildNamed_append, findChildNamed_append,
      findChildNamed_append, findChildNamed_append, findChildNamed_append,
      findChildNamed_append, findChildNamed_append, findChildNamed_append,
      findChildNamed_append, findChildNamed_append, findChildNamed_append,
      findChildNamed_append]
  rw [find_optionNodes_none "Minimum" p.psSavedHistograms
    (fun n hn => by obtain ⟨ch, h2⟩ := hsh n hn; rw [h2]; rfl)]
  rw [find_optionNodes_none "Minimum" p.poDefaultRAT
    (fun n hn => by obtain ⟨ch, h2⟩ := hrat n hn; rw [h2]; rfl)]
  rw [find_optionNodes_none "Minimum" b.oMDMD
    (fun n hn => by obtain ⟨ch, h2⟩ := hmd n hn; rw [h2]; rfl)]
  rw [find_noDataFrag_ne "Minimum" p (by decide)]
  simp +decide [find_optNodesP_single, find_optNodesP_pair, find_optionNodes_mapped,
    isNamed_elem, isNamed_attr, optionBind_none, optionBind_some]

theorem ser_find_Maximum (b : Band) (p : GDALRasterBandPamInfo) (htags : TagsOK b p) :
    findChildNamed "Maximum" (serChildren b p) =
      (if p.bHaveMinMax = true then
        some (XmlNode.elem "Maximum" [XmlNode.text (XV.f p.dfMax)]) else none) := by
  obtain ⟨hsh, hrat, hmd⟩ := htags
  unfold serChildren catNamesFrag colorTableFrag
  rw [findChildNamed_append, findChildNamed_append, findChildNamed_append,
      findChildNamed_append, findChildNamed_append, findChildNamed_append,
      findChildNamed_append, findChildNamed_append, findChildNamed_append,
      findChildNamed_append, findChildNamed_append, findChildNamed_append,
      findChildNamed_append]
  rw [find_optionNodes_none "Maximum" p.psSavedHistograms
    (fun n hn => by obtain ⟨ch, h2⟩ := hsh n hn; rw [h2]; rfl)]
  rw [find_optionNodes_none "Maximum" p.poDefaultRAT
    (fun n hn => by obtain ⟨ch, h2⟩ := hrat n hn; rw [h2]; rfl)]
  rw [find_optionNodes_none "Maximum" b.oMDMD
    (fun n hn => by obtain ⟨ch, h2⟩ := hmd n hn; rw [h2]; rfl)]
  rw [find_noDataFrag_ne "Maximum" p (by decide)]
  simp +decide [find_optNodesP_single, find_optNodesP_pair, find_optionNodes_mapped,
    isNamed_elem, isNamed_attr, optionBind_none, optionBind_some]

theorem ser_find_Mean (b : Band) (p : GDALRasterBandPamInfo) (htags : TagsOK b p) :
    findChildNamed "Mean" (serChildren b p) =
      (if p.bHaveStats = true then
        some (XmlNode.elem "Mean" [XmlNode.text (XV.f p.dfMean)]) else none) := by
  obtain ⟨hsh, hrat, hmd⟩ := htags
  unfold serChildren catNamesFrag colorTableFrag
  rw [findChildNamed_append, findChildNamed_append, findChildNamed_append,
      findChildNamed_append, findChildNamed_append, findChildNamed_append,
      findChildNamed_append, findChildNamed_append, findChildNamed_append,
      findChildNamed_append, findChildNamed_append, findChildNamed_append,
      findChildNamed_append]
  rw [find_optionNodes_none "Mean" p.psSavedHistograms
    (fun n hn => by obtain ⟨ch, h2⟩ := hsh n hn; rw [h2]; rfl)]
  rw [find_optionNodes_none "Mean" p.poDefaultRAT
    (fun n hn => by obtain ⟨ch, h2⟩ := hrat n hn; rw [h2]; rfl)]
  rw [find_optionNodes_none "Mean" b.oMDMD
    (fun n hn => by obtain ⟨ch, h2⟩ := hmd n hn; rw [h2]; rfl)]
  rw [find_noDataFrag_ne "Mean" p (by decide)]
  simp +decide [find_optNodesP_single, find_optNodesP_pair, find_optionNodes_mapped,
    isNamed_elem, isNamed_attr, optionBind_none, optionBind_some]

theorem ser_find_StandardDeviation (b : Band) (p : GDALRasterBandPamInfo) (htags : TagsOK b p) :
    findChildNamed "StandardDeviation" (serChildren b p) =
      (if p.bHaveStats = true then
        some (XmlNode.elem "StandardDeviation" [XmlNode.text (XV.f p.dfStdDev)]) else none) := by
  obtain ⟨hsh, hrat, hmd⟩ := htags
  unfold serChildren catNamesFrag colorTableFrag
  rw [findChildNamed_append, findChildNamed_append, findChildNamed_append,
      findChildNamed_append, findChildNamed_append, findChildNamed_append,
      findChildNamed_append, findChildNamed_append, findChildNamed_append,
      findChildNamed_append, findChildNamed_append, findChildNamed_append,
      findChildNamed_append]
  rw [find_optionNodes_none "StandardDeviation" p.psSavedHistograms
    (fun n hn => by obtain ⟨ch, h2⟩ := hsh n hn; rw [h2]; rfl)]
  rw [find_optionNodes_none "StandardDeviation" p.poDefaultRAT
    (fun n hn => by obtain ⟨ch, h2⟩ := hrat n hn; rw [h2]; rfl)]
  rw [find_optionNodes_none "StandardDeviation" b.oMDMD
    (fun n hn => by obtain ⟨ch, h2⟩ := hmd n hn; rw [h2]; rfl)]
  rw [find_noDataFrag_ne "StandardDeviation" p (by decide)]
  simp +decide [find_optNodesP_single, find_optNodesP_pair, find_optionNodes_mapped,
    isNamed_elem, isNamed_attr, optionBind_none, optionBind_some]

theorem ser_find_Histograms (b : Band) (p : GDALRasterBandPamInfo) (htags : TagsOK b p) :
    findChildNamed "Histograms" (serChildren b p) =
      p.psSavedHistograms := by
  obtain ⟨hsh, hrat, hmd⟩ := htags
  unfold serChildren catNamesFrag colorTableFrag
  rw [findChildNamed_append, findChildNamed_append, findChildNamed_append,
      findChildNamed_append, findChildNamed_append, findChildNamed_append,
      findChildNamed_append, findChildNamed_append, findChildNamed_append,
      findChildNamed_append, findChildNamed_append, findChildNamed_append,
      findChildNamed_append]
  rw [find_optionNodes_self "Histograms" p.psSavedHistograms
    (fun n hn => by obtain ⟨ch, h2⟩ := hsh n hn; rw [h2]; rfl)]
  rw [find_optionNodes_none "Histograms" p.poDefaultRAT
    (fun n hn => by obtain ⟨ch, h2⟩ := hrat n hn; rw [h2]; rfl)]
  rw [find_optionNodes_none "Histograms" b.oMDMD
    (fun n hn => by obtain ⟨ch, h2⟩ := hmd n hn; rw [h2]; rfl)]
  rw [find_noDataFrag_ne "Histograms" p (by decide)]
  simp +decide [find_optNodesP_single, find_optNodesP_pair, find_optionNodes_mapped,
    isNamed_elem, isNamed_attr, optionBind_none, optionBind_some]

theorem ser_find_RATnode (b : Band) (p : GDALRasterBandPamInfo) (htags : TagsOK b p) :
    findChildNamed "GDALRasterAttributeTable" (serChildren b p) =
      p.poDefaultRAT := by
  obtain ⟨hsh, hrat, hmd⟩ := htags
  unfold serChildren catNamesFrag colorTableFrag
  rw [findChildNamed_append, findChildNamed_append, findChildNamed_append,
      findChildNamed_append, findChildNamed_append, findChildNamed_append,
      findChildNamed_append, findChildNamed_append, findChildNamed_append,
      findChildNamed_append, findChildNamed_append, findChildNamed_append,
      findChildNamed_append]
  rw [find_optionNodes_none "GDALRasterAttributeTable" p.psSavedHistograms
    (fun n hn => by obtain ⟨ch, h2⟩ := hsh n hn; rw [h2]; rfl)]
  rw [find_optionNodes_self "GDALRasterAttributeTable" p.poDefaultRAT
    (fun n hn => by obtain ⟨ch, h2⟩ := hrat n hn; rw [h2]; rfl)]
  rw [find_optionNodes_none "GDALRasterAttributeTable" b.oMDMD
    (fun n hn => by obtain ⟨ch, h2⟩ := hmd n hn; rw [h2]; rfl)]
  rw [find_noDataFrag_ne "GDALRasterAttributeTable" p (by decide)]
  simp +decide [find_optNodesP_single, find_optNodesP_pair, find_optionNodes_mapped,
    isNamed_elem, isNamed_attr, optionBind_none, optionBind_some]

theorem ser_getv_Description (b : Band) (p : GDALRasterBandPamInfo) (htags : TagsOK b p) :
    getXMLValue (XmlNode.elem "PAMRasterBand" (serChildren b p)) "Description" =
      (if b.description ≠ "" then some (XV.s b.description) else none) := by
  unfold getXMLValue
  rw [show (XmlNode.elem "PAMRasterBand" (serChildren b p)).children = serChildren b p
      from rfl, ser_find_Description b p htags]
  by_cases hc : b.description ≠ ""
  · rw [if_pos hc, if_pos hc]
    rfl
  · rw [if_neg hc, if_neg hc]
    rfl

theorem ser_getv_Offset (b : Band) (p : GDALRasterBandPamInfo) (htags : TagsOK b p) :
    getXMLValue (XmlNode.elem "PAMRasterBand" (serChildren b p)) "Offset" =
      (if p.dfOffset ≠ 0 then some (XV.f p.dfOffset) else none) := by
  unfold getXMLValue
  rw [show (XmlNode.elem "PAMRasterBand" (serChildren b p)).children = serChildren b p
      from rfl, ser_find_Offset b p htags]
  by_cases hc : p.dfOffset ≠ 0
  · rw [if_pos hc, if_pos hc]
    rfl
  · rw [if_neg hc, if_neg hc]
    rfl

theorem ser_getv_Scale (b : Band) (p : GDALRasterBandPamInfo) (htags : TagsOK b p) :
    getXMLValue (XmlNode.elem "PAMRasterBand" (serChildren b p)) "Scale" =
      (if p.dfScale ≠ 1 then some (XV.f p.dfScale) else none) := by
  unfold getXMLValue
  rw [show (XmlNode.elem "PAMRasterBand" (serChildren b p)).children = serChildren b p
      from rfl, ser_find_Scale b p htags]
  by_cases hc : p.dfScale ≠ 1
  · rw [if_pos hc, if_pos hc]
    rfl
  · rw [if_neg hc, if_neg hc]
    rfl

theorem ser_getv_UnitType (b : Band) (p : GDALRasterBandPamInfo) (htags : TagsOK b p) :
    getXMLValue (XmlNode.elem "PAMRasterBand" (serChildren b p)) "UnitType" =
      (p.pszUnitType.map (fun u => XV.s u)) := by
  unfold getXMLValue
  rw [show (XmlNode.elem "PAMRasterBand" (serChildren b p)).children = serChildren b p
      from rfl, ser_find_UnitType b p htags]
  cases p.pszUnitType <;> rfl

theorem ser_getv_ColorInterp (b : Band) (p : GDALRasterBandPamInfo) (htags : TagsOK b p) :
    getXMLValue (XmlNode.elem "PAMRasterBand" (serChildren b p)) "ColorInterp" =
      (if p.eColorInterp ≠ .GCI_Undefined then
        some (XV.s (colorInterpName p.eColorInterp)) else none) := by
  unfold getXMLValue
  rw [show (XmlNode.elem "PAMRasterBand" (serChildren b p)).children = serChildren b p
      from rfl, ser_find_ColorInterp b p htags]
  by_cases hc : p.eColorInterp ≠ .GCI_Undefined
  · rw [if_pos hc, if_pos hc]
    rfl
  · rw [if_neg hc, if_neg hc]
    rfl

theorem ser_getv_Minimum (b : Band) (p : GDALRasterBandPamInfo) (htags : TagsOK b p) :
    getXMLValue (XmlNode.elem "PAMRasterBand" (serChildren b p)) "Minimum" =
      (if p.bHaveMinMax = true then some (XV.f p.dfMin) else none) := by
  unfold getXMLValue
  rw [show (XmlNode.elem "PAMRasterBand" (serChildren b p)).children = serChildren b p
      from rfl, ser_find_Minimum b p htags]
  by_cases hc : p.bHaveMinMax = true
  · rw [if_pos hc, if_pos hc]
    rfl
  · rw [if_neg hc, if_neg hc]
    rfl

theorem ser_getv_Maximum (b : Band) (p : GDALRasterBandPamInfo) (htags : TagsOK b p) :
    getXMLValue (XmlNode.elem "PAMRasterBand" (serChildren b p)) "Maximum" =
      (if p.bHaveMinMax = true then some (XV.f p.dfMax) else none) := by
  unfold getXMLValue
  rw [show (XmlNode.elem "PAMRasterBand" (serChildren b p)).children = serChildren b p
      from rfl, ser_find_Maximum b p htags]
  by_cases hc : p.bHaveMinMax = true
  · rw [if_pos hc, if_pos hc]
    rfl
  · rw [if_neg hc, if_neg hc]
    rfl

theorem ser_getv_Mean (b : Band) (p : GDALRasterBandPamInfo) (htags : TagsOK b p) :
    getXMLValue (XmlNode.elem "PAMRasterBand" (serChildren b p)) "Mean" =
      (if p.bHaveStats = true then some (XV.f p.dfMean) else none) := by
  unfold getXMLValue
  rw [show (XmlNode.elem "PAMRasterBand" (serChildren b p)).children = serChildren b p
      from rfl, ser_find_Mean b p htags]
  by_cases hc : p.bHaveStats = true
  · rw [if_pos hc, if_pos hc]
    rfl
  · rw [if_neg hc, if_neg hc]
    rfl

theorem ser_getv_StandardDeviation (b : Band) (p : GDALRasterBandPamInfo)
    (htags : TagsOK b p) :
    getXMLValue (XmlNode.elem "PAMRasterBand" (serChildren b p)) "StandardDeviation" =
      (if p.bHaveStats = true then some (XV.f p.dfStdDev) else none) := by
  unfold getXMLValue
  rw [show (XmlNode.elem "PAMRasterBand" (serChildren b p)).children = serChildren b p
      from rfl, ser_find_StandardDeviation b p htags]
  by_cases hc : p.bHaveStats = true
  · rw [if_pos hc, if_pos hc]
    rfl
  · rw [if_neg hc, if_neg hc]
    rfl

theorem ser_getv_NoDataValue (b : Band) (p : GDALRasterBandPamInfo) (htags : TagsOK b p) :
    getXMLValue (XmlNode.elem "PAMRasterBand" (serChildren b p)) "NoDataValue" =
      (if p.bNoDataValueSet = true then some (XV.f p.dfNoDataValue)
       else if p.bNoDataValueSetAsInt64 = true then some (XV.i p.nNoDataValueInt64)
       else if p.bNoDataValueSetAsUInt64 = true then some (XV.u p.nNoDataValueUInt64)
       else none) := by
  unfold getXMLValue
  rw [show (XmlNode.elem "PAMRasterBand" (serChildren b p)).children = serChildren b p
      from rfl, ser_find_NoDataValue b p htags]
  split_ifs <;> rfl

theorem ser_getv_NoDataHex (b : Band) (p : GDALRasterBandPamInfo) (htags : TagsOK b p) :
    getXMLValue2 (XmlNode.elem "PAMRasterBand" (serChildren b p)) "NoDataValue"
        "le_hex_equiv" =
      (if p.bNoDataValueSet = true ∧ p.dfNoDataValue.den ≠ 1 then
        some (XV.f p.dfNoDataValue) else none) := by
  unfold getXMLValue2
  rw [show (XmlNode.elem "PAMRasterBand" (serChildren b p)).children = serChildren b p
      from rfl, ser_find_NoDataValue b p htags]
  by_cases hset : p.bNoDataValueSet = true
  · rw [if_pos hset]
    by_cases hden : p.dfNoDataValue.den ≠ 1
    · rw [if_pos (⟨hset, hden⟩ : p.bNoDataValueSet = true ∧ p.dfNoDataValue.den ≠ 1)]
      simp only [Option.some_bind]
      unfold getXMLValue findChildNamed optNodesP
      rw [if_pos hden]
      rfl
    · rw [if_neg (fun hh => hden hh.2)]
      simp only [Option.some_bind]
      unfold getXMLValue findChildNamed optNodesP
      rw [if_neg hden]
      rfl
  · rw [if_neg hset]
    rw [if_neg (show ¬ (p.bNoDataValueSet = true ∧ p.dfNoDataValue.den ≠ 1) from
      fun hh => hset hh.1)]
    split_ifs <;> rfl

end MasterLookup

section RoundTripComponents

theorem collectCategory_append (l : List String) (acc : List String) :
    (l.map categoryNode).foldl collectCategory acc = acc ++ l := by
  induction l generalizing acc with
  | nil => simp
  | cons x xs ih =>
    simp only [List.map_cons, List.foldl_cons]
    rw [show collectCategory acc (categoryNode x) = acc ++ [x] from by
      unfold collectCategory categoryNode
      simp +decide [xvStr]]
    rw [ih]
    simp

/-- The four channel values of a color entry lie in short range (they are
C shorts in GDALColorEntry). -/
def shortRange (e : GDALColorEntry) : Prop :=
  -(2 ^ 15) ≤ e.c1 ∧ e.c1 < 2 ^ 15 ∧ -(2 ^ 15) ≤ e.c2 ∧ e.c2 < 2 ^ 15 ∧
  -(2 ^ 15) ≤ e.c3 ∧ e.c3 < 2 ^ 15 ∧ -(2 ^ 15) ≤ e.c4 ∧ e.c4 < 2 ^ 15

instance (e : GDALColorEntry) : Decidable (shortRange e) := by
  unfold shortRange
  infer_instance

theorem toShort_eq (v : Int) (h1 : -(2 ^ 15) ≤ v) (h2 : v < 2 ^ 15) :
    toShort v = v := by
  unfold toShort
  omega

theorem parseColorEntry_node (e : GDALColorEntry) (hr : shortRange e) :
    parseColorEntry (colorEntryNode e) = e := by
  obtain ⟨h1, h2, h3, h4, h5, h6, h7, h8⟩ := hr
  show GDALColorEntry.mk (toShort e.c1) (toShort e.c2) (toShort e.c3) (toShort e.c4) = e
  rw [toShort_eq _ h1 h2, toShort_eq _ h3 h4, toShort_eq _ h5 h6, toShort_eq _ h7 h8]

theorem parseColorTable_roundtrip (tb : List GDALColorEntry)
    (hr : ∀ e ∈ tb, shortRange e) :
    ((tb.map colorEntryNode).filter isEntryElem).map parseColorEntry = tb := by
  rw [List.filter_eq_self.mpr (fun n hn => by
    obtain ⟨e, he, h2⟩ := List.mem_map.mp hn
    rw [← h2]
    rfl)]
  rw [List.map_map]
  calc tb.map (parseColorEntry ∘ colorEntryNode)
      = tb.map id := List.map_congr_left (fun e he => parseColorEntry_node e (hr e he))
    _ = tb := List.map_id tb


theorem rt_description (b : Band) (p : GDALRasterBandPamInfo) (htags : TagsOK b p) :
    (pamRoundTrip b (XmlNode.elem "PAMRasterBand" (serChildren b p))).description =
      b.description := by
  have heq : pamRoundTrip b (XmlNode.elem "PAMRasterBand" (serChildren b p)) =
      xiRAT (xiHistograms (xiStats (xiMinMax (xiColorTable (xiCategoryNames (xiColorInterp (xiUnitType (xiOffsetScale (xiNoData (xiDescription (xiMetadata (freshBand b.eDataType b.nBand)
        (XmlNode.elem "PAMRasterBand" (serChildren b p)))
        (XmlNode.elem "PAMRasterBand" (serChildren b p)))
        (XmlNode.elem "PAMRasterBand" (serChildren b p)))
        (XmlNode.elem "PAMRasterBand" (serChildren b p)))
        (XmlNode.elem "PAMRasterBand" (serChildren b p)))
        (XmlNode.elem "PAMRasterBand" (serChildren b p)))
        (XmlNode.elem "PAMRasterBand" (serChildren b p)))
        (XmlNode.elem "PAMRasterBand" (serChildren b p)))
        (XmlNode.elem "PAMRasterBand" (serChildren b p)))
        (XmlNode.elem "PAMRasterBand" (serChildren b p)))
        (XmlNode.elem "PAMRasterBand" (serChildren b p)))
        (XmlNode.elem "PAMRasterBand" (serChildren b p)) := rfl
  rw [heq, (xiRAT_pres _ _).1, (xiHistograms_pres _ _).1, (xiStats_pres _ _).1,
    (xiMinMax_pres _ _).1, (xiColorTable_pres _ _).1, (xiCategoryNames_pres _ _).1,
    (xiColorInterp_pres _ _).1, (xiUnitType_pres _ _).1, (xiOffsetScale_pres _ _).1,
    (xiNoData_pres _ _).1]
  unfold xiDescription
  rw [ser_getv_Description b p htags]
  by_cases hd : b.description ≠ ""
  · rw [if_pos hd]
    rfl
  · rw [if_neg hd]
    push_neg at hd
    simp [hd]

theorem rt_offset_scale (b : Band) (p : GDALRasterBandPamInfo) (htags : TagsOK b p)
    (hos : ¬ (p.dfOffset = 0 ∧ p.dfScale = 1)) :
    (pamRoundTrip b (XmlNode.elem "PAMRasterBand" (serChildren b p))).psPam.map osView =
      some (true, p.dfOffset, true, p.dfScale) := by
  have hOS : ((getXMLValue (XmlNode.elem "PAMRasterBand" (serChildren b p)) "Offset").isSome
      || (getXMLValue (XmlNode.elem "PAMRasterBand" (serChildren b p)) "Scale").isSome)
      = true := by
    rw [ser_getv_Offset b p htags, ser_getv_Scale b p htags]
    by_cases h1 : p.dfOffset ≠ 0
    · rw [if_pos h1]
      rfl
    · have h2 : p.dfScale ≠ 1 := by
        push_neg at h1
        intro hq
        exact hos ⟨h1, hq⟩
      rw [if_pos h2]
      simp
  have base := xmlInitBand_offset_scale (freshBand b.eDataType b.nBand) _ rfl
    (XmlNode.elem "PAMRasterBand" (serChildren b p)) hOS
  have hrt : pamRoundTrip b (XmlNode.elem "PAMRasterBand" (serChildren b p)) =
      (xmlInitBand (freshBand b.eDataType b.nBand)
        (XmlNode.elem "PAMRasterBand" (serChildren b p))).1 := rfl
  rw [hrt, base, ser_getv_Offset b p htags, ser_getv_Scale b p htags]
  by_cases h1 : p.dfOffset ≠ 0 <;> by_cases h2 : p.dfScale ≠ 1
  · rw [if_pos h1, if_pos h2]
    rfl
  · rw [if_pos h1, if_neg h2]
    push_neg at h2
    rw [h2]
    rfl
  · rw [if_neg h1, if_pos h2]
    push_neg at h1
    rw [h1]
    rfl
  · push_neg at h1 h2
    exact absurd ⟨h1, h2⟩ hos

theorem rt_unitType (b : Band) (p : GDALRasterBandPamInfo) (htags : TagsOK b p)
    (u : String) (hu : p.pszUnitType = some u) (hne : u ≠ "") :
    (pamRoundTrip b (XmlNode.elem "PAMRasterBand" (serChildren b p))).psPam.map utView =
      some (some u) := by
  have heq : pamRoundTrip b (XmlNode.elem "PAMRasterBand" (serChildren b p)) =
      xiRAT (xiHistograms (xiStats (xiMinMax (xiColorTable (xiCategoryNames (xiColorInterp (xiUnitType (xiOffsetScale (xiNoData (xiDescription (xiMetadata (freshBand b.eDataType b.nBand)
        (XmlNode.elem "PAMRasterBand" (serChildren b p)))
        (XmlNode.elem "PAMRasterBand" (serChildren b p)))
        (XmlNode.elem "PAMRasterBand" (serChildren b p)))
        (XmlNode.elem "PAMRasterBand" (serChildren b p)))
        (XmlNode.elem "PAMRasterBand" (serChildren b p)))
        (XmlNode.elem "PAMRasterBand" (serChildren b p)))
        (XmlNode.elem "PAMRasterBand" (serChildren b p)))
        (XmlNode.elem "PAMRasterBand" (serChildren b p)))
        (XmlNode.elem "PAMRasterBand" (serChildren b p)))
        (XmlNode.elem "PAMRasterBand" (serChildren b p)))
        (XmlNode.elem "PAMRasterBand" (serChildren b p)))
        (XmlNode.elem "PAMRasterBand" (serChildren b p)) := rfl
  rw [heq, (xiRAT_pres _ _).2.2.2.1, (xiHistograms_pres _ _).2.2.2.1,
    (xiStats_pres _ _).2.2.2.1, (xiMinMax_pres _ _).2.2.2.1,
    (xiColorTable_pres _ _).2.2.2.1, (xiCategoryNames_pres _ _).2.2.2.1,
    (xiColorInterp_pres _ _).2.2.2.1]
  have hS : ((xiOffsetScale (xiNoData (xiDescription (xiMetadata (freshBand b.eDataType b.nBand)
        (XmlNode.elem "PAMRasterBand" (serChildren b p)))
        (XmlNode.elem "PAMRasterBand" (serChildren b p)))
        (XmlNode.elem "PAMRasterBand" (serChildren b p)))
        (XmlNode.elem "PAMRasterBand" (serChildren b p)))).psPam.isSome = true := by
    rw [(xiOffsetScale_pres _ _).2.2.2.2.2.2.2.2.2.2, (xiNoData_pres _ _).2.2.2.2.2.2.2.2.2.2,
      (xiDescription_pres _ _).1, (xiMetadata_pres _ _).2.1]
    rfl
  obtain ⟨pk, hpk⟩ := Option.isSome_iff_exists.mp hS
  unfold xiUnitType
  rw [ser_getv_UnitType b p htags, hu]
  simp only [Option.map]
  rw [show xvStr (XV.s u) = u from rfl]
  rw [setUnitType_psPam_val _ pk u hpk hne]
  simp [utView]

theorem xiColorTable_id (b : Band) (t : XmlNode)
    (h : findChildNamed "ColorTable" t.children = none) : xiColorTable b t = b := by
  unfold xiColorTable
  rw [h]

theorem rt_colorInterp (b : Band) (p : GDALRasterBandPamInfo) (htags : TagsOK b p)
    (hci : p.eColorInterp ≠ .GCI_Undefined)
    (hctab : p.poColorTable.isSome = true → p.eColorInterp = .GCI_PaletteIndex) :
    (pamRoundTrip b (XmlNode.elem "PAMRasterBand" (serChildren b p))).psPam.map ciView =
      some p.eColorInterp := by
  have heq : pamRoundTrip b (XmlNode.elem "PAMRasterBand" (serChildren b p)) =
      xiRAT (xiHistograms (xiStats (xiMinMax (xiColorTable (xiCategoryNames (xiColorInterp (xiUnitType (xiOffsetScale (xiNoData (xiDescription (xiMetadata (freshBand b.eDataType b.nBand)
        (XmlNode.elem "PAMRasterBand" (serChildren b p)))
        (XmlNode.elem "PAMRasterBand" (serChildren b p)))
        (XmlNode.elem "PAMRasterBand" (serChildren b p)))
        (XmlNode.elem "PAMRasterBand" (serChildren b p)))
        (XmlNode.elem "PAMRasterBand" (serChildren b p)))
        (XmlNode.elem "PAMRasterBand" (serChildren b p)))
        (XmlNode.elem "PAMRasterBand" (serChildren b p)))
        (XmlNode.elem "PAMRasterBand" (serChildren b p)))
        (XmlNode.elem "PAMRasterBand" (serChildren b p)))
        (XmlNode.elem "PAMRasterBand" (serChildren b p)))
        (XmlNode.elem "PAMRasterBand" (serChildren b p)))
        (XmlNode.elem "PAMRasterBand" (serChildren b p)) := rfl
  rw [heq, (xiRAT_pres _ _).2.2.2.2.1, (xiHistograms_pres _ _).2.2.2.2.1,
    (xiStats_pres _ _).2.2.2.2.1, (xiMinMax_pres _ _).2.2.2.2.1]
  have hS0 : ((xiUnitType (xiOffsetScale (xiNoData (xiDescription (xiMetadata (freshBand b.eDataType b.nBand)
        (XmlNode.elem "PAMRasterBand" (serChildren b p)))
        (XmlNode.elem "PAMRasterBand" (serChildren b p)))
        (XmlNode.elem "PAMRasterBand" (serChildren b p)))
        (XmlNode.elem "PAMRasterBand" (serChildren b p)))
        (XmlNode.elem "PAMRasterBand" (serChildren b p)))).psPam.isSome = true := by
    rw [(xiUnitType_pres _ _).2.2.2.2.2.2.2.2.2.2, (xiOffsetScale_pres _ _).2.2.2.2.2.2.2.2.2.2,
      (xiNoData_pres _ _).2.2.2.2.2.2.2.2.2.2, (xiDescription_pres _ _).1, (xiMetadata_pres _ _).2.1]
    rfl
  obtain ⟨pk, hpk⟩ := Option.isSome_iff_exists.mp hS0
  have hciStep : (xiColorInterp ((xiUnitType (xiOffsetScale (xiNoData (xiDescription (xiMetadata (freshBand b.eDataType b.nBand)
        (XmlNode.elem "PAMRasterBand" (serChildren b p)))
        (XmlNode.elem "PAMRasterBand" (serChildren b p)))
        (XmlNode.elem "PAMRasterBand" (serChildren b p)))
        (XmlNode.elem "PAMRasterBand" (serChildren b p)))
        (XmlNode.elem "PAMRasterBand" (serChildren b p))))
      (XmlNode.elem "PAMRasterBand" (serChildren b p))).psPam =
      some { pk with eColorInterp := p.eColorInterp } := by
    unfold xiColorInterp
    rw [ser_getv_ColorInterp b p htags, if_pos hci]
    rw [setColorInterpretation_psPam _ pk _ hpk]
    rw [show colorInterpByName (xvStr (XV.s (colorInterpName p.eColorInterp))) =
        p.eColorInterp from by cases hc : p.eColorInterp <;> rfl]
  cases hct : p.poColorTable with
  | none =>
    have hfind : findChildNamed "ColorTable"
        (XmlNode.elem "PAMRasterBand" (serChildren b p)).children = none := by
      rw [show (XmlNode.elem "PAMRasterBand" (serChildren b p)).children =
          serChildren b p from rfl, ser_find_ColorTable b p htags, hct]
      rfl
    rw [xiColorTable_id _ _ hfind]
    rw [(xiCategoryNames_pres _ _).2.2.2.2.1]
    rw [hciStep]
    simp [ciView]
  | some tb =>
    have hpi : p.eColorInterp = .GCI_PaletteIndex := hctab (by rw [hct]; rfl)
    have hfind : findChildNamed "ColorTable"
        (XmlNode.elem "PAMRasterBand" (serChildren b p)).children =
        some (XmlNode.elem "ColorTable" (tb.map colorEntryNode)) := by
      rw [show (XmlNode.elem "PAMRasterBand" (serChildren b p)).children =
          serChildren b p from rfl, ser_find_ColorTable b p htags, hct]
      rfl
    have hS1 : (xiCategoryNames (xiColorInterp ((xiUnitType (xiOffsetScale (xiNoData (xiDescription (xiMetadata (freshBand b.eDataType b.nBand)
        (XmlNode.elem "PAMRasterBand" (serChildren b p)))
        (XmlNode.elem "PAMRasterBand" (serChildren b p)))
        (XmlNode.elem "PAMRasterBand" (serChildren b p)))
        (XmlNode.elem "PAMRasterBand" (serChildren b p)))
        (XmlNode.elem "PAMRasterBand" (serChildren b p))))
        (XmlNode.elem "PAMRasterBand" (serChildren b p)))
        (XmlNode.elem "PAMRasterBand" (serChildren b p))).psPam.isSome = true := by
      rw [(xiCategoryNames_pres _ _).2.2.2.2.2.2.2.2.2.2, hciStep]
      rfl
    obtain ⟨pk2, hpk2⟩ := Option.isSome_iff_exists.mp hS1
    unfold xiColorTable
    rw [hfind]
    rw [setColorTable_psPam _ pk2 _ hpk2]
    simp [ciView, hpi]

theorem rt_categoryNames (b : Band) (p : GDALRasterBandPamInfo) (htags : TagsOK b p)
    (l : List String) (hcn : p.papszCategoryNames = some l) (hl : l ≠ []) :
    (pamRoundTrip b (XmlNode.elem "PAMRasterBand" (serChildren b p))).psPam.map cnView =
      some (some l) := by
  have heq : pamRoundTrip b (XmlNode.elem "PAMRasterBand" (serChildren b p)) =
      xiRAT (xiHistograms (xiStats (xiMinMax (xiColorTable (xiCategoryNames (xiColorInterp (xiUnitType (xiOffsetScale (xiNoData (xiDescription (xiMetadata (freshBand b.eDataType b.nBand)
        (XmlNode.elem "PAMRasterBand" (serChildren b p)))
        (XmlNode.elem "PAMRasterBand" (serChildren b p)))
        (XmlNode.elem "PAMRasterBand" (serChildren b p)))
        (XmlNode.elem "PAMRasterBand" (serChildren b p)))
        (XmlNode.elem "PAMRasterBand" (serChildren b p)))
        (XmlNode.elem "PAMRasterBand" (serChildren b p)))
        (XmlNode.elem "PAMRasterBand" (serChildren b p)))
        (XmlNode.elem "PAMRasterBand" (serChildren b p)))
        (XmlNode.elem "PAMRasterBand" (serChildren b p)))
        (XmlNode.elem "PAMRasterBand" (serChildren b p)))
        (XmlNode.elem "PAMRasterBand" (serChildren b p)))
        (XmlNode.elem "PAMRasterBand" (serChildren b p)) := rfl
  rw [heq, (xiRAT_pres _ _).2.2.2.2.2.1, (xiHistograms_pres _ _).2.2.2.2.2.1,
    (xiStats_pres _ _).2.2.2.2.2.1, (xiMinMax_pres _ _).2.2.2.2.2.1,
    (xiColorTable_pres _ _).2.2.2.2.1]
  have hS : ((xiColorInterp (xiUnitType (xiOffsetScale (xiNoData (xiDescription (xiMetadata (freshBand b.eDataType b.nBand)
        (XmlNode.elem "PAMRasterBand" (serChildren b p)))
        (XmlNode.elem "PAMRasterBand" (serChildren b p)))
        (XmlNode.elem "PAMRasterBand" (serChildren b p)))
        (XmlNode.elem "PAMRasterBand" (serChildren b p)))
        (XmlNode.elem "PAMRasterBand" (serChildren b p)))
        (XmlNode.elem "PAMRasterBand" (serChildren b p)))).psPam.isSome = true := by
    rw [(xiColorInterp_pres _ _).2.2.2.2.2.2.2.2.2.2,
      (xiUnitType_pres _ _).2.2.2.2.2.2.2.2.2.2,
      (xiOffsetScale_pres _ _).2.2.2.2.2.2.2.2.2.2,
      (xiNoData_pres _ _).2.2.2.2.2.2.2.2.2.2,
      (xiDescription_pres _ _).1,
      (xiMetadata_pres _ _).2.1]
    rfl
  obtain ⟨pk, hpk⟩ := Option.isSome_iff_exists.mp hS
  unfold xiCategoryNames
  rw [show (XmlNode.elem "PAMRasterBand" (serChildren b p)).children =
      serChildren b p from rfl, ser_find_CategoryNames b p htags, hcn]
  simp only [Option.map]
  rw [show (XmlNode.elem "CategoryNames" (l.map categoryNode)).children =
      l.map categoryNode from rfl]
  rw [collectCategory_append l []]
  rw [show ([] ++ l : List String) = l from by simp]
  rw [show l.isEmpty = false from by cases l with | nil => exact absurd rfl hl | cons a as => rfl]
  simp only [Bool.false_eq_true, if_false]
  rw [setCategoryNames_psPam _ pk _ hpk]
  simp [cnView]

theorem rt_colorTable (b : Band) (p : GDALRasterBandPamInfo) (htags : TagsOK b p)
    (tb : List GDALColorEntry) (hct : p.poColorTable = some tb)
    (hr : ∀ e ∈ tb, shortRange e) :
    (pamRoundTrip b (XmlNode.elem "PAMRasterBand" (serChildren b p))).psPam.map ctView =
      some (some tb) := by
  have heq : pamRoundTrip b (XmlNode.elem "PAMRasterBand" (serChildren b p)) =
      xiRAT (xiHistograms (xiStats (xiMinMax (xiColorTable (xiCategoryNames (xiColorInterp (xiUnitType (xiOffsetScale (xiNoData (xiDescription (xiMetadata (freshBand b.eDataType b.nBand)
        (XmlNode.elem "PAMRasterBand" (serChildren b p)))
        (XmlNode.elem "PAMRasterBand" (serChildren b p)))
        (XmlNode.elem "PAMRasterBand" (serChildren b p)))
        (XmlNode.elem "PAMRasterBand" (serChildren b p)))
        (XmlNode.elem "PAMRasterBand" (serChildren b p)))
        (XmlNode.elem "PAMRasterBand" (serChildren b p)))
        (XmlNode.elem "PAMRasterBand" (serChildren b p)))
        (XmlNode.elem "PAMRasterBand" (serChildren b p)))
        (XmlNode.elem "PAMRasterBand" (serChildren b p)))
        (XmlNode.elem "PAMRasterBand" (serChildren b p)))
        (XmlNode.elem "PAMRasterBand" (serChildren b p)))
        (XmlNode.elem "PAMRasterBand" (serChildren b p)) := rfl
  rw [heq, (xiRAT_pres _ _).2.2.2.2.2.2.1, (xiHistograms_pres _ _).2.2.2.2.2.2.1,
    (xiStats_pres _ _).2.2.2.2.2.2.1, (xiMinMax_pres _ _).2.2.2.2.2.2.1]
  have hS : ((xiCategoryNames (xiColorInterp (xiUnitType (xiOffsetScale (xiNoData (xiDescription (xiMetadata (freshBand b.eDataType b.nBand)
        (XmlNode.elem "PAMRasterBand" (serChildren b p)))
        (XmlNode.elem "PAMRasterBand" (serChildren b p)))
        (XmlNode.elem "PAMRasterBand" (serChildren b p)))
        (XmlNode.elem "PAMRasterBand" (serChildren b p)))
        (XmlNode.elem "PAMRasterBand" (serChildren b p)))
        (XmlNode.elem "PAMRasterBand" (serChildren b p)))
        (XmlNode.elem "PAMRasterBand" (serChildren b p)))).psPam.isSome = true := by
    rw [(xiCategoryNames_pres _ _).2.2.2.2.2.2.2.2.2.2,
      (xiColorInterp_pres _ _).2.2.2.2.2.2.2.2.2.2,
      (xiUnitType_pres _ _).2.2.2.2.2.2.2.2.2.2,
      (xiOffsetScale_pres _ _).2.2.2.2.2.2.2.2.2.2,
      (xiNoData_pres _ _).2.2.2.2.2.2.2.2.2.2,
      (xiDescription_pres _ _).1,
      (xiMetadata_pres _ _).2.1]
    rfl
  obtain ⟨pk, hpk⟩ := Option.isSome_iff_exists.mp hS
  unfold xiColorTable
  rw [show (XmlNode.elem "PAMRasterBand" (serChildren b p)).children =
      serChildren b p from rfl, ser_find_ColorTable b p htags, hct]
  simp only [Option.map]
  rw [show (XmlNode.elem "ColorTable" (tb.map colorEntryNode)).children =
      tb.map colorEntryNode from rfl]
  rw [parseColorTable_roundtrip tb hr]
  rw [setColorTable_psPam _ pk _ hpk]
  simp [ctView]

theorem rt_minMax (b : Band) (p : GDALRasterBandPamInfo) (htags : TagsOK b p)
    (hmm : p.bHaveMinMax = true) :
    (pamRoundTrip b (XmlNode.elem "PAMRasterBand" (serChildren b p))).psPam.map mmView =
      some (true, p.dfMin, p.dfMax) := by
  have heq : pamRoundTrip b (XmlNode.elem "PAMRasterBand" (serChildren b p)) =
      xiRAT (xiHistograms (xiStats (xiMinMax (xiColorTable (xiCategoryNames (xiColorInterp (xiUnitType (xiOffsetScale (xiNoData (xiDescription (xiMetadata (freshBand b.eDataType b.nBand)
        (XmlNode.elem "PAMRasterBand" (serChildren b p)))
        (XmlNode.elem "PAMRasterBand" (serChildren b p)))
        (XmlNode.elem "PAMRasterBand" (serChildren b p)))
        (XmlNode.elem "PAMRasterBand" (serChildren b p)))
        (XmlNode.elem "PAMRasterBand" (serChildren b p)))
        (XmlNode.elem "PAMRasterBand" (serChildren b p)))
        (XmlNode.elem "PAMRasterBand" (serChildren b p)))
        (XmlNode.elem "PAMRasterBand" (serChildren b p)))
        (XmlNode.elem "PAMRasterBand" (serChildren b p)))
        (XmlNode.elem "PAMRasterBand" (serChildren b p)))
        (XmlNode.elem "PAMRasterBand" (serChildren b p)))
        (XmlNode.elem "PAMRasterBand" (serChildren b p)) := rfl
  rw [heq, (xiRAT_pres _ _).2.2.2.2.2.2.2.1, (xiHistograms_pres _ _).2.2.2.2.2.2.2.1,
    (xiStats_pres _ _).2.2.2.2.2.2.2.1]
  have hS : ((xiColorTable (xiCategoryNames (xiColorInterp (xiUnitType (xiOffsetScale (xiNoData (xiDescription (xiMetadata (freshBand b.eDataType b.nBand)
        (XmlNode.elem "PAMRasterBand" (serChildren b p)))
        (XmlNode.elem "PAMRasterBand" (serChildren b p)))
        (XmlNode.elem "PAMRasterBand" (serChildren b p)))
        (XmlNode.elem "PAMRasterBand" (serChildren b p)))
        (XmlNode.elem "PAMRasterBand" (serChildren b p)))
        (XmlNode.elem "PAMRasterBand" (serChildren b p)))
        (XmlNode.elem "PAMRasterBand" (serChildren b p)))
        (XmlNode.elem "PAMRasterBand" (serChildren b p)))).psPam.isSome = true := by
    rw [(xiColorTable_pres _ _).2.2.2.2.2.2.2.2.2,
      (xiCategoryNames_pres _ _).2.2.2.2.2.2.2.2.2.2,
      (xiColorInterp_pres _ _).2.2.2.2.2.2.2.2.2.2,
      (xiUnitType_pres _ _).2.2.2.2.2.2.2.2.2.2,
      (xiOffsetScale_pres _ _).2.2.2.2.2.2.2.2.2.2,
      (xiNoData_pres _ _).2.2.2.2.2.2.2.2.2.2,
      (xiDescription_pres _ _).1,
      (xiMetadata_pres _ _).2.1]
    rfl
  obtain ⟨pk, hpk⟩ := Option.isSome_iff_exists.mp hS
  unfold xiMinMax
  rw [ser_getv_Minimum b p htags, ser_getv_Maximum b p htags, if_pos hmm, if_pos hmm]
  rw [hpk]
  simp [mmView, cplAtofXV]

theorem rt_stats (b : Band) (p : GDALRasterBandPamInfo) (htags : TagsOK b p)
    (hst : p.bHaveStats = true) :
    (pamRoundTrip b (XmlNode.elem "PAMRasterBand" (serChildren b p))).psPam.map stView =
      some (true, p.dfMean, p.dfStdDev) := by
  have heq : pamRoundTrip b (XmlNode.elem "PAMRasterBand" (serChildren b p)) =
      xiRAT (xiHistograms (xiStats (xiMinMax (xiColorTable (xiCategoryNames (xiColorInterp (xiUnitType (xiOffsetScale (xiNoData (xiDescription (xiMetadata (freshBand b.eDataType b.nBand)
        (XmlNode.elem "PAMRasterBand" (serChildren b p)))
        (XmlNode.elem "PAMRasterBand" (serChildren b p)))
        (XmlNode.elem "PAMRasterBand" (serChildren b p)))
        (XmlNode.elem "PAMRasterBand" (serChildren b p)))
        (XmlNode.elem "PAMRasterBand" (serChildren b p)))
        (XmlNode.elem "PAMRasterBand" (serChildren b p)))
        (XmlNode.elem "PAMRasterBand" (serChildren b p)))
        (XmlNode.elem "PAMRasterBand" (serChildren b p)))
        (XmlNode.elem "PAMRasterBand" (serChildren b p)))
        (XmlNode.elem "PAMRasterBand" (serChildren b p)))
        (XmlNode.elem "PAMRasterBand" (serChildren b p)))
        (XmlNode.elem "PAMRasterBand" (serChildren b p)) := rfl
  rw [heq, (xiRAT_pres _ _).2.2.2.2.2.2.2.2.1, (xiHistograms_pres _ _).2.2.2.2.2.2.2.2.1]
  have hS : ((xiMinMax (xiColorTable (xiCategoryNames (xiColorInterp (xiUnitType (xiOffsetScale (xiNoData (xiDescription (xiMetadata (freshBand b.eDataType b.nBand)
        (XmlNode.elem "PAMRasterBand" (serChildren b p)))
        (XmlNode.elem "PAMRasterBand" (serChildren b p)))
        (XmlNode.elem "PAMRasterBand" (serChildren b p)))
        (XmlNode.elem "PAMRasterBand" (serChildren b p)))
        (XmlNode.elem "PAMRasterBand" (serChildren b p)))
        (XmlNode.elem "PAMRasterBand" (serChildren b p)))
        (XmlNode.elem "PAMRasterBand" (serChildren b p)))
        (XmlNode.elem "PAMRasterBand" (serChildren b p)))
        (XmlNode.elem "PAMRasterBand" (serChildren b p)))).psPam.isSome = true := by
    rw [(xiMinMax_pres _ _).2.2.2.2.2.2.2.2.2.2,
      (xiColorTable_pres _ _).2.2.2.2.2.2.2.2.2,
      (xiCategoryNames_pres _ _).2.2.2.2.2.2.2.2.2.2,
      (xiColorInterp_pres _ _).2.2.2.2.2.2.2.2.2.2,
      (xiUnitType_pres _ _).2.2.2.2.2.2.2.2.2.2,
      (xiOffsetScale_pres _ _).2.2.2.2.2.2.2.2.2.2,
      (xiNoData_pres _ _).2.2.2.2.2.2.2.2.2.2,
      (xiDescription_pres _ _).1,
      (xiMetadata_pres _ _).2.1]
    rfl
  obtain ⟨pk, hpk⟩ := Option.isSome_iff_exists.mp hS
  unfold xiStats
  rw [ser_getv_Mean b p htags, ser_getv_StandardDeviation b p htags, if_pos hst, if_pos hst]
  rw [hpk]
  simp [stView, cplAtofXV]

theorem rt_histograms (b : Band) (p : GDALRasterBandPamInfo) (htags : TagsOK b p)
    (n : XmlNode) (hsh : p.psSavedHistograms = some n) :
    (pamRoundTrip b (XmlNode.elem "PAMRasterBand" (serChildren b p))).psPam.map shView =
      some (some n) := by
  have heq : pamRoundTrip b (XmlNode.elem "PAMRasterBand" (serChildren b p)) =
      xiRAT (xiHistograms (xiStats (xiMinMax (xiColorTable (xiCategoryNames (xiColorInterp (xiUnitType (xiOffsetScale (xiNoData (xiDescription (xiMetadata (freshBand b.eDataType b.nBand)
        (XmlNode.elem "PAMRasterBand" (serChildren b p)))
        (XmlNode.elem "PAMRasterBand" (serChildren b p)))
        (XmlNode.elem "PAMRasterBand" (serChildren b p)))
        (XmlNode.elem "PAMRasterBand" (serChildren b p)))
        (XmlNode.elem "PAMRasterBand" (serChildren b p)))
        (XmlNode.elem "PAMRasterBand" (serChildren b p)))
        (XmlNode.elem "PAMRasterBand" (serChildren b p)))
        (XmlNode.elem "PAMRasterBand" (serChildren b p)))
        (XmlNode.elem "PAMRasterBand" (serChildren b p)))
        (XmlNode.elem "PAMRasterBand" (serChildren b p)))
        (XmlNode.elem "PAMRasterBand" (serChildren b p)))
        (XmlNode.elem "PAMRasterBand" (serChildren b p)) := rfl
  rw [heq, (xiRAT_pres _ _).2.2.2.2.2.2.2.2.2.1]
  have hS : ((xiStats (xiMinMax (xiColorTable (xiCategoryNames (xiColorInterp (xiUnitType (xiOffsetScale (xiNoData (xiDescription (xiMetadata (freshBand b.eDataType b.nBand)
        (XmlNode.elem "PAMRasterBand" (serChildren b p)))
        (XmlNode.elem "PAMRasterBand" (serChildren b p)))
        (XmlNode.elem "PAMRasterBand" (serChildren b p)))
        (XmlNode.elem "PAMRasterBand" (serChildren b p)))
        (XmlNode.elem "PAMRasterBand" (serChildren b p)))
        (XmlNode.elem "PAMRasterBand" (serChildren b p)))
        (XmlNode.elem "PAMRasterBand" (serChildren b p)))
        (XmlNode.elem "PAMRasterBand" (serChildren b p)))
        (XmlNode.elem "PAMRasterBand" (serChildren b p)))
        (XmlNode.elem "PAMRasterBand" (serChildren b p)))).psPam.isSome = true := by
    rw [(xiStats_pres _ _).2.2.2.2.2.2.2.2.2.2,
      (xiMinMax_pres _ _).2.2.2.2.2.2.2.2.2.2,
      (xiColorTable_pres _ _).2.2.2.2.2.2.2.2.2,
      (xiCategoryNames_pres _ _).2.2.2.2.2.2.2.2.2.2,
      (xiColorInterp_pres _ _).2.2.2.2.2.2.2.2.2.2,
      (xiUnitType_pres _ _).2.2.2.2.2.2.2.2.2.2,
      (xiOffsetScale_pres _ _).2.2.2.2.2.2.2.2.2.2,
      (xiNoData_pres _ _).2.2.2.2.2.2.2.2.2.2,
      (xiDescription_pres _ _).1,
      (xiMetadata_pres _ _).2.1]
    rfl
  obtain ⟨pk, hpk⟩ := Option.isSome_iff_exists.mp hS
  unfold xiHistograms
  rw [show (XmlNode.elem "PAMRasterBand" (serChildren b p)).children =
      serChildren b p from rfl, ser_find_Histograms b p htags, hsh]
  rw [hpk]
  simp [shView]

theorem rt_rat (b : Band) (p : GDALRasterBandPamInfo) (htags : TagsOK b p)
    (n : XmlNode) (hrt : p.poDefaultRAT = some n) :
    (pamRoundTrip b (XmlNode.elem "PAMRasterBand" (serChildren b p))).psPam.map ratView =
      some (some n) := by
  have heq : pamRoundTrip b (XmlNode.elem "PAMRasterBand" (serChildren b p)) =
      xiRAT (xiHistograms (xiStats (xiMinMax (xiColorTable (xiCategoryNames (xiColorInterp (xiUnitType (xiOffsetScale (xiNoData (xiDescription (xiMetadata (freshBand b.eDataType b.nBand)
        (XmlNode.elem "PAMRasterBand" (serChildren b p)))
        (XmlNode.elem "PAMRasterBand" (serChildren b p)))
        (XmlNode.elem "PAMRasterBand" (serChildren b p)))
        (XmlNode.elem "PAMRasterBand" (serChildren b p)))
        (XmlNode.elem "PAMRasterBand" (serChildren b p)))
        (XmlNode.elem "PAMRasterBand" (serChildren b p)))
        (XmlNode.elem "PAMRasterBand" (serChildren b p)))
        (XmlNode.elem "PAMRasterBand" (serChildren b p)))
        (XmlNode.elem "PAMRasterBand" (serChildren b p)))
        (XmlNode.elem "PAMRasterBand" (serChildren b p)))
        (XmlNode.elem "PAMRasterBand" (serChildren b p)))
        (XmlNode.elem "PAMRasterBand" (serChildren b p)) := rfl
  rw [heq]
  have hS : ((xiHistograms (xiStats (xiMinMax (xiColorTable (xiCategoryNames (xiColorInterp (xiUnitType (xiOffsetScale (xiNoData (xiDescription (xiMetadata (freshBand b.eDataType b.nBand)
        (XmlNode.elem "PAMRasterBand" (serChildren b p)))
        (XmlNode.elem "PAMRasterBand" (serChildren b p)))
        (XmlNode.elem "PAMRasterBand" (serChildren b p)))
        (XmlNode.elem "PAMRasterBand" (serChildren b p)))
        (XmlNode.elem "PAMRasterBand" (serChildren b p)))
        (XmlNode.elem "PAMRasterBand" (serChildren b p)))
        (XmlNode.elem "PAMRasterBand" (serChildren b p)))
        (XmlNode.elem "PAMRasterBand" (serChildren b p)))
        (XmlNode.elem "PAMRasterBand" (serChildren b p)))
        (XmlNode.elem "PAMRasterBand" (serChildren b p)))
        (XmlNode.elem "PAMRasterBand" (serChildren b p)))).psPam.isSome = true := by
    rw [(xiHistograms_pres _ _).2.2.2.2.2.2.2.2.2.2,
      (xiStats_pres _ _).2.2.2.2.2.2.2.2.2.2,
      (xiMinMax_pres _ _).2.2.2.2.2.2.2.2.2.2,
      (xiColorTable_pres _ _).2.2.2.2.2.2.2.2.2,
      (xiCategoryNames_pres _ _).2.2.2.2.2.2.2.2.2.2,
      (xiColorInterp_pres _ _).2.2.2.2.2.2.2.2.2.2,
      (xiUnitType_pres _ _).2.2.2.2.2.2.2.2.2.2,
      (xiOffsetScale_pres _ _).2.2.2.2.2.2.2.2.2.2,
      (xiNoData_pres _ _).2.2.2.2.2.2.2.2.2.2,
      (xiDescription_pres _ _).1,
      (xiMetadata_pres _ _).2.1]
    rfl
  obtain ⟨pk, hpk⟩ := Option.isSome_iff_exists.mp hS
  unfold xiRAT
  rw [show (XmlNode.elem "PAMRasterBand" (serChildren b p)).children =
      serChildren b p from rfl, ser_find_RATnode b p htags, hrt]
  rw [hpk]
  simp [ratView]

/-- xiNoData when the element is present but the hex attribute is absent:
the result branches on the band data type. -/
theorem xiNoData_some_none (b : Band) (t : XmlNode) (v : XV)
    (h1 : getXMLValue t "NoDataValue" = some v)
    (h2 : getXMLValue2 t "NoDataValue" "le_hex_equiv" = none) :
    xiNoData b t =
      (if b.eDataType = .GDT_Int64 then (setNoDataValueAsInt64 b (strtollXV v)).1
       else if b.eDataType = .GDT_UInt64 then (setNoDataValueAsUInt64 b (strtoullXV v)).1
       else (setNoDataValue b (cplAtofXV v)).1) := by
  unfold xiNoData
  rw [h1, h2]

/-- xiNoData when both the element and the hex attribute carry a double
payload: the exact rational is restored. -/
theorem xiNoData_some_hex (b : Band) (t : XmlNode) (v : XV) (q : ℚ)
    (h1 : getXMLValue t "NoDataValue" = some v)
    (h2 : getXMLValue2 t "NoDataValue" "le_hex_equiv" = some (XV.f q)) :
    xiNoData b t = (setNoDataValue b q).1 := by
  unfold xiNoData
  rw [h1, h2]

theorem rt_nodata_double (b : Band) (p : GDALRasterBandPamInfo) (htags : TagsOK b p)
    (hset : p.bNoDataValueSet = true)
    (hdt64 : p.dfNoDataValue.den ≠ 1 ∨
      (b.eDataType ≠ .GDT_Int64 ∧ b.eDataType ≠ .GDT_UInt64)) :
    (pamRoundTrip b (XmlNode.elem "PAMRasterBand" (serChildren b p))).psPam.map ndView =
      some (true, false, false, p.dfNoDataValue, 0, 0) := by
  have heq : pamRoundTrip b (XmlNode.elem "PAMRasterBand" (serChildren b p)) =
      xiRAT (xiHistograms (xiStats (xiMinMax (xiColorTable (xiCategoryNames (xiColorInterp (xiUnitType (xiOffsetScale (xiNoData (xiDescription (xiMetadata (freshBand b.eDataType b.nBand)
        (XmlNode.elem "PAMRasterBand" (serChildren b p)))
        (XmlNode.elem "PAMRasterBand" (serChildren b p)))
        (XmlNode.elem "PAMRasterBand" (serChildren b p)))
        (XmlNode.elem "PAMRasterBand" (serChildren b p)))
        (XmlNode.elem "PAMRasterBand" (serChildren b p)))
        (XmlNode.elem "PAMRasterBand" (serChildren b p)))
        (XmlNode.elem "PAMRasterBand" (serChildren b p)))
        (XmlNode.elem "PAMRasterBand" (serChildren b p)))
        (XmlNode.elem "PAMRasterBand" (serChildren b p)))
        (XmlNode.elem "PAMRasterBand" (serChildren b p)))
        (XmlNode.elem "PAMRasterBand" (serChildren b p)))
        (XmlNode.elem "PAMRasterBand" (serChildren b p)) := rfl
  rw [heq, (xiRAT_pres _ _).2.1,
    (xiHistograms_pres _ _).2.1,
    (xiStats_pres _ _).2.1,
    (xiMinMax_pres _ _).2.1,
    (xiColorTable_pres _ _).2.1,
    (xiCategoryNames_pres _ _).2.1,
    (xiColorInterp_pres _ _).2.1,
    (xiUnitType_pres _ _).2.1,
    (xiOffsetScale_pres _ _).2.1]
  have hp0 : (xiDescription (xiMetadata (freshBand b.eDataType b.nBand)
        (XmlNode.elem "PAMRasterBand" (serChildren b p)))
      (XmlNode.elem "PAMRasterBand" (serChildren b p))).psPam =
      some { poParentDS := true } := by
    rw [(xiDescription_pres _ _).1, (xiMetadata_pres _ _).2.1]
    rfl
  have hdt : (xiDescription (xiMetadata (freshBand b.eDataType b.nBand)
        (XmlNode.elem "PAMRasterBand" (serChildren b p)))
      (XmlNode.elem "PAMRasterBand" (serChildren b p))).eDataType = b.eDataType := by
    rw [(xiDescription_pres _ _).2, (xiMetadata_pres _ _).2.2]
    rfl
  have h1 : getXMLValue (XmlNode.elem "PAMRasterBand" (serChildren b p)) "NoDataValue" =
      some (XV.f p.dfNoDataValue) := by
    rw [ser_getv_NoDataValue b p htags, if_pos hset]
  by_cases hden : p.dfNoDataValue.den ≠ 1
  · have h2 : getXMLValue2 (XmlNode.elem "PAMRasterBand" (serChildren b p)) "NoDataValue"
        "le_hex_equiv" = some (XV.f p.dfNoDataValue) := by
      rw [ser_getv_NoDataHex b p htags, if_pos ⟨hset, hden⟩]
    rw [xiNoData_some_hex _ _ _ _ h1 h2]
    rw [setNoDataValue_psPam _ _ _ hp0]
    simp [ndView, resetNoDataValues, GDAL_PAM_DEFAULT_NODATA_VALUE,
      GDAL_PAM_DEFAULT_NODATA_VALUE_INT64, GDAL_PAM_DEFAULT_NODATA_VALUE_UINT64]
  · have h2 : getXMLValue2 (XmlNode.elem "PAMRasterBand" (serChildren b p)) "NoDataValue"
        "le_hex_equiv" = none := by
      rw [ser_getv_NoDataHex b p htags,
        if_neg (show ¬(p.bNoDataValueSet = true ∧ p.dfNoDataValue.den ≠ 1) from
          fun hh => hden hh.2)]
    rw [xiNoData_some_none _ _ _ h1 h2]
    rcases hdt64 with hd | ⟨hi, hu⟩
    · exact absurd hd hden
    · rw [hdt, if_neg hi, if_neg hu]
      rw [setNoDataValue_psPam _ _ _ hp0]
      simp [ndView, cplAtofXV, resetNoDataValues, GDAL_PAM_DEFAULT_NODATA_VALUE,
        GDAL_PAM_DEFAULT_NODATA_VALUE_INT64, GDAL_PAM_DEFAULT_NODATA_VALUE_UINT64]

theorem rt_nodata_i64 (b : Band) (p : GDALRasterBandPamInfo) (htags : TagsOK b p)
    (hset : p.bNoDataValueSetAsInt64 = true) (hns : p.bNoDataValueSet = false)
    (hty : b.eDataType = .GDT_Int64) :
    (pamRoundTrip b (XmlNode.elem "PAMRasterBand" (serChildren b p))).psPam.map ndView =
      some (false, true, false, 0, p.nNoDataValueInt64, 0) := by
  have heq : pamRoundTrip b (XmlNode.elem "PAMRasterBand" (serChildren b p)) =
      xiRAT (xiHistograms (xiStats (xiMinMax (xiColorTable (xiCategoryNames (xiColorInterp (xiUnitType (xiOffsetScale (xiNoData (xiDescription (xiMetadata (freshBand b.eDataType b.nBand)
        (XmlNode.elem "PAMRasterBand" (serChildren b p)))
        (XmlNode.elem "PAMRasterBand" (serChildren b p)))
        (XmlNode.elem "PAMRasterBand" (serChildren b p)))
        (XmlNode.elem "PAMRasterBand" (serChildren b p)))
        (XmlNode.elem "PAMRasterBand" (serChildren b p)))
        (XmlNode.elem "PAMRasterBand" (serChildren b p)))
        (XmlNode.elem "PAMRasterBand" (serChildren b p)))
        (XmlNode.elem "PAMRasterBand" (serChildren b p)))
        (XmlNode.elem "PAMRasterBand" (serChildren b p)))
        (XmlNode.elem "PAMRasterBand" (serChildren b p)))
        (XmlNode.elem "PAMRasterBand" (serChildren b p)))
        (XmlNode.elem "PAMRasterBand" (serChildren b p)) := rfl
  rw [heq, (xiRAT_pres _ _).2.1,
    (xiHistograms_pres _ _).2.1,
    (xiStats_pres _ _).2.1,
    (xiMinMax_pres _ _).2.1,
    (xiColorTable_pres _ _).2.1,
    (xiCategoryNames_pres _ _).2.1,
    (xiColorInterp_pres _ _).2.1,
    (xiUnitType_pres _ _).2.1,
    (xiOffsetScale_pres _ _).2.1]
  have hp0 : (xiDescription (xiMetadata (freshBand b.eDataType b.nBand)
        (XmlNode.elem "PAMRasterBand" (serChildren b p)))
      (XmlNode.elem "PAMRasterBand" (serChildren b p))).psPam =
      some { poParentDS := true } := by
    rw [(xiDescription_pres _ _).1, (xiMetadata_pres _ _).2.1]
    rfl
  have hdt : (xiDescription (xiMetadata (freshBand b.eDataType b.nBand)
        (XmlNode.elem "PAMRasterBand" (serChildren b p)))
      (XmlNode.elem "PAMRasterBand" (serChildren b p))).eDataType = b.eDataType := by
    rw [(xiDescription_pres _ _).2, (xiMetadata_pres _ _).2.2]
    rfl
  have h1 : getXMLValue (XmlNode.elem "PAMRasterBand" (serChildren b p)) "NoDataValue" =
      some (XV.i p.nNoDataValueInt64) := by
    rw [ser_getv_NoDataValue b p htags, hns, if_neg (by simp), if_pos hset]
  have h2 : getXMLValue2 (XmlNode.elem "PAMRasterBand" (serChildren b p)) "NoDataValue"
      "le_hex_equiv" = none := by
    rw [ser_getv_NoDataHex b p htags,
      if_neg (show ¬(p.bNoDataValueSet = true ∧ p.dfNoDataValue.den ≠ 1) from
        fun hh => by rw [hns] at hh; exact Bool.false_ne_true hh.1)]
  rw [xiNoData_some_none _ _ _ h1 h2, hdt, if_pos hty]
  rw [setNoDataValueAsInt64_psPam _ _ _ hp0]
  simp [ndView, strtollXV, resetNoDataValues, GDAL_PAM_DEFAULT_NODATA_VALUE,
    GDAL_PAM_DEFAULT_NODATA_VALUE_INT64, GDAL_PAM_DEFAULT_NODATA_VALUE_UINT64]

theorem rt_nodata_u64 (b : Band) (p : GDALRasterBandPamInfo) (htags : TagsOK b p)
    (hset : p.bNoDataValueSetAsUInt64 = true) (hns : p.bNoDataValueSet = false)
    (hni : p.bNoDataValueSetAsInt64 = false)
    (hty : b.eDataType = .GDT_UInt64) :
    (pamRoundTrip b (XmlNode.elem "PAMRasterBand" (serChildren b p))).psPam.map ndView =
      some (false, false, true, 0, 0, p.nNoDataValueUInt64) := by
  have heq : pamRoundTrip b (XmlNode.elem "PAMRasterBand" (serChildren b p)) =
      xiRAT (xiHistograms (xiStats (xiMinMax (xiColorTable (xiCategoryNames (xiColorInterp (xiUnitType (xiOffsetScale (xiNoData (xiDescription (xiMetadata (freshBand b.eDataType b.nBand)
        (XmlNode.elem "PAMRasterBand" (serChildren b p)))
        (XmlNode.elem "PAMRasterBand" (serChildren b p)))
        (XmlNode.elem "PAMRasterBand" (serChildren b p)))
        (XmlNode.elem "PAMRasterBand" (serChildren b p)))
        (XmlNode.elem "PAMRasterBand" (serChildren b p)))
        (XmlNode.elem "PAMRasterBand" (serChildren b p)))
        (XmlNode.elem "PAMRasterBand" (serChildren b p)))
        (XmlNode.elem "PAMRasterBand" (serChildren b p)))
        (XmlNode.elem "PAMRasterBand" (serChildren b p)))
        (XmlNode.elem "PAMRasterBand" (serChildren b p)))
        (XmlNode.elem "PAMRasterBand" (serChildren b p)))
        (XmlNode.elem "PAMRasterBand" (serChildren b p)) := rfl
  rw [heq, (xiRAT_pres _ _).2.1,
    (xiHistograms_pres _ _).2.1,
    (xiStats_pres _ _).2.1,
    (xiMinMax_pres _ _).2.1,
    (xiColorTable_pres _ _).2.1,
    (xiCategoryNames_pres _ _).2.1,
    (xiColorInterp_pres _ _).2.1,
    (xiUnitType_pres _ _).2.1,
    (xiOffsetScale_pres _ _).2.1]
  have hp0 : (xiDescription (xiMetadata (freshBand b.eDataType b.nBand)
        (XmlNode.elem "PAMRasterBand" (serChildren b p)))
      (XmlNode.elem "PAMRasterBand" (serChildren b p))).psPam =
      some { poParentDS := true } := by
    rw [(xiDescription_pres _ _).1, (xiMetadata_pres _ _).2.1]
    rfl
  have hdt : (xiDescription (xiMetadata (freshBand b.eDataType b.nBand)
        (XmlNode.elem "PAMRasterBand" (serChildren b p)))
      (XmlNode.elem "PAMRasterBand" (serChildren b p))).eDataType = b.eDataType := by
    rw [(xiDescription_pres _ _).2, (xiMetadata_pres _ _).2.2]
    rfl
  have h1 : getXMLValue (XmlNode.elem "PAMRasterBand" (serChildren b p)) "NoDataValue" =
      some (XV.u p.nNoDataValueUInt64) := by
    rw [ser_getv_NoDataValue b p htags, hns, hni, if_neg (by simp), if_neg (by simp),
      if_pos hset]
  have h2 : getXMLValue2 (XmlNode.elem "PAMRasterBand" (serChildren b p)) "NoDataValue"
      "le_hex_equiv" = none := by
    rw [ser_getv_NoDataHex b p htags,
      if_neg (show ¬(p.bNoDataValueSet = true ∧ p.dfNoDataValue.den ≠ 1) from
        fun hh => by rw [hns] at hh; exact Bool.false_ne_true hh.1)]
  rw [xiNoData_some_none _ _ _ h1 h2, hdt, if_neg (by rw [hty]; decide), if_pos hty]
  rw [setNoDataValueAsUInt64_psPam _ _ _ hp0]
  simp [ndView, strtoullXV, resetNoDataValues, GDAL_PAM_DEFAULT_NODATA_VALUE,
    GDAL_PAM_DEFAULT_NODATA_VALUE_INT64, GDAL_PAM_DEFAULT_NODATA_VALUE_UINT64]

end RoundTripComponents


/-- A band whose serialization succeeds yields exactly the PAMRasterBand
element over the serialized children of its overlay record. -/
theorem serializeToXML_eq (b : Band) (p : GDALRasterBandPamInfo) (t : XmlNode)
    (hp : b.psPam = some p) (hser : serializeToXML b = some t) :
    t = XmlNode.elem "PAMRasterBand" (serChildren b p) := by
  simp only [serializeToXML, hp] at hser
  by_cases hl : (serChildren b p).length ≤ 1
  · rw [if_pos hl] at hser
    exact absurd hser (by simp)
  · rw [if_neg hl] at hser
    exact (Option.some_inj.mp hser).symm

/-- A GDT_Byte band carrying the int64 nodata variant: its document stores the
value as plain text, and XMLInit on a non-64-bit band reads it back through the
double path. -/
def cexC1Band : Band :=
  { psPam := some { poParentDS := true, bNoDataValueSetAsInt64 := true,
                    nNoDataValueInt64 := 5 },
    eDataType := .GDT_Byte, nBand := 1 }

/-- C1: counterexample — a record on a GDT_Byte band with the int64 nodata
variant set serializes, but deserializing the document leaves the int64 flag
clear (the value lands in the double variant), so the round trip does not
restore every set field of an arbitrary populated record. -/
theorem claim_C1_counterexample :
    cexC1Band.psPam.map (fun q => q.bNoDataValueSetAsInt64) = some true ∧
    (serializeToXML cexC1Band).map (fun t =>
      (pamRoundTrip cexC1Band t).psPam.map (fun q => q.bNoDataValueSetAsInt64)) =
      some (some false) :=
  ⟨rfl, rfl⟩

/-- C1 (amended): on a band whose overlay record is well formed — the nodata
variant agrees with the band data type and the variants are mutually
exclusive, a stored unit string is nonempty, stored offset/scale are not both
at their serialization defaults, stored category names are nonempty, a stored
colour table forces the palette interpretation and short-range channels, and
the stored subtrees carry their canonical tags — deserializing the serialized
document restores every set field of the record. -/
theorem claim_C1_roundtrip (b : Band) (p : GDALRasterBandPamInfo) (t : XmlNode)
    (hp : b.psPam = some p) (htags : TagsOK b p)
    (hser : serializeToXML b = some t)
    (hnd : p.bNoDataValueSet = true →
      p.dfNoDataValue.den ≠ 1 ∨
        (b.eDataType ≠ .GDT_Int64 ∧ b.eDataType ≠ .GDT_UInt64))
    (hnd64 : p.bNoDataValueSetAsInt64 = true →
      p.bNoDataValueSet = false ∧ b.eDataType = .GDT_Int64)
    (hndu64 : p.bNoDataValueSetAsUInt64 = true →
      p.bNoDataValueSet = false ∧ p.bNoDataValueSetAsInt64 = false ∧
        b.eDataType = .GDT_UInt64)
    (hut : ∀ u, p.pszUnitType = some u → u ≠ "")
    (hos : p.bOffsetSet = true ∨ p.bScaleSet = true →
      ¬(p.dfOffset = 0 ∧ p.dfScale = 1))
    (hci : p.poColorTable.isSome = true → p.eColorInterp = .GCI_PaletteIndex)
    (hcn : ∀ l, p.papszCategoryNames = some l → l ≠ [])
    (hct : ∀ e tb, p.poColorTable = some tb → e ∈ tb → shortRange e) :
    (pamRoundTrip b t).description = b.description ∧
    (p.bNoDataValueSet = true →
      (pamRoundTrip b t).psPam.map ndView =
        some (true, false, false, p.dfNoDataValue, 0, 0)) ∧
    (p.bNoDataValueSetAsInt64 = true →
      (pamRoundTrip b t).psPam.map ndView =
        some (false, true, false, 0, p.nNoDataValueInt64, 0)) ∧
    (p.bNoDataValueSetAsUInt64 = true →
      (pamRoundTrip b t).psPam.map ndView =
        some (false, false, true, 0, 0, p.nNoDataValueUInt64)) ∧
    (p.bOffsetSet = true ∨ p.bScaleSet = true →
      (pamRoundTrip b t).psPam.map osView =
        some (true, p.dfOffset, true, p.dfScale)) ∧
    (∀ u, p.pszUnitType = some u →
      (pamRoundTrip b t).psPam.map utView = some (some u)) ∧
    (p.eColorInterp ≠ .GCI_Undefined →
      (pamRoundTrip b t).psPam.map ciView = some p.eColorInterp) ∧
    (∀ l, p.papszCategoryNames = some l →
      (pamRoundTrip b t).psPam.map cnView = some (some l)) ∧
    (∀ tb, p.poColorTable = some tb →
      (pamRoundTrip b t).psPam.map ctView = some (some tb)) ∧
    (p.bHaveMinMax = true →
      (pamRoundTrip b t).psPam.map mmView = some (true, p.dfMin, p.dfMax)) ∧
    (p.bHaveStats = true →
      (pamRoundTrip b t).psPam.map stView = some (true, p.dfMean, p.dfStdDev)) ∧
    (∀ n, p.psSavedHistograms = some n →
      (pamRoundTrip b t).psPam.map shView = some (some n)) ∧
    (∀ n, p.poDefaultRAT = some n →
      (pamRoundTrip b t).psPam.map ratView = some (some n)) := by
  have ht := serializeToXML_eq b p t hp hser
  subst ht
  refine ⟨rt_description b p htags,
    fun hset => rt_nodata_double b p htags hset (hnd hset),
    fun hset => rt_nodata_i64 b p htags hset (hnd64 hset).1 (hnd64 hset).2,
    fun hset => rt_nodata_u64 b p htags hset (hndu64 hset).1 (hndu64 hset).2.1
      (hndu64 hset).2.2,
    fun hOS => rt_offset_scale b p htags (hos hOS),
    fun u hu => rt_unitType b p htags u hu (hut u hu),
    fun hciU => rt_colorInterp b p htags hciU hci,
    fun l hl => rt_categoryNames b p htags l hl (hcn l hl),
    fun tb htb => rt_colorTable b p htags tb htb (fun e he => hct e tb htb he),
    fun hmm => rt_minMax b p htags hmm,
    fun hst => rt_stats b p htags hst,
    fun n hn => rt_histograms b p htags n hn,
    fun n hn => rt_rat b p htags n hn⟩

/-- A well-formed overlay record with a representative combination of set
fields: a double nodata value, a unit, an offset, a colour interpretation,
category names, min/max and statistics. -/
def pC1w : GDALRasterBandPamInfo :=
  { poParentDS := true,
    bNoDataValueSet := true, dfNoDataValue := 7,
    pszUnitType := some "m",
    dfOffset := 2, bOffsetSet := true,
    eColorInterp := .GCI_GrayIndex,
    papszCategoryNames := some ["a"],
    bHaveMinMax := true, dfMin := 1, dfMax := 2,
    bHaveStats := true, dfMean := 3, dfStdDev := 4 }

/-- A GDT_Byte band with description "d" carrying pC1w. -/
def bC1w : Band :=
  { psPam := some pC1w, eDataType := .GDT_Byte, nBand := 1, description := "d" }

/-- The document bC1w serializes to. -/
def tC1w : XmlNode := XmlNode.elem "PAMRasterBand" (serChildren bC1w pC1w)

/-- C1 (amended), witness: the representative well-formed record round-trips,
every set field restored. -/
theorem claim_C1_roundtrip_witness :
    (pamRoundTrip bC1w tC1w).description = "d" ∧
    (pamRoundTrip bC1w tC1w).psPam.map ndView = some (true, false, false, 7, 0, 0) ∧
    (pamRoundTrip bC1w tC1w).psPam.map osView = some (true, 2, true, 1) ∧
    (pamRoundTrip bC1w tC1w).psPam.map utView = some (some "m") ∧
    (pamRoundTrip bC1w tC1w).psPam.map ciView = some .GCI_GrayIndex ∧
    (pamRoundTrip bC1w tC1w).psPam.map cnView = some (some ["a"]) ∧
    (pamRoundTrip bC1w tC1w).psPam.map mmView = some (true, 1, 2) ∧
    (pamRoundTrip bC1w tC1w).psPam.map stView = some (true, 3, 4) := by
  have h := claim_C1_roundtrip bC1w pC1w tC1w rfl
    (by unfold TagsOK
        exact ⟨fun n hn => (nomatch hn), fun n hn => (nomatch hn),
          fun n hn => (nomatch hn)⟩)
    rfl
    (fun _ => Or.inr (And.intro (fun hh => nomatch hh) (fun hh => nomatch hh)))
    (fun hh => nomatch hh)
    (fun hh => nomatch hh)
    (fun u hu => by injection hu with h2; subst h2; decide)
    (fun _ hh => by
      have : (2 : ℚ) = 0 := hh.1
      norm_num at this)
    (fun hh => nomatch hh)
    (fun l hl => by injection hl with h2; subst h2; simp)
    (fun e tb htb _ => nomatch htb)
  exact ⟨h.1, h.2.1 rfl, h.2.2.2.2.1 (Or.inl rfl), h.2.2.2.2.2.1 "m" rfl,
    h.2.2.2.2.2.2.1 (fun hh => (nomatch hh)), h.2.2.2.2.2.2.2.1 ["a"] rfl,
    h.2.2.2.2.2.2.2.2.2.1 rfl, h.2.2.2.2.2.2.2.2.2.2.1 rfl⟩


end GdalPam
